import Mathlib

/-!
SwitchRes / Direct3D9 presenter: verification development.

Shallow embedding of the timing back-ends (`custom_video_ati.cpp`,
`custom_video_adl.cpp`), the monitor range table (`monitor.cpp`) and the
scanline set-up of the Direct3D9 renderer (`drawd3d.cpp`).

Conventions of the embedding:
* C `int` values are `Int`; conversions to `UINT32` are an explicit `% 2^32`,
  conversions back to `int` an explicit two's-complement re-reading.
* C integer division is truncating (`Int.tdiv`).
* `char` buffers are lists of byte values in `[0, 256)`.
* Signed arithmetic is exact: inputs on which the C computation would
  overflow `int` are outside the model.
* `double` and `float` values of `monitor.cpp` and of the mode selection of
  `drawd3d.cpp` are IEEE 754 values: NaN, the infinities, or a rational; every
  operation rounds its exact result to the format, to nearest with ties to
  even (no excess precision, no fused operations).
-/

namespace SwitchRes

/-! ## C integer helpers -/

/-- Conversion of a C `int` to `UINT32`. -/
def toUInt32 (x : Int) : Nat := (x % 4294967296).toNat

/-- Conversion of a `UINT32` value to a C `int` (two's complement). -/
def toInt32 (n : Nat) : Int :=
  if n % 4294967296 < 2147483648 then ((n % 4294967296 : Nat) : Int)
  else ((n % 4294967296 : Nat) : Int) - 4294967296

/-- C truncating integer division. -/
def cdiv (a b : Int) : Int := Int.tdiv a b

/-- C truth value of an `int` used as a condition. -/
def ctrue (x : Int) : Bool := decide (x ≠ 0)

/-- Bitwise `&` of two C `int`s (32-bit two's complement). -/
def cand (a b : Int) : Int := toInt32 (toUInt32 a &&& toUInt32 b)

/-- Bitwise `|` of two C `int`s (32-bit two's complement). -/
def cor (a b : Int) : Int := toInt32 (toUInt32 a ||| toUInt32 b)

/-! ## Binary floating-point values -/

/-- A binary floating-point format of IEEE 754: the precision in bits and the
exponents of the least and of the greatest binade of normal numbers. -/
structure fp_format where
  prec : Nat
  emin : Int
  emax : Int

/-- The format of `float`. -/
def binary32 : fp_format := { prec := 24, emin := -126, emax := 127 }

/-- The format of `double`. -/
def binary64 : fp_format := { prec := 53, emin := -1022, emax := 1023 }

/-- The rational `2 ^ e` for an integer exponent. -/
def pow2 (e : Int) : ℚ :=
  if 0 ≤ e then ((2 ^ e.toNat : Nat) : ℚ) else 1 / ((2 ^ (-e).toNat : Nat) : ℚ)

/-- The number of halvings that bring `n` below 2, at most `fuel` of them. -/
def log2_steps : Nat → Nat → Nat
  | 0, _ => 0
  | fuel + 1, n => if n < 2 then 0 else log2_steps fuel (n / 2) + 1

/-- The exponent `e` with `2 ^ e <= n < 2 ^ (e + 1)` of a positive natural
number. -/
def nat_log2 (n : Nat) : Nat := log2_steps n n

/-- For a non-zero rational `q`, the exponent `e` with
`2 ^ e <= |q| < 2 ^ (e + 1)`. -/
def ilog2 (q : ℚ) : Int :=
  let e0 : Int := (nat_log2 q.num.natAbs : Int) - (nat_log2 q.den : Int)
  if |q| < pow2 e0 then e0 - 1 else e0

/-- The integer nearest to `q`, the even one of the two when `q` lies half way
between them. -/
def round_half_even (q : ℚ) : Int :=
  let f : Int := q.num / (q.den : Int)
  let r : ℚ := q - (f : ℚ)
  if r < 1 / 2 then f else if 1 / 2 < r then f + 1 else if f % 2 = 0 then f else f + 1

/-- A value of a binary floating-point type: NaN, an infinity with its sign, or
a finite value, kept as the rational number it stands for (the two zeros are
not told apart). -/
inductive fp where
  | nan
  | inf (negative : Bool)
  | fin (q : ℚ)
  deriving DecidableEq

/-- Rounding of a rational to the format, to nearest with ties to even, as
IEEE 754 prescribes for conversions and for the result of every operation: the
spacing is that of the binade of `q`, or of the subnormal numbers below
`2 ^ emin`; a result of `2 ^ (emax + 1)` or more is an infinity. -/
def fp_round (F : fp_format) (q : ℚ) : fp :=
  if q = 0 then fp.fin 0
  else
    let e := max (ilog2 q) F.emin
    let ulp := pow2 (e - ((F.prec : Int) - 1))
    let r : ℚ := (round_half_even (q / ulp) : ℚ) * ulp
    if pow2 (F.emax + 1) ≤ |r| then fp.inf (decide (q < 0)) else fp.fin r

/-- Conversion of a value to the format `F` (as in an assignment of a
`double` to a `float`). -/
def fp_convert (F : fp_format) : fp → fp
  | fp.fin q => fp_round F q
  | x => x

/-- The sum of two values, rounded to the format. -/
def fp_add (F : fp_format) : fp → fp → fp
  | fp.nan, _ => fp.nan
  | _, fp.nan => fp.nan
  | fp.inf a, fp.inf b => if a = b then fp.inf a else fp.nan
  | fp.inf a, fp.fin _ => fp.inf a
  | fp.fin _, fp.inf b => fp.inf b
  | fp.fin x, fp.fin y => fp_round F (x + y)

/-- The negation of a value. -/
def fp_neg : fp → fp
  | fp.nan => fp.nan
  | fp.inf a => fp.inf (!a)
  | fp.fin x => fp.fin (-x)

/-- The difference of two values, rounded to the format. -/
def fp_sub (F : fp_format) (a b : fp) : fp := fp_add F a (fp_neg b)

/-- The product of two values, rounded to the format. -/
def fp_mul (F : fp_format) : fp → fp → fp
  | fp.nan, _ => fp.nan
  | _, fp.nan => fp.nan
  | fp.inf a, fp.inf b => fp.inf (a != b)
  | fp.inf a, fp.fin y => if y = 0 then fp.nan else fp.inf (a != decide (y < 0))
  | fp.fin x, fp.inf b => if x = 0 then fp.nan else fp.inf (decide (x < 0) != b)
  | fp.fin x, fp.fin y => fp_round F (x * y)

/-- The quotient of two values, rounded to the format; a zero divisor is taken
as the positive zero. -/
def fp_div (F : fp_format) : fp → fp → fp
  | fp.nan, _ => fp.nan
  | _, fp.nan => fp.nan
  | fp.inf _, fp.inf _ => fp.nan
  | fp.inf a, fp.fin y => fp.inf (a != decide (y < 0))
  | fp.fin _, fp.inf _ => fp.fin 0
  | fp.fin x, fp.fin y =>
    if y = 0 then (if x = 0 then fp.nan else fp.inf (decide (x < 0)))
    else fp_round F (x / y)

/-- The function `fabs`. -/
def fp_abs : fp → fp
  | fp.nan => fp.nan
  | fp.inf _ => fp.inf false
  | fp.fin x => fp.fin |x|

/-- The comparison `a < b`, false when an operand is NaN. -/
def fp_lt : fp → fp → Bool
  | fp.nan, _ => false
  | _, fp.nan => false
  | fp.inf a, fp.inf b => a && !b
  | fp.inf a, fp.fin _ => a
  | fp.fin _, fp.inf b => !b
  | fp.fin x, fp.fin y => decide (x < y)

/-- The comparison `a <= b`, false when an operand is NaN. -/
def fp_le : fp → fp → Bool
  | fp.nan, _ => false
  | _, fp.nan => false
  | fp.inf a, fp.inf b => a || !b
  | fp.inf a, fp.fin _ => a
  | fp.fin _, fp.inf b => !b
  | fp.fin x, fp.fin y => decide (x ≤ y)

/-- The rational a finite value stands for, 0 for NaN and the infinities. -/
def fp_val : fp → ℚ
  | fp.fin q => q
  | _ => 0

/-- The type `double`: the values of `binary64`, with the operators of C. -/
def double : Type := fp

instance : DecidableEq double := inferInstanceAs (DecidableEq fp)

instance : LT double := ⟨fun a b => fp_lt a b = true⟩

instance : LE double := ⟨fun a b => fp_le a b = true⟩

instance (a b : double) : Decidable (a < b) := inferInstanceAs (Decidable (fp_lt a b = true))

instance (a b : double) : Decidable (a ≤ b) := inferInstanceAs (Decidable (fp_le a b = true))

instance : Add double := ⟨fp_add binary64⟩

instance : Sub double := ⟨fp_sub binary64⟩

instance : Mul double := ⟨fp_mul binary64⟩

instance : Div double := ⟨fp_div binary64⟩

/-- Conversion of an integer to `double`: exact up to `2 ^ 53` in magnitude,
which covers every `int`, and rounded beyond. -/
instance : IntCast double :=
  ⟨fun i => if |i| ≤ 9007199254740992 then fp.fin (i : ℚ) else fp_round binary64 (i : ℚ)⟩

/-- An integer literal of type `double`. -/
instance (n : Nat) : OfNat double n := ⟨fp_round binary64 (n : ℚ)⟩

/-- A decimal literal of type `double`. -/
instance : OfScientific double :=
  ⟨fun m s e => fp_round binary64 (OfScientific.ofScientific m s e : ℚ)⟩

/-! ## The modeline record -/

/-- Modelled from the spec: the `modeline` struct is declared in a header
outside the translated sources; these are the integer fields the back-ends
read and write. The derived floating-point fields `hfreq` and `vfreq` are not
part of the embedding. The member `pclock` is of an integer type wider than
`int` (the source casts it to `int`), so its values are not limited to 32
bits; the other members are `int`s. -/
structure modeline where
  pclock : Int
  hactive : Int
  hbegin : Int
  hend : Int
  htotal : Int
  vactive : Int
  vbegin : Int
  vend : Int
  vtotal : Int
  interlace : Int
  hsync : Int
  vsync : Int
  width : Int
  height : Int
  refresh : Int
  refresh_label : Int
  deriving DecidableEq, Repr

/-! ## `sprintf` / `sscanf` fragments used by `custom_video_ati.cpp` -/

/-- Upper-case hexadecimal digit of a value below 16 (as printed by `%X`). -/
def hexDigitChar (n : Nat) : Char :=
  if n < 10 then Char.ofNat (48 + n) else Char.ofNat (55 + n)

/-- Value of a hexadecimal digit character, if it is one. -/
def hexVal (c : Char) : Option Nat :=
  if 48 ≤ c.toNat ∧ c.toNat ≤ 57 then some (c.toNat - 48)
  else if 65 ≤ c.toNat ∧ c.toNat ≤ 70 then some (c.toNat - 55)
  else if 97 ≤ c.toNat ∧ c.toNat ≤ 102 then some (c.toNat - 87)
  else none

/-- Value of a decimal digit character, if it is one. -/
def decVal (c : Char) : Option Nat :=
  if 48 ≤ c.toNat ∧ c.toNat ≤ 57 then some (c.toNat - 48) else none

/-- White space as skipped by `sscanf`. -/
def isSpaceC (c : Char) : Bool :=
  c.toNat = 32 || (9 ≤ c.toNat && c.toNat ≤ 13)

/-- Leading white space removed. -/
def skipSpace : List Char → List Char
  | [] => []
  | c :: cs => if isSpaceC c then skipSpace cs else c :: cs

/-- Output of `sprintf("%02X", b)` for a byte value. -/
def sprintf_02X (b : Nat) : List Char :=
  [hexDigitChar (b / 16 % 16), hexDigitChar (b % 16)]

/-- Output of `sprintf("%d", n)` for a non-negative value. -/
def sprintf_d (n : Nat) : List Char := Nat.toDigits 10 n

/-- One `%02X` conversion of `sscanf`: skips white space, then reads at most
two hexadecimal digits. Returns the value and the rest of the input, or
`none` when no digit is there. -/
def sscanf_02X (s : List Char) : Option (Nat × List Char) :=
  match skipSpace s with
  | [] => none
  | c1 :: rest =>
    match hexVal c1 with
    | none => none
    | some a =>
      match rest with
      | [] => some (a, [])
      | c2 :: rest2 =>
        match hexVal c2 with
        | none => some (a, c2 :: rest2)
        | some b => some (a * 16 + b, rest2)

/-- The digits of a `%08X` conversion: at most `w` hexadecimal digits
accumulated onto `acc`. -/
def scanHexDigits : Nat → Nat → List Char → Nat
  | 0, acc, _ => acc
  | _ + 1, acc, [] => acc
  | w + 1, acc, c :: cs =>
    match hexVal c with
    | none => acc
    | some d => scanHexDigits w (acc * 16 + d) cs

/-- Conversion `sscanf(out, "%08X", &x)`: `none` when no digit is there. -/
def sscanf_08X (s : List Char) : Option Nat :=
  match skipSpace s with
  | [] => none
  | c :: cs =>
    match hexVal c with
    | none => none
    | some d => some (scanHexDigits 7 d cs)

/-- The digits of a `%d` conversion accumulated onto `acc`. -/
def scanDecDigits : Nat → List Char → Nat
  | acc, [] => acc
  | acc, c :: cs =>
    match decVal c with
    | none => acc
    | some d => scanDecDigits (acc * 10 + d) cs

/-- Conversion `sscanf(out, "%d", &x)` on an unsigned digit string: `none`
when the input does not start with a decimal digit (the target is then left
unassigned). -/
def sscanf_d (s : List Char) : Option Nat :=
  match skipSpace s with
  | [] => none
  | c :: cs =>
    match decVal c with
    | none => none
    | some d => some (scanDecDigits d cs)

/-! ## `custom_video_ati.cpp` -/

def CRTC_DOUBLE_SCAN : Int := 0x0001
def CRTC_INTERLACED : Int := 0x0002
def CRTC_H_SYNC_POLARITY : Int := 0x0004
def CRTC_V_SYNC_POLARITY : Int := 0x0008

/-- The byte `lp_data[i] & 0xFF`. -/
def byteAt (lp_data : List Nat) (i : Nat) : Nat := lp_data.getD i 0 % 256

/-- The eight characters `sprintf(out, "%02X%02X%02X%02X", ...)` writes for
the four bytes at offset `i`. -/
def sprintf_dword (i : Nat) (lp_data : List Nat) : List Char :=
  sprintf_02X (byteAt lp_data i) ++ sprintf_02X (byteAt lp_data (i + 1)) ++
  sprintf_02X (byteAt lp_data (i + 2)) ++ sprintf_02X (byteAt lp_data (i + 3))

/-- Source `get_DWORD`: the four bytes at offset `i` printed in hexadecimal
and read back with `%08X`, returned as `int`. -/
def get_DWORD (i : Nat) (lp_data : List Nat) : Option Int :=
  (sscanf_08X (sprintf_dword i lp_data)).map toInt32

/-- Source `get_DWORD_BCD`: the four bytes at offset `i` printed in
hexadecimal and read back with `%d`. -/
def get_DWORD_BCD (i : Nat) (lp_data : List Nat) : Option Int :=
  (sscanf_d (sprintf_dword i lp_data)).map toInt32

/-- Four consecutive `char` stores `data_string[offset] = a; ...;
data_string[offset+3] = d` (each value truncated to a byte). -/
def store4 (data_string : List Nat) (offset : Nat) (a b c d : Nat) : List Nat :=
  (((data_string.set offset (a % 256)).set (offset + 1) (b % 256)).set
    (offset + 2) (c % 256)).set (offset + 3) (d % 256)

/-- Source `set_DWORD`: big-endian store of a `UINT32` (`p_dword[3]` is the
most significant byte on the little-endian host). -/
def set_DWORD (data_string : List Nat) (data_dword : Nat) (offset : Nat) : List Nat :=
  store4 data_string offset (data_dword / 16777216 % 256) (data_dword / 65536 % 256)
    (data_dword / 256 % 256) (data_dword % 256)

/-- The text `sprintf(out, "%d %d %d %d", a, b, c, d)`. -/
def sprintf_d4 (a b c d : Nat) : List Char :=
  sprintf_d a ++ ' ' :: (sprintf_d b ++ ' ' :: (sprintf_d c ++ ' ' :: sprintf_d d))

/-- The conversions `sscanf(out, "%02X %02X %02X %02X", &a, &b, &c, &d)`. -/
def sscanf_02X4 (out : List Char) : Option (Nat × Nat × Nat × Nat) :=
  match sscanf_02X out with
  | none => none
  | some (a, r1) =>
    match sscanf_02X r1 with
    | none => none
    | some (b, r2) =>
      match sscanf_02X r2 with
      | none => none
      | some (c, r3) =>
        match sscanf_02X r3 with
        | none => none
        | some (d, _) => some (a, b, c, d)

/-- Source `set_DWORD_BCD`: values of `10^8` and above are not stored; others
are printed in decimal pairs and read back as hexadecimal bytes. -/
def set_DWORD_BCD (data_string : List Nat) (data_dword : Nat) (offset : Nat) : List Nat :=
  if data_dword < 100000000 then
    let low_word := data_dword % 10000
    let high_word := data_dword / 10000
    match sscanf_02X4 (sprintf_d4 (high_word / 100) (high_word % 100)
        (low_word / 100) (low_word % 100)) with
    | some (a, b, c, d) => store4 data_string offset a b c d
    | none => data_string
  else data_string

/-- The flag word `ati_set_modeline` stores at offset 0. -/
def ati_flags (mode : modeline) : Int :=
  cor (cor (if ctrue mode.interlace then CRTC_INTERLACED else 0)
           (if ctrue mode.hsync then 0 else CRTC_H_SYNC_POLARITY))
      (if ctrue mode.vsync then 0 else CRTC_V_SYNC_POLARITY)

/-- The buffer `lp_data` of `ati_set_modeline` before the checksum is
stored (source lines 134 to 144). The first argument is
`(int)mode->pclock/10000`: the pixel clock is cast to `int` and then
divided. -/
def ati_set_modeline_fields (mode : modeline) : List Nat :=
  let lp_data := List.replicate 68 0
  let lp_data :=
    set_DWORD_BCD lp_data (toUInt32 (cdiv (toInt32 (toUInt32 mode.pclock)) 10000)) 36
  let lp_data := set_DWORD_BCD lp_data (toUInt32 mode.hactive) 8
  let lp_data := set_DWORD_BCD lp_data (toUInt32 mode.hbegin) 12
  let lp_data := set_DWORD_BCD lp_data (toUInt32 (mode.hend - mode.hbegin)) 16
  let lp_data := set_DWORD_BCD lp_data (toUInt32 mode.htotal) 4
  let lp_data := set_DWORD_BCD lp_data (toUInt32 mode.vactive) 24
  let lp_data := set_DWORD_BCD lp_data (toUInt32 mode.vbegin) 28
  let lp_data := set_DWORD_BCD lp_data (toUInt32 (mode.vend - mode.vbegin)) 32
  let lp_data := set_DWORD_BCD lp_data (toUInt32 mode.vtotal) 20
  set_DWORD lp_data (toUInt32 (ati_flags mode)) 0

/-- The 68-byte buffer `ati_set_modeline` writes to the registry (source
lines 134 to 148): the fields, then the checksum at offset 64. In the
checksum the pixel clock is divided without a cast; the `long` result is
passed as `UINT32`. -/
def ati_set_modeline_blob (mode : modeline) : Option (List Nat) :=
  let lp_data := ati_set_modeline_fields mode
  match get_DWORD 0 lp_data with
  | none => none
  | some flags =>
    let checksum := 65535 - flags - mode.htotal - mode.hactive - mode.hend
      - mode.vtotal - mode.vactive - mode.vend - cdiv mode.pclock 10000
    some (set_DWORD lp_data (toUInt32 checksum) 64)

/-- The field extraction of `ati_get_modeline` (source lines 92 to 103 and
106) on a value that was found; `none` when a conversion leaves its target
unassigned. The pixel clock is the product of two `int`s, kept to 32 bits. -/
def ati_get_modeline_fields (lp_data : List Nat) (refresh_label : Int)
    (mode : modeline) : Option modeline :=
  match get_DWORD_BCD 36 lp_data, get_DWORD_BCD 8 lp_data, get_DWORD_BCD 12 lp_data,
        get_DWORD_BCD 16 lp_data, get_DWORD_BCD 4 lp_data, get_DWORD_BCD 24 lp_data,
        get_DWORD_BCD 28 lp_data, get_DWORD_BCD 32 lp_data, get_DWORD_BCD 20 lp_data,
        get_DWORD 0 lp_data with
  | some pc, some ha, some hb, some hw, some ht, some va, some vb, some vw, some vt,
    some fl =>
    some { mode with
      pclock := toInt32 (toUInt32 (pc * 10000))
      hactive := ha
      hbegin := hb
      hend := hw + hb
      htotal := ht
      vactive := va
      vbegin := vb
      vend := vw + vb
      vtotal := vt
      interlace := if ctrue (cand fl CRTC_INTERLACED) then 1 else 0
      hsync := if ctrue (cand fl CRTC_H_SYNC_POLARITY) then 0 else 1
      vsync := if ctrue (cand fl CRTC_V_SYNC_POLARITY) then 0 else 1
      refresh_label := refresh_label }
  | _, _, _, _, _, _, _, _, _, _ => none

/-- The byte that holds the two decimal digits of `k` as hexadecimal
nibbles (the packed-BCD byte of `k`). -/
def bcd (k : Nat) : Nat := 16 * (k / 10) + k % 10

/-- Value that `set_DWORD_BCD` stores and `get_DWORD_BCD` reads back: a
number in `[0, 10^8)`. -/
def bcd_encodable (x : Int) : Prop := 0 ≤ x ∧ x < 100000000

instance (x : Int) : Decidable (bcd_encodable x) := by
  unfold bcd_encodable; infer_instance

/-- The eight timing values `ati_set_modeline` stores are all BCD-encodable. -/
def ati_timings_encodable (m : modeline) : Prop :=
  bcd_encodable m.htotal ∧ bcd_encodable m.hactive ∧ bcd_encodable m.hbegin ∧
  bcd_encodable (m.hend - m.hbegin) ∧ bcd_encodable m.vtotal ∧ bcd_encodable m.vactive ∧
  bcd_encodable m.vbegin ∧ bcd_encodable (m.vend - m.vbegin)

instance (m : modeline) : Decidable (ati_timings_encodable m) := by
  unfold ati_timings_encodable; infer_instance

/-- What `get_DWORD_BCD` reads where `set_DWORD_BCD` was asked to store `v` in
a zeroed buffer: `v`, or 0 when `v` was too large to be stored. -/
def bcd_stored (v : Nat) : Int := if v < 100000000 then (v : Int) else 0

/-! ## `custom_video_adl.cpp` -/

/-- The declarations of `custom_video_adl.h` and `modeline.h` that the
translated functions use and that are not part of the translated sources,
taken as parameters: the three timing-flag masks, the timing-standard codes,
the `MODELINE_DELETE` bit, and the conversion `field` applied when an `int`
is stored in a member of `ADLDetailedTiming`. -/
structure adl_header where
  ADL_DL_TIMINGFLAG_INTERLACED : Nat
  ADL_DL_TIMINGFLAG_H_SYNC_POLARITY : Nat
  ADL_DL_TIMINGFLAG_V_SYNC_POLARITY : Nat
  ADL_DL_MODETIMING_STANDARD_DRIVER_DEFAULT : Int
  ADL_DL_MODETIMING_STANDARD_CUSTOM : Int
  MODELINE_DELETE : Int
  field : Int → Int

/-- The members of `ADLDetailedTiming` that `custom_video_adl.cpp` reads or
writes. -/
structure ADLDetailedTiming where
  sTimingFlags : Int
  sHTotal : Int
  sHDisplay : Int
  sHSyncStart : Int
  sHSyncWidth : Int
  sVTotal : Int
  sVDisplay : Int
  sVSyncStart : Int
  sVSyncWidth : Int
  sPixelClock : Int
  sHOverscanRight : Int
  sHOverscanLeft : Int
  sVOverscanBottom : Int
  sVOverscanTop : Int
  deriving DecidableEq, Repr

/-- The members of `ADLDisplayModeInfo` that `custom_video_adl.cpp` reads or
writes. -/
structure ADLDisplayModeInfo where
  iTimingStandard : Int
  iPossibleStandard : Int
  iRefreshRate : Int
  iPelsWidth : Int
  iPelsHeight : Int
  sDetailedTiming : ADLDetailedTiming
  deriving DecidableEq, Repr

/-- The value of `dt->sTimingFlags` computed by `adl_set_modeline` before it
is stored in the struct member. -/
def adl_timing_flags (H : adl_header) (m : modeline) : Int :=
  cor (cor (if ctrue m.interlace then (H.ADL_DL_TIMINGFLAG_INTERLACED : Int) else 0)
           (if ctrue m.hsync then 0 else (H.ADL_DL_TIMINGFLAG_H_SYNC_POLARITY : Int)))
      (if ctrue m.vsync then 0 else (H.ADL_DL_TIMINGFLAG_V_SYNC_POLARITY : Int))

/-- The `mode_info` that `adl_set_modeline` builds from `m` (source lines 303
to 324) and hands to `ADL_Display_ModeTimingOverride_Set`. -/
def adl_set_modeline_mode_info (H : adl_header) (m : modeline) (update_mode : Int) :
    ADLDisplayModeInfo :=
  { iTimingStandard :=
      if ctrue (cand update_mode H.MODELINE_DELETE)
      then H.ADL_DL_MODETIMING_STANDARD_DRIVER_DEFAULT
      else H.ADL_DL_MODETIMING_STANDARD_CUSTOM
    iPossibleStandard := 0
    iRefreshRate := m.refresh * (if ctrue m.interlace then 2 else 1)
    iPelsWidth := m.width
    iPelsHeight := m.height
    sDetailedTiming :=
      { sTimingFlags := H.field (adl_timing_flags H m)
        sHTotal := H.field m.htotal
        sHDisplay := H.field m.hactive
        sHSyncStart := H.field m.hbegin
        sHSyncWidth := H.field (m.hend - m.hbegin)
        sVTotal := H.field m.vtotal
        sVDisplay := H.field m.vactive
        sVSyncStart := H.field m.vbegin
        sVSyncWidth := H.field (m.vend - m.vbegin)
        sPixelClock := H.field (cdiv m.pclock 10000)
        sHOverscanRight := H.field 0
        sHOverscanLeft := H.field 0
        sVOverscanBottom := H.field 0
        sVOverscanTop := H.field 0 } }

/-- Source `adl_display_mode_info_to_modeline`: the returned `bool` and the
modeline `*m` after the call. -/
def adl_display_mode_info_to_modeline (H : adl_header) (dmi : ADLDisplayModeInfo)
    (m : modeline) : Bool × modeline :=
  if dmi.sDetailedTiming.sHTotal = 0 then (false, m)
  else
    let dt := dmi.sDetailedTiming
    if dt.sHTotal = 0 then (false, m)
    else
      let interlace : Int :=
        if ctrue (cand dt.sTimingFlags H.ADL_DL_TIMINGFLAG_INTERLACED) then 1 else 0
      (true,
        { m with
          htotal := dt.sHTotal
          hactive := dt.sHDisplay
          hbegin := dt.sHSyncStart
          hend := dt.sHSyncWidth + dt.sHSyncStart
          vtotal := dt.sVTotal
          vactive := dt.sVDisplay
          vbegin := dt.sVSyncStart
          vend := dt.sVSyncWidth + dt.sVSyncStart
          interlace := interlace
          hsync := if ctrue (cand dt.sTimingFlags H.ADL_DL_TIMINGFLAG_H_SYNC_POLARITY) then 0 else 1
          vsync := if ctrue (cand dt.sTimingFlags H.ADL_DL_TIMINGFLAG_V_SYNC_POLARITY) then 0 else 1
          pclock := dt.sPixelClock * 10000
          height := if ctrue m.height then m.height else dmi.iPelsHeight
          width := if ctrue m.width then m.width else dmi.iPelsWidth
          refresh := if ctrue m.refresh then m.refresh
            else cdiv dmi.iRefreshRate (if ctrue interlace then 2 else 1) })

/-- Conversion of an `int` to a 16-bit two's-complement `short`. -/
def toShort (x : Int) : Int := (x + 32768) % 65536 - 32768

/-- One instance of the parameters, used to evaluate the functions on
concrete inputs: the values published in the AMD ADL SDK headers (masks 2, 4
and 8, members of type `short`), with `MODELINE_DELETE` taken as bit 0. -/
def adl_sdk_header : adl_header :=
  { ADL_DL_TIMINGFLAG_INTERLACED := 2
    ADL_DL_TIMINGFLAG_H_SYNC_POLARITY := 4
    ADL_DL_TIMINGFLAG_V_SYNC_POLARITY := 8
    ADL_DL_MODETIMING_STANDARD_DRIVER_DEFAULT := 16
    ADL_DL_MODETIMING_STANDARD_CUSTOM := 8
    MODELINE_DELETE := 1
    field := toShort }

/-- The three flag masks are non-zero, pairwise disjoint bit masks of
non-negative `int` constants. -/
def adl_masks_ok (H : adl_header) : Prop :=
  H.ADL_DL_TIMINGFLAG_INTERLACED ≠ 0 ∧ H.ADL_DL_TIMINGFLAG_H_SYNC_POLARITY ≠ 0 ∧
  H.ADL_DL_TIMINGFLAG_V_SYNC_POLARITY ≠ 0 ∧
  H.ADL_DL_TIMINGFLAG_INTERLACED < 2147483648 ∧
  H.ADL_DL_TIMINGFLAG_H_SYNC_POLARITY < 2147483648 ∧
  H.ADL_DL_TIMINGFLAG_V_SYNC_POLARITY < 2147483648 ∧
  H.ADL_DL_TIMINGFLAG_INTERLACED &&& H.ADL_DL_TIMINGFLAG_H_SYNC_POLARITY = 0 ∧
  H.ADL_DL_TIMINGFLAG_INTERLACED &&& H.ADL_DL_TIMINGFLAG_V_SYNC_POLARITY = 0 ∧
  H.ADL_DL_TIMINGFLAG_H_SYNC_POLARITY &&& H.ADL_DL_TIMINGFLAG_V_SYNC_POLARITY = 0

instance (H : adl_header) : Decidable (adl_masks_ok H) := by
  unfold adl_masks_ok; infer_instance

/-- The value `x` fits a member of `ADLDetailedTiming`: storing it does not
change it. -/
def adl_fits (H : adl_header) (x : Int) : Prop := H.field x = x

instance (H : adl_header) (x : Int) : Decidable (adl_fits H x) := by
  unfold adl_fits; infer_instance

/-- The flag word and the eight timing values of `m` fit the members of
`ADLDetailedTiming`. -/
def adl_timings_fit (H : adl_header) (m : modeline) : Prop :=
  adl_fits H (adl_timing_flags H m) ∧
  adl_fits H m.htotal ∧ adl_fits H m.hactive ∧ adl_fits H m.hbegin ∧
  adl_fits H (m.hend - m.hbegin) ∧ adl_fits H m.vtotal ∧ adl_fits H m.vactive ∧
  adl_fits H m.vbegin ∧ adl_fits H (m.vend - m.vbegin)

instance (H : adl_header) (m : modeline) : Decidable (adl_timings_fit H m) := by
  unfold adl_timings_fit; infer_instance

/-! ## `monitor.cpp` -/

def HFREQ_MIN : double := 14000
def HFREQ_MAX : double := 100000
def VFREQ_MIN : double := 40
def VFREQ_MAX : double := 200
def PROGRESSIVE_LINES_MIN : Int := 128

/-- Modelled from the spec: the `monitor_range` struct is declared in a
header outside the translated sources; the members are those `monitor.cpp`
reads and writes (`double` members as `double`, `int` members as integers). -/
structure monitor_range where
  hfreq_min : double
  hfreq_max : double
  vfreq_min : double
  vfreq_max : double
  hfront_porch : double
  hsync_pulse : double
  hback_porch : double
  vfront_porch : double
  vsync_pulse : double
  vback_porch : double
  hsync_polarity : Int
  vsync_polarity : Int
  progressive_lines_min : Int
  progressive_lines_max : Int
  interlaced_lines_min : Int
  interlaced_lines_max : Int
  vertical_blank : double
  deriving DecidableEq

/-- Source `monitor_evaluate_range`: 0 when the range is accepted, 1 when a
check fails (the checks are made in the order of the source). The comparisons
and operations on `double` members are those of `double`; an `int` operand of
a `double` operation is converted to `double`. -/
def monitor_evaluate_range (range : monitor_range) : Int :=
  -- First we check that all frequency ranges are reasonable
  if range.hfreq_min < HFREQ_MIN ∨ range.hfreq_min > HFREQ_MAX then 1
  else if range.hfreq_max < HFREQ_MIN ∨ range.hfreq_max < range.hfreq_min
      ∨ range.hfreq_max > HFREQ_MAX then 1
  else if range.vfreq_min < VFREQ_MIN ∨ range.vfreq_min > VFREQ_MAX then 1
  else if range.vfreq_max < VFREQ_MIN ∨ range.vfreq_max < range.vfreq_min
      ∨ range.vfreq_max > VFREQ_MAX then 1
  else
    -- line_time in us: no horizontal value is longer than a whole line
    let line_time : double := 1 / range.hfreq_max * 1000000
    if range.hfront_porch ≤ 0 ∨ range.hfront_porch > line_time then 1
    else if range.hsync_pulse ≤ 0 ∨ range.hsync_pulse > line_time then 1
    else if range.hback_porch ≤ 0 ∨ range.hback_porch > line_time then 1
    else
      -- frame_time in ms: no vertical value is longer than a whole frame
      let frame_time : double := 1 / range.vfreq_max * 1000
      if range.vfront_porch ≤ 0 ∨ range.vfront_porch > frame_time then 1
      else if range.vsync_pulse ≤ 0 ∨ range.vsync_pulse > frame_time then 1
      else if range.vback_porch ≤ 0 ∨ range.vback_porch > frame_time then 1
      -- sync polarities
      else if range.hsync_polarity ≠ 0 ∧ range.hsync_polarity ≠ 1 then 1
      else if range.vsync_polarity ≠ 0 ∧ range.vsync_polarity ≠ 1 then 1
      -- progressive range
      else if range.progressive_lines_min > 0
          ∧ range.progressive_lines_min < PROGRESSIVE_LINES_MIN then 1
      else if ((range.progressive_lines_min : double) + range.hfreq_max * range.vertical_blank)
          * range.vfreq_min > range.hfreq_max then 1
      else if range.progressive_lines_max < range.progressive_lines_min then 1
      else if ((range.progressive_lines_max : double) + range.hfreq_max * range.vertical_blank)
          * range.vfreq_min > range.hfreq_max then 1
      -- interlaced range
      else if range.interlaced_lines_min ≠ 0 then
        if range.interlaced_lines_min < range.progressive_lines_max then 1
        else if range.interlaced_lines_min < PROGRESSIVE_LINES_MIN * 2 then 1
        else if (((cdiv range.interlaced_lines_min 2 : Int) : double)
            + range.hfreq_max * range.vertical_blank) * range.vfreq_min > range.hfreq_max then 1
        else if range.interlaced_lines_max < range.interlaced_lines_min then 1
        else if (((cdiv range.interlaced_lines_max 2 : Int) : double)
            + range.hfreq_max * range.vertical_blank) * range.vfreq_min > range.hfreq_max then 1
        else 0
      else
        if range.interlaced_lines_max ≠ 0 then 1
        else 0

/-- Source `monitor_fill_range`: the returned `int` and the destination
`*range` after the call. The C library call `sscanf(specs_line, "%lf-%lf,...")`
is the parameter `scan`: it gives the conversion count `e` and the local
`new_range` with the converted members. -/
def monitor_fill_range (scan : String → Int × monitor_range) (range : monitor_range)
    (specs_line : String) : Int × monitor_range :=
  if specs_line ≠ "auto" then
    let (e, new_range) := scan specs_line
    if e ≠ 16 then (-1, range)
    else
      let new_range := { new_range with vfront_porch := new_range.vfront_porch / 1000 }
      let new_range := { new_range with vsync_pulse := new_range.vsync_pulse / 1000 }
      let new_range := { new_range with vback_porch := new_range.vback_porch / 1000 }
      let new_range := { new_range with
        vertical_blank := new_range.vfront_porch + new_range.vsync_pulse + new_range.vback_porch }
      if monitor_evaluate_range new_range ≠ 0 then (-1, range)
      else (0, new_range)
  else (0, range)

/-- The local `new_range` of `monitor_fill_range` as handed to
`monitor_evaluate_range`: vertical porches divided by 1000 and
`vertical_blank` set to their sum. -/
def monitor_parsed_range (new_range : monitor_range) : monitor_range :=
  { new_range with
    vfront_porch := new_range.vfront_porch / 1000
    vsync_pulse := new_range.vsync_pulse / 1000
    vback_porch := new_range.vback_porch / 1000
    vertical_blank := new_range.vfront_porch / 1000 + new_range.vsync_pulse / 1000
      + new_range.vback_porch / 1000 }

/-! ### A decimal model of the `sscanf` call of `monitor_fill_range` -/

/-- A converted value of the `sscanf` call; for `%lf` the decimal value
read, before it is rounded to `double`. -/
inductive scan_val where
  | dbl (q : ℚ)
  | int (i : Int)
  deriving DecidableEq

/-- A directive of the format string. -/
inductive fmt_item where
  | lf
  | d
  | lit (c : Char)
  deriving DecidableEq

/-- Leading decimal digits: accumulated value, number of digits, rest. -/
def scanDigits : Nat → Nat → List Char → Nat × Nat × List Char
  | acc, n, [] => (acc, n, [])
  | acc, n, c :: cs =>
    match decVal c with
    | none => (acc, n, c :: cs)
    | some v => scanDigits (acc * 10 + v) (n + 1) cs

/-- Optional sign: `true` for a minus sign. -/
def scanSign : List Char → Bool × List Char
  | [] => (false, [])
  | c :: cs => if c = '-' then (true, cs) else if c = '+' then (false, cs) else (false, c :: cs)

/-- Conversion `%d` on decimal input. -/
def sscanf_int (s : List Char) : Option (Int × List Char) :=
  let (neg, s1) := scanSign (skipSpace s)
  let (v, n, rest) := scanDigits 0 0 s1
  if n = 0 then none else some (if neg then -(v : Int) else (v : Int), rest)

/-- Conversion `%lf` on input in plain decimal notation (sign, digits,
optional fraction); exponents, hexadecimal floats, infinities and NaN are
outside this model. -/
def sscanf_lf (s : List Char) : Option (ℚ × List Char) :=
  let (neg, s1) := scanSign (skipSpace s)
  let (ip, n1, r1) := scanDigits 0 0 s1
  match r1 with
  | [] => if n1 = 0 then none else some (if neg then -(ip : ℚ) else (ip : ℚ), [])
  | c :: r2 =>
    if c = '.' then
      let (fp, n2, r3) := scanDigits 0 0 r2
      let q : ℚ := (ip : ℚ) + (fp : ℚ) / (10 : ℚ) ^ n2
      if n1 + n2 = 0 then none else some (if neg then -q else q, r3)
    else if n1 = 0 then none else some (if neg then -(ip : ℚ) else (ip : ℚ), c :: r2)

/-- The directives of a format run on the input, the converted values
appended to `acc` until a directive fails. -/
def sscanf_run : List fmt_item → List Char → List scan_val → List scan_val
  | [], _, acc => acc
  | fmt_item.lf :: fs, s, acc =>
    match sscanf_lf s with
    | none => acc
    | some (q, rest) => sscanf_run fs rest (acc ++ [scan_val.dbl q])
  | fmt_item.d :: fs, s, acc =>
    match sscanf_int s with
    | none => acc
    | some (i, rest) => sscanf_run fs rest (acc ++ [scan_val.int i])
  | fmt_item.lit c :: fs, s, acc =>
    match s with
    | [] => acc
    | c1 :: rest => if c1 = c then sscanf_run fs rest acc else acc

/-- The format `"%lf-%lf,%lf-%lf,%lf,%lf,%lf,%lf,%lf,%lf,%d,%d,%d,%d,%d,%d"`. -/
def monitor_range_format : List fmt_item :=
  [fmt_item.lf, fmt_item.lit '-', fmt_item.lf, fmt_item.lit ',',
   fmt_item.lf, fmt_item.lit '-', fmt_item.lf, fmt_item.lit ',',
   fmt_item.lf, fmt_item.lit ',', fmt_item.lf, fmt_item.lit ',', fmt_item.lf, fmt_item.lit ',',
   fmt_item.lf, fmt_item.lit ',', fmt_item.lf, fmt_item.lit ',', fmt_item.lf, fmt_item.lit ',',
   fmt_item.d, fmt_item.lit ',', fmt_item.d, fmt_item.lit ',', fmt_item.d, fmt_item.lit ',',
   fmt_item.d, fmt_item.lit ',', fmt_item.d, fmt_item.lit ',', fmt_item.d]

/-- The `double` converted at position `i` (the decimal value rounded to
`double`), 0 when there is none. -/
def scan_dbl (vs : List scan_val) (i : Nat) : double :=
  match vs.get? i with
  | some (scan_val.dbl q) => fp_round binary64 q
  | _ => 0

/-- The `int` converted at position `i`, 0 when there is none. -/
def scan_int (vs : List scan_val) (i : Nat) : Int :=
  match vs.get? i with
  | some (scan_val.int v) => v
  | _ => 0

/-- Decimal model of `sscanf(specs_line, "%lf-%lf,...,%d", &new_range...)`:
the number of conversions (`EOF` = -1 when the input ends before the first
one) and `new_range` with the converted members (members not converted, and
`vertical_blank`, which the call does not touch, are shown as 0). -/
def sscanf_monitor_range (specs_line : String) : Int × monitor_range :=
  let vs := sscanf_run monitor_range_format specs_line.toList []
  let e : Int := if vs = [] ∧ skipSpace specs_line.toList = [] then -1 else (vs.length : Int)
  (e,
    { hfreq_min := scan_dbl vs 0
      hfreq_max := scan_dbl vs 1
      vfreq_min := scan_dbl vs 2
      vfreq_max := scan_dbl vs 3
      hfront_porch := scan_dbl vs 4
      hsync_pulse := scan_dbl vs 5
      hback_porch := scan_dbl vs 6
      vfront_porch := scan_dbl vs 7
      vsync_pulse := scan_dbl vs 8
      vback_porch := scan_dbl vs 9
      hsync_polarity := scan_int vs 10
      vsync_polarity := scan_int vs 11
      progressive_lines_min := scan_int vs 12
      progressive_lines_max := scan_int vs 13
      interlaced_lines_min := scan_int vs 14
      interlaced_lines_max := scan_int vs 15
      vertical_blank := 0 })

/-! ## `drawd3d.cpp`: scanline set-up of `renderer_d3d9::device_create` -/

/-- The outcomes of `CreateDevice` that `device_create` tells apart: success,
`D3DERR_DEVICELOST`, any other failure. -/
inductive create_device_result where
  | ok
  | devicelost
  | failed
  deriving DecidableEq, Repr

/-- The members of `renderer_d3d9` that `device_create` reads or writes in
the part translated here (`m_device` as "a device exists"; a null
`m_switchres_mode` is `none`). -/
structure renderer_d3d9 where
  m_vendor_id : Int
  m_switchres_mode : Option modeline
  m_height : Int
  m_create_error_count : Int
  m_device : Bool
  m_first_scanline : Int
  m_last_scanline : Int
  m_break_scanline : Int
  m_delay_scanline : Int
  deriving DecidableEq, Repr

/-- What `device_create` obtains from outside the renderer: the result of
`device_verify_caps`, whether the `CheckDeviceFormat` retries end with a
screen texture format, the outcome of `CreateDevice`, the options
`vsync_offset` and `frame_delay`, and the result of
`device_create_resources`. -/
structure device_create_env where
  verify_caps : Int
  screen_format_found : Bool
  create_device : create_device_result
  vsync_offset : Int
  frame_delay : Int
  create_resources : Int
  deriving DecidableEq, Repr

/-- The mode for which `m_switchres_mode && m_switchres_mode->vtotal` holds,
if any. -/
def switchres_active (r : renderer_d3d9) : Option modeline :=
  match r.m_switchres_mode with
  | none => none
  | some m => if ctrue m.vtotal then some m else none

/-- The divisor `(m_switchres_mode->interlace ? 2 : 1)`. -/
def interlace_factor (m : modeline) : Int := if ctrue m.interlace then 2 else 1

/-- The scanline set-up of `device_create` (source lines 941 to 973). -/
def device_create_scanlines (r : renderer_d3d9) (vsync_offset frame_delay : Int) :
    renderer_d3d9 :=
  let first_last : Int × Int :=
    if r.m_vendor_id = 0x1002 then -- ATI
      (match switchres_active r with
        | some m => cdiv (m.vtotal - m.vbegin) (interlace_factor m)
        | none => 1,
       match switchres_active r with
        | some m => m.vactive + cdiv (m.vtotal - m.vbegin) (interlace_factor m)
        | none => r.m_height)
    else if r.m_vendor_id = 0x8086 then -- Intel
      (1,
       match switchres_active r with
        | some m => cdiv m.vactive (interlace_factor m)
        | none => r.m_height)
    else -- NVIDIA (0x10DE) + others
      (0,
       match switchres_active r with
        | some m => cdiv (m.vactive - 1) (interlace_factor m)
        | none => r.m_height - 1)
  let m_first_scanline := first_last.1
  let m_last_scanline := first_last.2
  let m_break_scanline := m_last_scanline - vsync_offset
  let m_break_scanline :=
    if m_break_scanline > m_first_scanline then m_break_scanline else m_last_scanline
  let m_delay_scanline := m_first_scanline +
    cdiv ((match switchres_active r with
            | some m => m.vtotal
            | none => r.m_height) * (frame_delay - 1)) 10
  { r with
    m_first_scanline := m_first_scanline
    m_last_scanline := m_last_scanline
    m_break_scanline := m_break_scanline
    m_delay_scanline := m_delay_scanline }

/-- Source `renderer_d3d9::device_create`: the returned `int` and the
renderer after the call. -/
def device_create (env : device_create_env) (r : renderer_d3d9) : Int × renderer_d3d9 :=
  -- if a device exists, free it
  let r := if r.m_device then { r with m_device := false } else r
  if env.verify_caps ≠ 0 then (1, r)
  else if ¬ env.screen_format_found then (1, r)
  else
    match env.create_device with
    | create_device_result.devicelost =>
      let r := { r with m_create_error_count := r.m_create_error_count + 1 }
      if r.m_create_error_count < 10 then (0, r) else (1, r)
    | create_device_result.failed => (1, r)
    | create_device_result.ok =>
      let r := { r with m_create_error_count := 0, m_device := true }
      let r := device_create_scanlines r env.vsync_offset env.frame_delay
      (env.create_resources, r)

/-- The environment in which `device_create` reaches the scanline set-up:
caps verified, a screen format found, `CreateDevice` succeeded. -/
def device_created (env : device_create_env) : Prop :=
  env.verify_caps = 0 ∧ env.screen_format_found = true
    ∧ env.create_device = create_device_result.ok

instance (env : device_create_env) : Decidable (device_created env) := by
  unfold device_created; infer_instance

/-! ## Sample inputs and proof-side definitions -/

/-- The modeline that the field extraction of `ati_get_modeline` produces
from the blob built for `m`, whatever `m` is. -/
def ati_decoded (m mode : modeline) (refresh_label : Int) : modeline :=
  { mode with
    pclock := toInt32 (toUInt32
      (bcd_stored (toUInt32 (cdiv (toInt32 (toUInt32 m.pclock)) 10000)) * 10000))
    hactive := bcd_stored (toUInt32 m.hactive)
    hbegin := bcd_stored (toUInt32 m.hbegin)
    hend := bcd_stored (toUInt32 (m.hend - m.hbegin)) + bcd_stored (toUInt32 m.hbegin)
    htotal := bcd_stored (toUInt32 m.htotal)
    vactive := bcd_stored (toUInt32 m.vactive)
    vbegin := bcd_stored (toUInt32 m.vbegin)
    vend := bcd_stored (toUInt32 (m.vend - m.vbegin)) + bcd_stored (toUInt32 m.vbegin)
    vtotal := bcd_stored (toUInt32 m.vtotal)
    interlace := if ctrue (cand (ati_flags m) CRTC_INTERLACED) then 1 else 0
    hsync := if ctrue (cand (ati_flags m) CRTC_H_SYNC_POLARITY) then 0 else 1
    vsync := if ctrue (cand (ati_flags m) CRTC_V_SYNC_POLARITY) then 0 else 1
    refresh_label := refresh_label }

/-- A 320x240 interlaced modeline with positive hsync and negative vsync, used
to evaluate the back-ends. -/
def sample_modeline : modeline :=
  { pclock := 6144123, hactive := 320, hbegin := 336, hend := 367, htotal := 392,
    vactive := 240, vbegin := 244, vend := 247, vtotal := 262,
    interlace := 1, hsync := 1, vsync := 0,
    width := 320, height := 240, refresh := 60, refresh_label := 0 }

/-- The flag word of `adl_set_modeline` as a natural number. -/
def adl_flag_bits (H : adl_header) (m : modeline) : Nat :=
  (if ctrue m.interlace then H.ADL_DL_TIMINGFLAG_INTERLACED else 0) |||
  (if ctrue m.hsync then 0 else H.ADL_DL_TIMINGFLAG_H_SYNC_POLARITY) |||
  (if ctrue m.vsync then 0 else H.ADL_DL_TIMINGFLAG_V_SYNC_POLARITY)


/-- The range of the `pal` preset of `monitor_set_preset`, as parsed. -/
def pal_range : monitor_range :=
  { hfreq_min := 15625, hfreq_max := 15625, vfreq_min := 50, vfreq_max := 50,
    hfront_porch := 1.5, hsync_pulse := 4.7, hback_porch := 5.8,
    vfront_porch := 0.064 / 1000, vsync_pulse := 0.160 / 1000, vback_porch := 1.056 / 1000,
    hsync_polarity := 0, vsync_polarity := 0,
    progressive_lines_min := 192, progressive_lines_max := 288,
    interlaced_lines_min := 448, interlaced_lines_max := 576,
    vertical_blank := 0.064 / 1000 + 0.160 / 1000 + 1.056 / 1000 }

/-- The `pal` range with every `double` member NaN. -/
def nan_range : monitor_range :=
  { hfreq_min := fp.nan, hfreq_max := fp.nan, vfreq_min := fp.nan, vfreq_max := fp.nan,
    hfront_porch := fp.nan, hsync_pulse := fp.nan, hback_porch := fp.nan,
    vfront_porch := fp.nan, vsync_pulse := fp.nan, vback_porch := fp.nan,
    hsync_polarity := 0, vsync_polarity := 0,
    progressive_lines_min := 192, progressive_lines_max := 288,
    interlaced_lines_min := 448, interlaced_lines_max := 576,
    vertical_blank := fp.nan }

/-- The `pal` range with 300 progressive lines, no interlace, no vertical
blanking, and the vertical frequency `7330077518506667 / 2 ^ 47`, the `double`
next above `15625 / 300`. -/
def rounding_range : monitor_range :=
  { pal_range with
    vfreq_min := fp.fin (7330077518506667 / 140737488355328)
    vfreq_max := fp.fin (7330077518506667 / 140737488355328)
    progressive_lines_min := 300, progressive_lines_max := 300
    interlaced_lines_min := 0, interlaced_lines_max := 0
    vertical_blank := 0 }

/-- A destination range with every member 0. -/
def zero_range : monitor_range :=
  { hfreq_min := 0, hfreq_max := 0, vfreq_min := 0, vfreq_max := 0,
    hfront_porch := 0, hsync_pulse := 0, hback_porch := 0,
    vfront_porch := 0, vsync_pulse := 0, vback_porch := 0,
    hsync_polarity := 0, vsync_polarity := 0,
    progressive_lines_min := 0, progressive_lines_max := 0,
    interlaced_lines_min := 0, interlaced_lines_max := 0,
    vertical_blank := 0 }

/-- The `pal` range with `progressive_lines_min` given as 0. -/
def pal_range_min0 : monitor_range := { pal_range with progressive_lines_min := 0 }

/-- A 320x240 progressive SwitchRes mode with 262 total lines. -/
def sample_mode_240p : modeline :=
  { pclock := 6700000, hactive := 320, hbegin := 336, hend := 367, htotal := 426,
    vactive := 240, vbegin := 244, vend := 247, vtotal := 262,
    interlace := 0, hsync := 0, vsync := 0,
    width := 320, height := 240, refresh := 60, refresh_label := 0 }

/-- A renderer on an AMD/ATI adapter with the sample mode active. -/
def sample_renderer : renderer_d3d9 :=
  { m_vendor_id := 0x1002, m_switchres_mode := some sample_mode_240p, m_height := 240,
    m_create_error_count := 0, m_device := false,
    m_first_scanline := 0, m_last_scanline := 0, m_break_scanline := 0, m_delay_scanline := 0 }

/-- A windowed renderer (no SwitchRes mode) on an Intel adapter whose client
area is one pixel high. -/
def windowed_renderer : renderer_d3d9 :=
  { m_vendor_id := 0x8086, m_switchres_mode := none, m_height := 1,
    m_create_error_count := 0, m_device := false,
    m_first_scanline := 0, m_last_scanline := 0, m_break_scanline := 0, m_delay_scanline := 0 }

/-- An environment in which the device is created, with `vsync_offset = 4`
and `frame_delay = 3`. -/
def sample_env : device_create_env :=
  { verify_caps := 0, screen_format_found := true, create_device := create_device_result.ok,
    vsync_offset := 4, frame_delay := 3, create_resources := 0 }

/-! ## `drawd3d.cpp`: repeated device creation -/

/-- The environment in which `CreateDevice` is reached and returns
`D3DERR_DEVICELOST`. -/
def device_lost (env : device_create_env) : Prop :=
  env.verify_caps = 0 ∧ env.screen_format_found = true
    ∧ env.create_device = create_device_result.devicelost

instance (env : device_create_env) : Decidable (device_lost env) := by
  unfold device_lost; infer_instance

/-- Successive calls of `device_create`, one per environment of the list:
the values returned, in order, and the renderer after the last call. -/
def device_create_seq : List device_create_env → renderer_d3d9 → List Int × renderer_d3d9
  | [], r => ([], r)
  | env :: envs, r =>
    let res := device_create env r
    let rest := device_create_seq envs res.2
    (res.1 :: rest.1, rest.2)

/-! ## `drawd3d.cpp`: `renderer_d3d9::end_frame` and presentation parameters -/

/-- The members of `D3DRASTER_STATUS` (`ScanLine` is a `UINT`). -/
structure D3DRASTER_STATUS where
  InVBlank : Bool
  ScanLine : Nat
  deriving DecidableEq, Repr

/-- The test `raster_status.ScanLine < m_delay_scanline && !raster_status.InVBlank`
of `end_frame` (source line 776); the `int` member is converted to unsigned
for the comparison with the `UINT`. -/
def missed_retrace (r : renderer_d3d9) (raster_status : D3DRASTER_STATUS) : Bool :=
  decide (raster_status.ScanLine < toUInt32 r.m_delay_scanline) && !raster_status.InVBlank

/-- A polling loop `do { if (GetRasterStatus(...) != D3D_OK) break; } while (again status)`
of `end_frame`. `raster i` is the outcome of the `i`-th call of
`GetRasterStatus` (`none` when it does not return `D3D_OK`); the result is the
number of calls made when the loop ends, `none` when `fuel` iterations do not
end it. -/
def raster_wait (again : D3DRASTER_STATUS → Bool) (raster : Nat → Option D3DRASTER_STATUS) :
    Nat → Nat → Option Nat
  | 0, _ => none
  | fuel + 1, i =>
    match raster i with
    | none => some (i + 1)
    | some raster_status =>
      if again raster_status then raster_wait again raster fuel (i + 1) else some (i + 1)

/-- What `end_frame` does with the raster: the number of "probably missed
retrace" messages it prints and the number of `GetRasterStatus` calls made
when it returns (`none` when a wait does not end within `fuel` polls). -/
structure end_frame_result where
  warnings : Nat
  polls : Option Nat
  deriving DecidableEq, Repr

/-- Source `renderer_d3d9::end_frame`, the raster synchronisation (source
lines 770 to 804); the device calls that do not read the raster (flush,
`EndScene`, `Present`) are not part of the embedding. -/
def end_frame (frame_delay : Int) (syncrefresh : Bool) (r : renderer_d3d9)
    (raster : Nat → Option D3DRASTER_STATUS) (fuel : Nat) : end_frame_result :=
  if frame_delay ≠ 0 ∧ syncrefresh = true then
    -- check if retrace has been missed
    let warnings : Nat :=
      match raster 0 with
      | some raster_status => if missed_retrace r raster_status then 1 else 0
      | none => 0
    -- sync to VBLANK-BEGIN
    match raster_wait
        (fun st => !st.InVBlank && decide (st.ScanLine < toUInt32 r.m_break_scanline))
        raster fuel 1 with
    | none => { warnings := warnings, polls := none }
    | some i =>
      -- present, then sync to VBLANK-END
      { warnings := warnings
        polls := raster_wait
          (fun st => decide (st.ScanLine ≥ toUInt32 r.m_break_scanline)
            || decide (st.ScanLine ≤ toUInt32 r.m_first_scanline))
          raster fuel i }
  else { warnings := 0, polls := some 0 }

/-- The two values of `PresentationInterval` that
`update_presentation_parameters` chooses between. -/
inductive present_interval where
  | D3DPRESENT_INTERVAL_ONE
  | D3DPRESENT_INTERVAL_IMMEDIATE
  deriving DecidableEq, Repr

/-- The members of `D3DPRESENT_PARAMETERS` that depend on the renderer, the
window or the options (the remaining members are set to constants). -/
structure D3DPRESENT_PARAMETERS where
  BackBufferWidth : Int
  BackBufferHeight : Int
  BackBufferFormat : Int
  BackBufferCount : Int
  Windowed : Bool
  Flags : Int
  FullScreen_RefreshRateInHz : Int
  PresentationInterval : present_interval
  deriving DecidableEq, Repr

/-- What `update_presentation_parameters` reads: renderer members, window
state, and the options (`video_config` members as truth values). -/
structure presentation_inputs where
  m_width : Int
  m_height : Int
  m_pixformat : Int
  m_refresh : Int
  fullscreen : Bool
  win_has_menu : Bool
  frame_delay : Int
  triplebuf : Bool
  waitvsync : Bool
  syncrefresh : Bool
  deriving DecidableEq, Repr

/-- Source `renderer_d3d9::update_presentation_parameters`: the value of
`m_presentation` it builds. -/
def update_presentation_parameters (p : presentation_inputs) : D3DPRESENT_PARAMETERS :=
  { BackBufferWidth := p.m_width
    BackBufferHeight := p.m_height
    BackBufferFormat := p.m_pixformat
    BackBufferCount := 1
    Windowed := !p.fullscreen || p.win_has_menu
    Flags := 0
    FullScreen_RefreshRateInHz := p.m_refresh
    PresentationInterval :=
      if p.frame_delay = 0 ∧
          ((p.triplebuf = true ∧ p.fullscreen = true) ∨ p.waitvsync = true
            ∨ p.syncrefresh = true)
      then present_interval.D3DPRESENT_INTERVAL_ONE
      else present_interval.D3DPRESENT_INTERVAL_IMMEDIATE }

/-! ## `drawd3d.cpp`: `ycc_to_rgb` -/

/-- Arithmetic right shift `x >> k` of a C `int`. -/
def casr (x : Int) (k : Nat) : Int := x / 2 ^ k

/-- Modelled from the spec: the class `rgb_t` is declared outside the
translated sources; a value built by `rgb_t(a, r, g, b)` is the four channels
it was built from. -/
structure rgb_t where
  a : Int
  r : Int
  g : Int
  b : Int
  deriving DecidableEq, Repr

/-- The clamping `if (v < 0) v = 0; else if (v > 255) v = 255;` of
`ycc_to_rgb`. -/
def clamp255 (v : Int) : Int := if v < 0 then 0 else if v > 255 then 255 else v

/-- Source `ycc_to_rgb`, on `UINT8` arguments. -/
def ycc_to_rgb (y cb cr : Nat) : rgb_t :=
  let common : Int := 298 * y - 298 * 16
  let r : Int := casr (common + 409 * cr - 409 * 128 + 128) 8
  let g : Int := casr (common - 100 * cb + 100 * 128 - 208 * cr + 208 * 128 + 128) 8
  let b : Int := casr (common + 516 * cb - 516 * 128 + 128) 8
  { a := 0xff, r := clamp255 r, g := clamp255 g, b := clamp255 b }

/-- A renderer on an Intel adapter with the 240-line progressive sample
mode active. -/
def intel_renderer : renderer_d3d9 :=
  { m_vendor_id := 0x8086, m_switchres_mode := some sample_mode_240p, m_height := 240,
    m_create_error_count := 0, m_device := false,
    m_first_scanline := 0, m_last_scanline := 0, m_break_scanline := 0, m_delay_scanline := 0 }

/-- An environment in which `CreateDevice` returns `D3DERR_DEVICELOST`. -/
def lost_env : device_create_env :=
  { verify_caps := 0, screen_format_found := true,
    create_device := create_device_result.devicelost,
    vsync_offset := 0, frame_delay := 0, create_resources := 0 }

/-- A renderer after `device_create` on the Intel sample: delay scanline 53,
break scanline 236. -/
def intel_created : renderer_d3d9 := (device_create sample_env intel_renderer).2

/-- A raster trace that is read first at `ScanLine = s` outside the vertical
blank and is in the vertical blank on later reads up to the third, then back
in the picture at scanline 100. -/
def raster_entered_at (s : Nat) : Nat → Option D3DRASTER_STATUS
  | 0 => some { InVBlank := false, ScanLine := s }
  | 1 => some { InVBlank := true, ScanLine := 250 }
  | _ => some { InVBlank := false, ScanLine := 100 }

/-- A windowed configuration with only triple buffering requested. -/
def windowed_triplebuf : presentation_inputs :=
  { m_width := 640, m_height := 480, m_pixformat := 22, m_refresh := 0,
    fullscreen := false, win_has_menu := false, frame_delay := 0,
    triplebuf := true, waitvsync := false, syncrefresh := false }

/-! ## `drawd3d.cpp`: textures -/

/-- The declarations of `render.h` and of the Direct3D headers that the
texture code uses and that are not part of the translated sources, taken as
parameters: the primitive-flag masks and shifts, the texture-format codes and
the two texture-capability bits. -/
structure texture_decls where
  PRIMFLAG_TEXFORMAT_SHIFT : Nat
  PRIMFLAG_TEXFORMAT_MASK : Nat
  PRIMFLAG_BLENDMODE_MASK : Nat
  PRIMFLAG_SCREENTEX_SHIFT : Nat
  PRIMFLAG_SCREENTEX_MASK : Nat
  PRIMFLAG_TEXWRAP_MASK : Nat
  PRIMFLAG_VECTORBUF_SHIFT : Nat
  PRIMFLAG_VECTORBUF_MASK : Nat
  TEXFORMAT_PALETTEA16 : Nat
  TEXFORMAT_ARGB32 : Nat
  TEXFORMAT_YUY16 : Nat
  D3DPTEXTURECAPS_SQUAREONLY : Nat
  D3DPTEXTURECAPS_NONPOW2CONDITIONAL : Nat

/-- Macro `PRIMFLAG_GET_TEXFORMAT(x)`: the masked field shifted down. -/
def PRIMFLAG_GET_TEXFORMAT (D : texture_decls) (x : Nat) : Nat :=
  (x &&& D.PRIMFLAG_TEXFORMAT_MASK) >>> D.PRIMFLAG_TEXFORMAT_SHIFT

/-- Macro `PRIMFLAG_GET_SCREENTEX(x)`: the masked field shifted down. -/
def PRIMFLAG_GET_SCREENTEX (D : texture_decls) (x : Nat) : Nat :=
  (x &&& D.PRIMFLAG_SCREENTEX_MASK) >>> D.PRIMFLAG_SCREENTEX_SHIFT

/-- Macro `PRIMFLAG_GET_VECTORBUF(x)`: the masked field shifted down. -/
def PRIMFLAG_GET_VECTORBUF (D : texture_decls) (x : Nat) : Nat :=
  (x &&& D.PRIMFLAG_VECTORBUF_MASK) >>> D.PRIMFLAG_VECTORBUF_SHIFT

/-- One instance of the parameters, used to evaluate the functions on
concrete inputs: the field layout of MAME's `render.h` (texture format in
bits 4-7, blend mode in bits 8-11, screen texture bit 13, wrap bit 14, vector
buffer bit 17, `TEXFORMAT_YUY16 = 5`) and the Direct3D 9 capability bits. -/
def sample_decls : texture_decls :=
  { PRIMFLAG_TEXFORMAT_SHIFT := 4
    PRIMFLAG_TEXFORMAT_MASK := 0xf0
    PRIMFLAG_BLENDMODE_MASK := 0xf00
    PRIMFLAG_SCREENTEX_SHIFT := 13
    PRIMFLAG_SCREENTEX_MASK := 0x2000
    PRIMFLAG_TEXWRAP_MASK := 0x4000
    PRIMFLAG_VECTORBUF_SHIFT := 17
    PRIMFLAG_VECTORBUF_MASK := 0x20000
    TEXFORMAT_PALETTEA16 := 2
    TEXFORMAT_ARGB32 := 4
    TEXFORMAT_YUY16 := 5
    D3DPTEXTURECAPS_SQUAREONLY := 0x20
    D3DPTEXTURECAPS_NONPOW2CONDITIONAL := 0x100 }

/-- The members of `render_texinfo` (pointers as addresses, 0 for null). -/
structure render_texinfo where
  base : Nat
  rowpixels : Nat
  width : Nat
  height : Nat
  seqid : Nat
  osddata : Nat
  palette : Nat
  deriving DecidableEq, Repr

/-- The members of `render_primitive` that `update_textures` reads. -/
structure render_primitive where
  flags : Nat
  texture : render_texinfo
  deriving DecidableEq, Repr

/-- The texture types of `texture_info`. -/
inductive texture_type where
  | TEXTURE_TYPE_PLAIN
  | TEXTURE_TYPE_DYNAMIC
  | TEXTURE_TYPE_SURFACE
  deriving DecidableEq, Repr

/-- The Direct3D formats the texture code tells apart. -/
inductive D3DFORMAT where
  | D3DFMT_A8R8G8B8
  | D3DFMT_X8R8G8B8
  | D3DFMT_UYVY
  | D3DFMT_YUY2
  deriving DecidableEq, Repr

/-- The classes of `HRESULT` the texture code tells apart: `D3D_OK`, another
success code, a failure code. -/
inductive hresult where
  | D3D_OK
  | succeeded
  | failed
  deriving DecidableEq, Repr

/-- Macro `FAILED(result)`. -/
def FAILED (result : hresult) : Bool :=
  match result with
  | hresult.failed => true
  | _ => false

/-- The members of `texture_info`. The three Direct3D resources are kept as
"the pointer is non-null"; `set_data_calls` counts the calls of `set_data` on
the texture (the pixel copy itself is not part of this record). -/
structure texture_info where
  m_hash : Nat
  m_flags : Nat
  m_texinfo : render_texinfo
  m_xprescale : Int
  m_yprescale : Int
  m_type : texture_type
  m_xborderpix : Int
  m_yborderpix : Int
  m_start : ℚ × ℚ
  m_stop : ℚ × ℚ
  m_rawdims : Int × Int
  m_d3dtex : Bool
  m_d3dsurface : Bool
  m_d3dfinaltex : Bool
  set_data_calls : Nat
  deriving DecidableEq

/-- The members of `d3d_texture_manager` (capabilities as read from the
device, `DWORD` values as naturals). -/
structure d3d_texture_manager where
  m_dynamic_supported : Bool
  m_stretch_supported : Bool
  m_texture_caps : Nat
  m_texture_max_aspect : Nat
  m_texture_max_width : Nat
  m_texture_max_height : Nat
  m_yuv_format : D3DFORMAT
  m_texture_list : List texture_info

/-- What the texture code reads from the renderer and the window: whether
shaders are enabled, the back-buffer size, the screen format and the window's
prescale. -/
structure texture_context where
  shaders_enabled : Bool
  BackBufferWidth : Nat
  BackBufferHeight : Nat
  screen_format : D3DFORMAT
  win_prescale : Int
  deriving DecidableEq, Repr

/-- The results of the device calls one `texture_info` constructor can make:
`CreateTexture` for a non-screen texture; for a screen texture the source
allocation and the render-target allocation of the first attempt, and the
`CreateTexture` of the second attempt. -/
structure texture_alloc where
  plain : hresult
  first_source : hresult
  first_target : hresult
  second : hresult
  deriving DecidableEq, Repr

/-- The power-of-two rounding block of `compute_size_subroutine`
(`if (v & (v - 1)) { v |= v >> 1; v |= v >> 2; v |= v >> 4; v |= v >> 8; v++; }`). -/
def pow2_round (v : Int) : Int :=
  if cand v (v - 1) ≠ 0 then
    let v := cor v (casr v 1)
    let v := cor v (casr v 2)
    let v := cor v (casr v 4)
    let v := cor v (casr v 8)
    v + 1
  else v

/-- The loop `while (a < b && b / a > max_aspect) a *= 2;` of
`compute_size_subroutine`, run for at most `fuel` doublings. The quotient is
compared with the `DWORD` as unsigned. `none` when the division is by zero or
the doublings exceed `fuel`. -/
def aspect_double (max_aspect : Nat) (b : Int) : Nat → Int → Option Int
  | 0, a =>
    if a < b then
      if a = 0 then none
      else if toUInt32 (cdiv b a) > max_aspect then none
      else some a
    else some a
  | fuel + 1, a =>
    if a < b then
      if a = 0 then none
      else if toUInt32 (cdiv b a) > max_aspect then aspect_double max_aspect b fuel (a * 2)
      else some a
    else some a

/-- Source `texture_info::compute_size_subroutine`: the values stored in
`*p_width` and `*p_height`; `none` when a division by zero is reached. Each
aspect loop is given as many doublings as the value of the other dimension,
which a loop that is entered with a non-zero value never exceeds. -/
def compute_size_subroutine (D : texture_decls) (mgr : d3d_texture_manager)
    (texwidth texheight : Int) : Option (Int × Int) :=
  let finalheight := texheight
  let finalwidth := texwidth
  -- round width/height up to nearest power of 2 if we need to
  let pow2 : Bool := mgr.m_texture_caps &&& D.D3DPTEXTURECAPS_NONPOW2CONDITIONAL = 0
  let finalwidth := if pow2 then pow2_round finalwidth else finalwidth
  let finalheight := if pow2 then pow2_round finalheight else finalheight
  -- round up to square if we need to
  let square : Bool := mgr.m_texture_caps &&& D.D3DPTEXTURECAPS_SQUAREONLY ≠ 0
  let finalwidth' :=
    if square then (if finalwidth < finalheight then finalheight else finalwidth)
    else finalwidth
  let finalheight' :=
    if square then (if finalwidth < finalheight then finalheight else finalwidth)
    else finalheight
  -- adjust the aspect ratio if we need to
  match aspect_double mgr.m_texture_max_aspect finalheight' finalheight'.toNat finalwidth' with
  | none => none
  | some w =>
    match aspect_double mgr.m_texture_max_aspect w w.toNat finalheight' with
    | none => none
    | some h => some (w, h)

/-- The members of `texture_info` that `compute_size` sets. -/
structure texture_size where
  m_xborderpix : Int
  m_yborderpix : Int
  m_start : ℚ × ℚ
  m_stop : ℚ × ℚ
  m_rawdims : Int × Int
  deriving DecidableEq

/-- Source `texture_info::compute_size` (`float` values as rationals; the
"Texture too big!" message is not part of the embedding); `none` when
`compute_size_subroutine` divides by zero. -/
def compute_size (D : texture_decls) (mgr : d3d_texture_manager) (shaders_enabled : Bool)
    (m_flags : Nat) (texwidth texheight : Int) : Option texture_size :=
  let wrap_texture : Bool := m_flags &&& D.PRIMFLAG_TEXWRAP_MASK = D.PRIMFLAG_TEXWRAP_MASK
  -- skip border when shaders are enabled; if we're not wrapping, add a 1-2 pixel border
  let border : Bool := !shaders_enabled && !wrap_texture
  let m_xborderpix : Int :=
    if border then (if PRIMFLAG_GET_TEXFORMAT D m_flags = D.TEXFORMAT_YUY16 then 2 else 1)
    else 0
  let m_yborderpix : Int := if border then 1 else 0
  let finalwidth := texwidth + 2 * m_xborderpix
  let finalheight := texheight + 2 * m_yborderpix
  let too_big (w h : Int) : Bool :=
    decide (toUInt32 w > mgr.m_texture_max_width) || decide (toUInt32 h > mgr.m_texture_max_height)
  let finish (xb yb w h : Int) : texture_size :=
    { m_xborderpix := xb
      m_yborderpix := yb
      m_start := ((xb : ℚ) / (w : ℚ), (yb : ℚ) / (h : ℚ))
      m_stop := (((texwidth + xb : Int) : ℚ) / (w : ℚ), ((texheight + yb : Int) : ℚ) / (h : ℚ))
      m_rawdims := (w, h) }
  -- take texture size as given when shaders are enabled
  if shaders_enabled then some (finish m_xborderpix m_yborderpix finalwidth finalheight)
  else
    match compute_size_subroutine D mgr finalwidth finalheight with
    | none => none
    | some (w, h) =>
      -- if the border just barely pushed us over, take it back
      if too_big w h then
        match compute_size_subroutine D mgr texwidth texheight with
        | none => none
        | some (w2, h2) => some (finish 0 0 w2 h2)
      else some (finish m_xborderpix m_yborderpix w h)


/-- The four smearing steps of the rounding block of `compute_size_subroutine`
(`v |= v >> 1; v |= v >> 2; v |= v >> 4; v |= v >> 8;`) on a natural number. -/
def smear16 (x : Nat) : Nat :=
  let x := x ||| x >>> 1
  let x := x ||| x >>> 2
  let x := x ||| x >>> 4
  x ||| x >>> 8

/-- The rounding block of `compute_size_subroutine` on a natural number. -/
def pow2_round_nat (v : Nat) : Nat := if v &&& (v - 1) ≠ 0 then smear16 v + 1 else v

/-- The specification of the rounding: `p` is the smallest power of two that is
at least `v`. -/
def is_pow2_ceil (v p : Nat) : Prop :=
  (∃ k : Nat, p = 2 ^ k) ∧ v ≤ p ∧ ∀ j : Nat, v ≤ 2 ^ j → p ≤ 2 ^ j

/-- A texture manager of a device without non-power-of-two conditional support
and without the square-only restriction, maximum aspect ratio 8, maximum texture
size 4096 x 4096. -/
def pow2_mgr : d3d_texture_manager :=
  { m_dynamic_supported := true
    m_stretch_supported := true
    m_texture_caps := 0
    m_texture_max_aspect := 8
    m_texture_max_width := 4096
    m_texture_max_height := 4096
    m_yuv_format := D3DFORMAT.D3DFMT_UYVY
    m_texture_list := [] }

/-- The manager `pow2_mgr` on a device that reports a maximum texture size of
1048576 x 1048576. -/
def wide_mgr : d3d_texture_manager :=
  { pow2_mgr with m_texture_max_width := 1048576, m_texture_max_height := 1048576 }

/-- Source `d3d_texture_manager::texture_compute_hash`: the base address
combined with the blend-mode and texture-format bits, returned as `UINT32`. -/
def texture_compute_hash (D : texture_decls) (texture : render_texinfo) (flags : Nat) : Nat :=
  (texture.base ^^^ (flags &&& (D.PRIMFLAG_BLENDMODE_MASK ||| D.PRIMFLAG_TEXFORMAT_MASK)))
    % 4294967296

/-- The "determine texture type" block of the `texture_info` constructor;
`prescale` is the value stored in both `m_xprescale` and `m_yprescale`. -/
def texture_info_type (D : texture_decls) (mgr : d3d_texture_manager) (shaders_enabled : Bool)
    (prescale : Int) (flags : Nat) : texture_type :=
  if PRIMFLAG_GET_SCREENTEX D flags = 0 then texture_type.TEXTURE_TYPE_PLAIN
  else if (prescale = 1 ∧ prescale = 1) ∨ shaders_enabled = true then
    (if mgr.m_dynamic_supported then texture_type.TEXTURE_TYPE_DYNAMIC
     else texture_type.TEXTURE_TYPE_PLAIN)
  else if mgr.m_stretch_supported = true ∧ PRIMFLAG_GET_TEXFORMAT D flags ≠ D.TEXFORMAT_YUY16 then
    texture_type.TEXTURE_TYPE_SURFACE
  else
    (if mgr.m_dynamic_supported then texture_type.TEXTURE_TYPE_DYNAMIC
     else texture_type.TEXTURE_TYPE_PLAIN)

/-- Source `texture_info::set_data`, as far as the record goes: the call is
counted. The lock, the pixel copy, the unlock and the prescale act on the
Direct3D resources, whose contents are not part of the record. -/
def set_data (t : texture_info) : texture_info :=
  { t with set_data_calls := t.set_data_calls + 1 }

/-- The loops `while (p > 1 && stop(p)) p--;` of the constructor, run for at
most `fuel` steps; `p.toNat` steps always reach the end of the loop. -/
def prescale_down (stop : Int → Bool) : Nat → Int → Int
  | 0, p => p
  | fuel + 1, p => if p > 1 ∧ stop p = true then prescale_down stop fuel (p - 1) else p

/-- The two prescale loops of the constructor ("don't prescale above screen
size") for one axis: `raw` is the raw dimension, `maxdim` the larger
back-buffer dimension and `max_size` the maximum texture size (compared as
unsigned). -/
def prescale_clamp (raw maxdim : Int) (max_size : Nat) (p : Int) : Int :=
  let p := prescale_down (fun q => decide (raw * q ≥ 2 * maxdim)) p.toNat p
  prescale_down (fun q => decide (toUInt32 (raw * q) > max_size)) p.toNat p

/-- The second attempt of the allocation loop of the constructor: always 1:1. -/
def texture_allocate_second (alloc : texture_alloc) (t : texture_info) : texture_info :=
  let t := { t with m_xprescale := 1, m_yprescale := 1 }
  let t := { t with m_d3dtex := !FAILED alloc.second }
  if alloc.second = hresult.D3D_OK then { t with m_d3dfinaltex := t.m_d3dtex } else t

/-- The allocation loop of the constructor for a screen texture
(`for (int attempt = 0; attempt < 2; attempt++)`). A created resource is
non-null exactly when the call did not fail. The record only holds which
pointers are non-null: the `m_d3dtex->Release()` after a failed render target
is a call through whatever `m_d3dtex` holds at that point. -/
def texture_allocate (D : texture_decls) (mgr : d3d_texture_manager) (alloc : texture_alloc)
    (flags : Nat) (t : texture_info) : texture_info :=
  -- screen textures with no prescaling are pretty easy
  if t.m_xprescale = 1 ∧ t.m_yprescale = 1 then
    let t := { t with m_d3dtex := !FAILED alloc.first_source }
    if alloc.first_source = hresult.D3D_OK then { t with m_d3dfinaltex := t.m_d3dtex }
    else texture_allocate_second alloc t
  -- screen textures with prescaling require two allocations
  else
    let stretch : Bool :=
      mgr.m_stretch_supported && decide (PRIMFLAG_GET_TEXFORMAT D flags ≠ D.TEXFORMAT_YUY16)
    if FAILED alloc.first_source then
      texture_allocate_second alloc
        (if stretch then { t with m_d3dsurface := false } else { t with m_d3dtex := false })
    else
      let t := if stretch then { t with m_d3dsurface := true } else { t with m_d3dtex := true }
      -- for the target surface, we allocate a render target texture
      let t := { t with m_d3dfinaltex := !FAILED alloc.first_target }
      if alloc.first_target = hresult.D3D_OK then t
      else texture_allocate_second alloc { t with m_d3dtex := false }

/-- Source `texture_info::texture_info`: the texture built and whether the
`error:` label was reached (which clears `post_fx_available`); `none` when
`compute_size` divides by zero. The results of the device calls are given by
`alloc`; the format, usage and pool passed to them do not enter the record. -/
def texture_info_new (D : texture_decls) (mgr : d3d_texture_manager) (ctx : texture_context)
    (alloc : texture_alloc) (texsource : render_texinfo) (prescale : Int) (flags : Nat) :
    Option (texture_info × Bool) :=
  match compute_size D mgr ctx.shaders_enabled flags (toInt32 texsource.width)
      (toInt32 texsource.height) with
  | none => none
  | some size =>
    -- fill in the core data
    let t : texture_info :=
      { m_hash := texture_compute_hash D texsource flags
        m_flags := flags
        m_texinfo := texsource
        m_xprescale := prescale
        m_yprescale := prescale
        m_type := texture_info_type D mgr ctx.shaders_enabled prescale flags
        m_xborderpix := size.m_xborderpix
        m_yborderpix := size.m_yborderpix
        m_start := size.m_start
        m_stop := size.m_stop
        m_rawdims := size.m_rawdims
        m_d3dtex := false
        m_d3dsurface := false
        m_d3dfinaltex := false
        set_data_calls := 0 }
    -- non-screen textures are easy
    if PRIMFLAG_GET_SCREENTEX D flags = 0 then
      if FAILED alloc.plain then some (t, true)
      else some (set_data { t with m_d3dtex := true, m_d3dfinaltex := true }, false)
    -- screen textures are allocated differently
    else
      let maxdim : Int := toInt32 (max ctx.BackBufferWidth ctx.BackBufferHeight)
      -- don't prescale above screen size
      let t := { t with
        m_xprescale := prescale_clamp t.m_rawdims.1 maxdim mgr.m_texture_max_width t.m_xprescale
        m_yprescale := prescale_clamp t.m_rawdims.2 maxdim mgr.m_texture_max_height t.m_yprescale }
      some (set_data (texture_allocate D mgr alloc flags t), false)

/-- The operations of the shaders object (`m_renderer->get_shaders()`) that
the texture manager calls. The class is not part of the translated sources:
its state is a parameter type `S` and its operations are parameters; a pointer
result is given as "non-null". -/
structure shaders_ops (S : Type) where
  find_render_target : S → texture_info → Bool
  remove_render_target : S → texture_info → S
  get_texture_target : S → render_primitive → texture_info → Bool
  register_texture : S → render_primitive → texture_info → Bool × S
  get_vector_target : S → render_primitive → Bool
  create_vector_target : S → render_primitive → Bool × S

/-- The first loop of `find_texinfo` ("find a match") from position `i` of the
list on: the texture returned and its position, `none` when the loop ends
without a match. -/
def find_texinfo_match {S : Type} (D : texture_decls) (sh : shaders_ops S) (s : S)
    (shaders_enabled : Bool) (hash : Nat) (texinfo : render_texinfo) (flags : Nat) :
    List texture_info → Nat → Option (Nat × texture_info)
  | [], _ => none
  | t :: ts, i =>
    let test_screen := (t.m_texinfo.osddata % 4294967296) >>> 1
    let test_page := (t.m_texinfo.osddata % 4294967296) &&& 1
    let prim_screen := (texinfo.osddata % 4294967296) >>> 1
    let prim_page := (texinfo.osddata % 4294967296) &&& 1
    if test_screen ≠ prim_screen ∨ test_page ≠ prim_page then
      find_texinfo_match D sh s shaders_enabled hash texinfo flags ts (i + 1)
    else if t.m_hash = hash ∧ t.m_texinfo.base = texinfo.base
        ∧ t.m_texinfo.width = texinfo.width ∧ t.m_texinfo.height = texinfo.height
        ∧ (t.m_flags ^^^ flags) &&& (D.PRIMFLAG_BLENDMODE_MASK ||| D.PRIMFLAG_TEXFORMAT_MASK) = 0
    then
      -- reject a texture if it belongs to an out-of-date render target
      if shaders_enabled = true ∧ texinfo.width ≠ 0 ∧ texinfo.height ≠ 0
          ∧ flags &&& D.PRIMFLAG_SCREENTEX_MASK ≠ 0 then
        if sh.find_render_target s t then some (i, t)
        else find_texinfo_match D sh s shaders_enabled hash texinfo flags ts (i + 1)
      else some (i, t)
    else find_texinfo_match D sh s shaders_enabled hash texinfo flags ts (i + 1)

/-- The second loop of `find_texinfo` ("clear out our old texture
reference"): the shaders state after the calls of `remove_render_target`. Here
the 64-bit `osddata` is shifted and masked before the conversion to `UINT32`. -/
def find_texinfo_unregister {S : Type} (D : texture_decls) (sh : shaders_ops S) (hash : Nat)
    (texinfo : render_texinfo) (flags : Nat) : List texture_info → S → S
  | [], s => s
  | t :: ts, s =>
    let test_screen := (t.m_texinfo.osddata >>> 1) % 4294967296
    let test_page := (t.m_texinfo.osddata &&& 1) % 4294967296
    let prim_screen := (texinfo.osddata >>> 1) % 4294967296
    let prim_page := (texinfo.osddata &&& 1) % 4294967296
    if test_screen ≠ prim_screen ∨ test_page ≠ prim_page then
      find_texinfo_unregister D sh hash texinfo flags ts s
    else if t.m_hash = hash ∧ t.m_texinfo.base = texinfo.base
        ∧ (t.m_flags ^^^ flags) &&& (D.PRIMFLAG_BLENDMODE_MASK ||| D.PRIMFLAG_TEXFORMAT_MASK) = 0
        ∧ (t.m_texinfo.width ≠ texinfo.width ∨ t.m_texinfo.height ≠ texinfo.height)
    then find_texinfo_unregister D sh hash texinfo flags ts (sh.remove_render_target s t)
    else find_texinfo_unregister D sh hash texinfo flags ts s

/-- Source `d3d_texture_manager::find_texinfo`: the texture returned with its
position in `m_texture_list` (`none` for `nullptr`) and the shaders state
afterwards. -/
def find_texinfo {S : Type} (D : texture_decls) (sh : shaders_ops S) (shaders_enabled : Bool)
    (mgr : d3d_texture_manager) (s : S) (texinfo : render_texinfo) (flags : Nat) :
    Option (Nat × texture_info) × S :=
  let hash := texture_compute_hash D texinfo flags
  match find_texinfo_match D sh s shaders_enabled hash texinfo flags mgr.m_texture_list 0 with
  | some found => (some found, s)
  | none =>
    -- nothing found, check if we need to unregister something with HLSL
    if shaders_enabled then
      if texinfo.width = 0 ∨ texinfo.height = 0 then (none, s)
      else (none, find_texinfo_unregister D sh hash texinfo flags mgr.m_texture_list s)
    else (none, s)

/-- What `update_textures` changes: the texture manager (its texture list),
the state of the shaders object and the global `d3dintf->post_fx_available`. -/
structure texture_update_state (S : Type) where
  mgr : d3d_texture_manager
  shaders : S
  post_fx_available : Bool

/-- The body of the loop of `update_textures` for one primitive; `none` when
the constructor of a new texture divides by zero. `alloc n` gives the results
of the device calls made while the texture is built that becomes entry `n` of
the list. -/
def update_textures_prim {S : Type} (D : texture_decls) (sh : shaders_ops S)
    (ctx : texture_context) (alloc : Nat → texture_alloc) (st : texture_update_state S)
    (prim : render_primitive) : Option (texture_update_state S) :=
  if prim.texture.base ≠ 0 then
    let found := find_texinfo D sh ctx.shaders_enabled st.mgr st.shaders prim.texture prim.flags
    let updated : Option (List texture_info × texture_info × Bool) :=
      match found.1 with
      | none =>
        let prescale : Int := if ctx.shaders_enabled then 1 else ctx.win_prescale
        match texture_info_new D st.mgr ctx (alloc st.mgr.m_texture_list.length) prim.texture
            prescale prim.flags with
        | none => none
        | some (tex, error) => some (st.mgr.m_texture_list ++ [tex], tex, error)
      | some (i, texture) =>
        -- if there is one, but with a different seqid, copy the data
        let texture :=
          if texture.m_texinfo.seqid ≠ prim.texture.seqid then
            let texture := set_data texture
            { texture with m_texinfo := { texture.m_texinfo with seqid := prim.texture.seqid } }
          else texture
        some (st.mgr.m_texture_list.set i texture, texture, false)
    match updated with
    | none => none
    | some (list, texture, error) =>
      let st : texture_update_state S :=
        { mgr := { st.mgr with m_texture_list := list }
          shaders := found.2
          post_fx_available := if error then false else st.post_fx_available }
      if ctx.shaders_enabled then
        if !sh.get_texture_target st.shaders prim texture then
          let registered := sh.register_texture st.shaders prim texture
          some { st with
            shaders := registered.2
            post_fx_available := if registered.1 then st.post_fx_available else false }
        else some st
      else some st
  else if PRIMFLAG_GET_VECTORBUF D prim.flags ≠ 0 then
    if ctx.shaders_enabled then
      if !sh.get_vector_target st.shaders prim then
        let created := sh.create_vector_target st.shaders prim
        some { st with
          shaders := created.2
          post_fx_available := if created.1 then st.post_fx_available else false }
      else some st
    else some st
  else some st

/-- Source `d3d_texture_manager::update_textures`: the loop over the primitive
list. -/
def update_textures {S : Type} (D : texture_decls) (sh : shaders_ops S) (ctx : texture_context)
    (alloc : Nat → texture_alloc) :
    List render_primitive → texture_update_state S → Option (texture_update_state S)
  | [], st => some st
  | prim :: prims, st =>
    match update_textures_prim D sh ctx alloc st prim with
    | none => none
    | some st => update_textures D sh ctx alloc prims st

/-- The texture identity of the specification: base, width, height, blend
mode, texture format, screen and page of a stored texture equal those of a
primitive. -/
def same_identity (D : texture_decls) (t : texture_info) (prim : render_primitive) : Prop :=
  t.m_texinfo.base = prim.texture.base
    ∧ t.m_texinfo.width = prim.texture.width
    ∧ t.m_texinfo.height = prim.texture.height
    ∧ t.m_flags &&& D.PRIMFLAG_BLENDMODE_MASK = prim.flags &&& D.PRIMFLAG_BLENDMODE_MASK
    ∧ t.m_flags &&& D.PRIMFLAG_TEXFORMAT_MASK = prim.flags &&& D.PRIMFLAG_TEXFORMAT_MASK
    ∧ (t.m_texinfo.osddata % 4294967296) >>> 1 = (prim.texture.osddata % 4294967296) >>> 1
    ∧ (t.m_texinfo.osddata % 4294967296) &&& 1 = (prim.texture.osddata % 4294967296) &&& 1

instance (D : texture_decls) (t : texture_info) (prim : render_primitive) :
    Decidable (same_identity D t prim) := by
  unfold same_identity
  infer_instance

/-- A shaders object without state, for runs with shaders disabled. -/
def no_shaders : shaders_ops Unit :=
  { find_render_target := fun _ _ => false
    remove_render_target := fun _ _ => ()
    get_texture_target := fun _ _ _ => false
    register_texture := fun _ _ _ => (false, ())
    get_vector_target := fun _ _ => false
    create_vector_target := fun _ _ => (false, ()) }

/-- A 640 x 480 back buffer, shaders disabled, window prescale 1. -/
def sample_ctx : texture_context :=
  { shaders_enabled := false
    BackBufferWidth := 640
    BackBufferHeight := 480
    screen_format := D3DFORMAT.D3DFMT_X8R8G8B8
    win_prescale := 1 }

/-- A device on which every allocation succeeds with `D3D_OK`. -/
def ok_alloc : texture_alloc :=
  { plain := hresult.D3D_OK
    first_source := hresult.D3D_OK
    first_target := hresult.D3D_OK
    second := hresult.D3D_OK }

/-- A primitive with a 320 x 240 ARGB32 texture at address `base`, sequence
number `seqid`, screen 0, page 0. -/
def sample_prim (base seqid : Nat) : render_primitive :=
  { flags := 0x40
    texture :=
      { base := base, rowpixels := 320, width := 320, height := 240, seqid := seqid
        osddata := 0, palette := 0 } }

/-- The state after `update_textures` has built, from an empty list, the
textures of two primitives with different base addresses. -/
def sample_texture_state : texture_update_state Unit :=
  (update_textures sample_decls no_shaders sample_ctx (fun _ => ok_alloc)
      [sample_prim 4096 1, sample_prim 8192 7]
      { mgr := pow2_mgr, shaders := (), post_fx_available := true }).getD
    { mgr := pow2_mgr, shaders := (), post_fx_available := true }

/-! ## `custom_video_ati.cpp` and `custom_video.cpp`: setting a timing -/

/-- The output of `%d` for an `int`. -/
def sprintf_int (x : Int) : List Char :=
  if x < 0 then '-' :: sprintf_d x.natAbs else sprintf_d x.toNat

/-- The value name `sprintf(lp_name, "DALDTMCRTBCD%dx%dx0x%d", width, height,
label)` of `ati_set_modeline`. -/
def ati_value_name (width height label : Int) : List Char :=
  "DALDTMCRTBCD".toList ++ sprintf_int width ++ "x".toList ++ sprintf_int height
    ++ "x0x".toList ++ sprintf_int label

/-- Source `win_interlace_factor`; the static `win_version` is a parameter. -/
def win_interlace_factor (win_version : Int) (mode : modeline) : Int :=
  if win_version > 5 ∧ ctrue mode.interlace = true then 2 else 1

/-- The registry key of the display device as `ati_set_modeline` sees it
through the Windows API, which is outside the translated sources: whether
`RegOpenKeyExA` succeeds, for which value names `RegQueryValueExA` succeeds,
and for which `RegSetValueExA` succeeds. -/
structure ati_registry where
  open_ok : Bool
  query_ok : List Char → Bool
  set_ok : List Char → Bool

/-- What `ati_set_modeline` does: the value returned, the `RegSetValueExA`
calls issued (value name and data) and those of them that succeeded. -/
structure ati_set_outcome where
  result : Bool
  set_calls : List (List Char × List Nat)
  written : List (List Char × List Nat)
  deriving DecidableEq, Repr

/-- The local `refresh_label` of `ati_set_modeline`
(`mode->refresh_label ? mode->refresh_label : mode->refresh * win_interlace_factor(mode)`). -/
def ati_refresh_label (win_version : Int) (mode : modeline) : Int :=
  if ctrue mode.refresh_label then mode.refresh_label
  else mode.refresh * win_interlace_factor win_version mode

/-- Source `ati_set_modeline`; `none` when the checksum reads an unassigned
value. -/
def ati_set_modeline (win_version : Int) (reg : ati_registry) (mode : modeline) :
    Option ati_set_outcome :=
  let refresh_label := ati_refresh_label win_version mode
  match ati_set_modeline_blob mode with
  | none => none
  | some lp_data =>
    if reg.open_ok then
      let lp_name := ati_value_name mode.width mode.height refresh_label
      let first := reg.query_ok lp_name
      let second : Bool := !first && decide (win_version > 5) && ctrue mode.interlace
      let lp_name :=
        if second then ati_value_name mode.width mode.height (refresh_label + 1) else lp_name
      let found : Bool := first || (second && reg.query_ok lp_name)
      -- `found && RegSetValueExA(...) == ERROR_SUCCESS`: the call is made when `found`
      some
        { result := found
          set_calls := if found then [(lp_name, lp_data)] else []
          written := if found && reg.set_ok lp_name then [(lp_name, lp_data)] else [] }
    else some { result := false, set_calls := [], written := [] }

/-- The update-mode bits of `modeline.h` used by `custom_video_set_timing` and
by the tail of `adl_set_modeline`, taken as parameters. -/
structure update_mode_decls where
  MODELINE_UPDATE : Int
  MODELINE_UPDATE_LIST : Int

/-- An entry of the adapter table `lpAdapter` as far as
`get_device_mapping_from_display_name` reads it; each display is given by its
`iDisplayLogicalAdapterIndex` and `iDisplayLogicalIndex`. -/
structure adl_adapter where
  m_index : Int
  m_display_name : String
  m_display_list : List (Int × Int)
  deriving DecidableEq, Repr

/-- The inner loop of `get_device_mapping_from_display_name`: the
`iDisplayLogicalIndex` of the first display of the adapter's list whose
logical adapter index is the adapter's. -/
def adl_find_display (m_index : Int) : List (Int × Int) → Option Int
  | [] => none
  | d :: ds => if m_index = d.1 then some d.2 else adl_find_display m_index ds

/-- Source `get_device_mapping_from_display_name`: `some (adapter_index,
display_index)` when it returns true. -/
def get_device_mapping_from_display_name (target_display : String) :
    List adl_adapter → Option (Int × Int)
  | [] => none
  | a :: as =>
    if target_display = a.m_display_name then
      match adl_find_display a.m_index a.m_display_list with
      | some display_index => some (a.m_index, display_index)
      | none => get_device_mapping_from_display_name target_display as
    else get_device_mapping_from_display_name target_display as

/-- What `adl_set_modeline` does: the value returned, whether
`ADL_Display_ModeTimingOverride_Set` was called and returned `ADL_OK`, and
whether the timing was read back afterwards. -/
structure adl_set_outcome where
  result : Bool
  override_ok : Bool
  read_back : Bool
  deriving DecidableEq, Repr

/-- Source `adl_set_modeline`. The ADL library is outside the translated
sources: `ADL_Display_ModeTimingOverride_Set adapter display mode_info force`
tells whether the call returns `ADL_OK`. -/
def adl_set_modeline (H : adl_header) (U : update_mode_decls) (lpAdapter : List adl_adapter)
    (ADL_Display_ModeTimingOverride_Set : Int → Int → ADLDisplayModeInfo → Int → Bool)
    (target_display : String) (m : modeline) (update_mode : Int) : adl_set_outcome :=
  let mode_info := adl_set_modeline_mode_info H m update_mode
  match get_device_mapping_from_display_name target_display lpAdapter with
  | none => { result := false, override_ok := false, read_back := false }
  | some (adapter_index, display_index) =>
    if ADL_Display_ModeTimingOverride_Set adapter_index display_index mode_info
        (if ctrue (cand update_mode U.MODELINE_UPDATE_LIST) then 1 else 0) then
      -- read modeline to trigger timing refresh on modded drivers
      { result := true, override_ok := true
        read_back := ctrue (cand update_mode U.MODELINE_UPDATE) }
    else { result := false, override_ok := false, read_back := false }

/-- The value of the static `custom_method` as the `switch` of
`custom_video_set_timing` sees it: one of its three case labels (macros of a
header outside the translated sources) or any other value. -/
inductive custom_video_method where
  | CUSTOM_VIDEO_TIMING_ATI_LEGACY
  | CUSTOM_VIDEO_TIMING_ATI_ADL
  | CUSTOM_VIDEO_TIMING_POWERSTRIP
  | other
  deriving DecidableEq, Repr

/-- What `custom_video_set_timing` reads besides the modeline: the statics of
`custom_video.cpp` and of the back-ends, and the outcomes of the calls into
code outside the translated sources (the registry, the ADL library and the
PowerStrip functions `ps_set_monitor_timing_string` and `ps_set_modeline`,
whose outcome is given as "the timing was set"). -/
structure custom_video_env where
  custom_method : custom_video_method
  m_device_name : String
  m_backup_mode : modeline
  user_mode_powerstrip : Bool
  win_version : Int
  registry : ati_registry
  lpAdapter : List adl_adapter
  ADL_Display_ModeTimingOverride_Set : Int → Int → ADLDisplayModeInfo → Int → Bool
  ps_set_monitor_timing_string : Bool
  ps_set_modeline : modeline → Bool

/-- What `custom_video_set_timing` does: the value returned and whether the
write of the timing by the back-end succeeded. -/
structure set_timing_outcome where
  result : Bool
  write_ok : Bool
  deriving DecidableEq, Repr

/-- Source `custom_video_set_timing`; `none` when `ati_set_modeline` reads an
unassigned value. -/
def custom_video_set_timing (H : adl_header) (U : update_mode_decls) (env : custom_video_env)
    (mode : modeline) : Option set_timing_outcome :=
  match env.custom_method with
  | custom_video_method.CUSTOM_VIDEO_TIMING_ATI_LEGACY =>
    match ati_set_modeline env.win_version env.registry mode with
    | none => none
    | some out => some { result := out.result, write_ok := !out.written.isEmpty }
  | custom_video_method.CUSTOM_VIDEO_TIMING_ATI_ADL =>
    let out := adl_set_modeline H U env.lpAdapter env.ADL_Display_ModeTimingOverride_Set
      env.m_device_name mode
      (if mode.interlace ≠ env.m_backup_mode.interlace then U.MODELINE_UPDATE_LIST
       else U.MODELINE_UPDATE)
    some { result := out.result, write_ok := out.override_ok }
  | custom_video_method.CUSTOM_VIDEO_TIMING_POWERSTRIP =>
    -- in case -ps_timing is provided, pass it as raw string, otherwise as modeline
    let set_ok :=
      if env.user_mode_powerstrip then env.ps_set_monitor_timing_string
      else env.ps_set_modeline mode
    some { result := true, write_ok := set_ok }
  | custom_video_method.other => some { result := false, write_ok := false }

/-- A registry key that opens and holds a value under every name, and in which
writes succeed when `writable`. -/
def full_registry (writable : Bool) : ati_registry :=
  { open_ok := true, query_ok := fun _ => true, set_ok := fun _ => writable }

/-- A registry key that opens and holds a value only under the name
`DALDTMCRTBCD320x240x0x121`; writes succeed. -/
def quirk_registry : ati_registry :=
  { open_ok := true
    query_ok := fun name => decide (name = "DALDTMCRTBCD320x240x0x121".toList)
    set_ok := fun _ => true }

/-- The update-mode bits as in SwitchRes' `modeline.h`. -/
def sample_update_modes : update_mode_decls :=
  { MODELINE_UPDATE := 4, MODELINE_UPDATE_LIST := 8 }

/-- An environment of `custom_video_set_timing` with the given method on a
Windows 6 host: one ADL adapter with one display, a registry key holding every
value name; `ok` is the outcome of every write (registry, ADL override,
PowerStrip). -/
def sample_video_env (method : custom_video_method) (ok : Bool) : custom_video_env :=
  { custom_method := method
    m_device_name := "DISPLAY1"
    m_backup_mode := sample_modeline
    user_mode_powerstrip := false
    win_version := 6
    registry := full_registry ok
    lpAdapter := [{ m_index := 0, m_display_name := "DISPLAY1", m_display_list := [(0, 0)] }]
    ADL_Display_ModeTimingOverride_Set := fun _ _ _ _ => ok
    ps_set_monitor_timing_string := ok
    ps_set_modeline := fun _ => ok }

/-- The sample modeline made progressive, with the refresh label 120. -/
def progressive_modeline : modeline :=
  { sample_modeline with interlace := 0, refresh_label := 120 }

/-- The legacy ATI back-end on a Windows 6 host whose registry key holds a
value only under the name `DALDTMCRTBCD320x240x0x121`. -/
def quirk_video_env : custom_video_env :=
  { sample_video_env custom_video_method.CUSTOM_VIDEO_TIMING_ATI_LEGACY true with
    registry := quirk_registry }

/-! ## `drawd3d.cpp`: the render-state cache -/

/-- A value of type `texture_info *` as the state cache sees it: `nullptr`,
the address of a texture object, or the all-ones value that
`reset_render_states` stores, which is the address of no object. -/
inductive texture_ptr where
  | null
  | object (id : Nat)
  | all_ones
  deriving DecidableEq, Repr

/-- The sampler states that the cached setters set. -/
inductive D3DSAMPLERSTATETYPE where
  | D3DSAMP_MINFILTER
  | D3DSAMP_MAGFILTER
  | D3DSAMP_ADDRESSU
  | D3DSAMP_ADDRESSV
  deriving DecidableEq, Repr

/-- The render states that `set_blendmode` sets. -/
inductive D3DRENDERSTATETYPE where
  | D3DRS_ALPHABLENDENABLE
  | D3DRS_BLENDOP
  | D3DRS_SRCBLEND
  | D3DRS_DESTBLEND
  deriving DecidableEq, Repr

/-- A call made by a cached setter: the four device calls and the call of the
shaders object in `set_texture`. `SetTexture` carries the texture whose final
texture is set (`null` for the default texture); `SetTextureStageState` is
always for `D3DTSS_COLOROP`. -/
inductive device_call where
  | SetTexture (stage : Nat) (texture : texture_ptr)
  | shaders_set_texture (texture : texture_ptr)
  | SetSamplerState (sampler : Nat) (type : D3DSAMPLERSTATETYPE) (value : Int)
  | SetTextureStageState (stage : Nat) (value : Int)
  | SetRenderState (state : D3DRENDERSTATETYPE) (value : Int)
  deriving DecidableEq, Repr

/-- The constants of the Direct3D headers and of `render.h` that the cached
setters use and that are not part of the translated sources, taken as
parameters. -/
structure render_state_decls where
  D3DTEXF_POINT : Int
  D3DTEXF_LINEAR : Int
  BLENDMODE_ALPHA : Int
  BLENDMODE_RGB_MULTIPLY : Int
  BLENDMODE_ADD : Int
  D3DBLENDOP_ADD : Int
  D3DBLEND_ZERO : Int
  D3DBLEND_ONE : Int
  D3DBLEND_SRCALPHA : Int
  D3DBLEND_INVSRCALPHA : Int
  D3DBLEND_DESTCOLOR : Int

/-- The values of the Direct3D 9 SDK and of MAME's `render.h`. -/
def d3d9_render_state_decls : render_state_decls :=
  { D3DTEXF_POINT := 1
    D3DTEXF_LINEAR := 2
    BLENDMODE_ALPHA := 1
    BLENDMODE_RGB_MULTIPLY := 2
    BLENDMODE_ADD := 3
    D3DBLENDOP_ADD := 1
    D3DBLEND_ZERO := 1
    D3DBLEND_ONE := 2
    D3DBLEND_SRCALPHA := 5
    D3DBLEND_INVSRCALPHA := 6
    D3DBLEND_DESTCOLOR := 9 }

/-- The members of `renderer_d3d9` that form the render-state cache, and the
calls issued so far (oldest first). -/
structure render_states where
  m_last_texture : texture_ptr
  m_last_texture_flags : Nat
  m_last_filter : Int
  m_last_wrap : Nat
  m_last_modmode : Int
  m_last_blendenable : Int
  m_last_blendop : Int
  m_last_blendsrc : Int
  m_last_blenddst : Int
  calls : List device_call
  deriving DecidableEq, Repr

/-- Source `renderer_d3d9::set_texture`; `get_flags` gives the flags of a
texture object. -/
def set_texture (get_flags : Nat → Nat) (texture : texture_ptr) (r : render_states) :
    render_states :=
  if texture ≠ r.m_last_texture then
    { r with
      m_last_texture := texture
      m_last_texture_flags :=
        match texture with
        | texture_ptr.object id => get_flags id
        | _ => 0
      calls := r.calls ++ [device_call.SetTexture 0 texture, device_call.shaders_set_texture texture] }
  else r

/-- Source `renderer_d3d9::set_filter`. -/
def set_filter (D : render_state_decls) (filter : Int) (r : render_states) : render_states :=
  if filter ≠ r.m_last_filter then
    let value := if filter ≠ 0 then D.D3DTEXF_LINEAR else D.D3DTEXF_POINT
    { r with
      m_last_filter := filter
      calls := r.calls ++
        [device_call.SetSamplerState 0 D3DSAMPLERSTATETYPE.D3DSAMP_MINFILTER value,
         device_call.SetSamplerState 0 D3DSAMPLERSTATETYPE.D3DSAMP_MAGFILTER value,
         device_call.SetSamplerState 1 D3DSAMPLERSTATETYPE.D3DSAMP_MINFILTER value,
         device_call.SetSamplerState 1 D3DSAMPLERSTATETYPE.D3DSAMP_MAGFILTER value] }
  else r

/-- Source `renderer_d3d9::set_wrap` (`unsigned int` as a natural number). -/
def set_wrap (wrap : Nat) (r : render_states) : render_states :=
  if wrap ≠ r.m_last_wrap then
    { r with
      m_last_wrap := wrap
      calls := r.calls ++
        [device_call.SetSamplerState 0 D3DSAMPLERSTATETYPE.D3DSAMP_ADDRESSU wrap,
         device_call.SetSamplerState 0 D3DSAMPLERSTATETYPE.D3DSAMP_ADDRESSV wrap,
         device_call.SetSamplerState 1 D3DSAMPLERSTATETYPE.D3DSAMP_ADDRESSU wrap,
         device_call.SetSamplerState 1 D3DSAMPLERSTATETYPE.D3DSAMP_ADDRESSV wrap] }
  else r

/-- Source `renderer_d3d9::set_modmode`. -/
def set_modmode (modmode : Int) (r : render_states) : render_states :=
  if modmode ≠ r.m_last_modmode then
    { r with
      m_last_modmode := modmode
      calls := r.calls ++
        [device_call.SetTextureStageState 0 modmode, device_call.SetTextureStageState 1 modmode] }
  else r

/-- The parameters chosen by the `switch` of `set_blendmode`:
`blendenable`, `blendop`, `blendsrc`, `blenddst`; `default` and
`BLENDMODE_NONE` share the first entry, the case labels are tried in the order
of the source. -/
def blend_parameters (D : render_state_decls) (blendmode : Int) : Int × Int × Int × Int :=
  if blendmode = D.BLENDMODE_ALPHA then
    (1, D.D3DBLENDOP_ADD, D.D3DBLEND_SRCALPHA, D.D3DBLEND_INVSRCALPHA)
  else if blendmode = D.BLENDMODE_RGB_MULTIPLY then
    (1, D.D3DBLENDOP_ADD, D.D3DBLEND_DESTCOLOR, D.D3DBLEND_ZERO)
  else if blendmode = D.BLENDMODE_ADD then
    (1, D.D3DBLENDOP_ADD, D.D3DBLEND_SRCALPHA, D.D3DBLEND_ONE)
  else (0, D.D3DBLENDOP_ADD, D.D3DBLEND_SRCALPHA, D.D3DBLEND_INVSRCALPHA)

/-- Source `renderer_d3d9::set_blendmode`. -/
def set_blendmode (D : render_state_decls) (blendmode : Int) (r : render_states) :
    render_states :=
  -- choose the parameters
  let (blendenable, blendop, blendsrc, blenddst) := blend_parameters D blendmode
  -- adjust the bits that changed
  let r :=
    if blendenable ≠ r.m_last_blendenable then
      { r with
        m_last_blendenable := blendenable
        calls := r.calls ++
          [device_call.SetRenderState D3DRENDERSTATETYPE.D3DRS_ALPHABLENDENABLE blendenable] }
    else r
  let r :=
    if blendop ≠ r.m_last_blendop then
      { r with
        m_last_blendop := blendop
        calls := r.calls ++ [device_call.SetRenderState D3DRENDERSTATETYPE.D3DRS_BLENDOP blendop] }
    else r
  let r :=
    if blendsrc ≠ r.m_last_blendsrc then
      { r with
        m_last_blendsrc := blendsrc
        calls := r.calls ++ [device_call.SetRenderState D3DRENDERSTATETYPE.D3DRS_SRCBLEND blendsrc] }
    else r
  if blenddst ≠ r.m_last_blenddst then
    { r with
      m_last_blenddst := blenddst
      calls := r.calls ++ [device_call.SetRenderState D3DRENDERSTATETYPE.D3DRS_DESTBLEND blenddst] }
  else r

/-- Source `renderer_d3d9::reset_render_states`. -/
def reset_render_states (r : render_states) : render_states :=
  { r with
    m_last_texture := texture_ptr.all_ones
    m_last_filter := -1
    m_last_blendenable := -1
    m_last_blendop := -1
    m_last_blendsrc := -1
    m_last_blenddst := -1
    m_last_wrap := 4294967295 }

/-- Consecutive calls of `set_filter` with the given arguments. -/
def set_filter_seq (D : render_state_decls) : List Int → render_states → render_states
  | [], r => r
  | filter :: filters, r => set_filter_seq D filters (set_filter D filter r)

/-- The argument list of `n` calls that alternate between `a` and `b`,
starting with `a`. -/
def alternating (a b : Int) : Nat → List Int
  | 0 => []
  | n + 1 => a :: alternating b a n

/-- The render states of a renderer just constructed (all cached values 0,
no texture) with no call issued. -/
def initial_render_states : render_states :=
  { m_last_texture := texture_ptr.null
    m_last_texture_flags := 0
    m_last_filter := 0
    m_last_wrap := 0
    m_last_modmode := 0
    m_last_blendenable := 0
    m_last_blendop := 0
    m_last_blendsrc := 0
    m_last_blenddst := 0
    calls := [] }

/-! ## `drawd3d.cpp`: `pick_best_mode` -/

/-- The members of `D3DDISPLAYMODE` (`UINT` members as natural numbers below
2^32). -/
structure D3DDISPLAYMODE where
  Width : Nat
  Height : Nat
  RefreshRate : Nat
  Format : D3DFORMAT
  deriving DecidableEq, Repr

/-- What the enumeration loop of `pick_best_mode` reads: the minimum size from
`compute_minimum_size` (`INT32`), the refresh rate of the primary screen
(`double`) and the size and refresh of the window configuration (`int`).
`fabs_float` is the format of `fabs` applied to a `float`, which the headers
outside the translated sources decide: `binary32` where the `float` overload
of C++ is chosen, `binary64` where the call goes to the C function on
`double`. -/
structure pick_mode_env where
  fabs_float : fp_format
  minwidth : Int
  minheight : Int
  target_refresh : double
  win_config_width : Int
  win_config_height : Int
  win_config_refresh : Int

/-- The locals and members the enumeration loop of `pick_best_mode` updates;
`best_score` is a `float`. -/
structure mode_selection where
  best_score : fp
  m_width : Int
  m_height : Int
  m_pixformat : D3DFORMAT
  m_refresh : Int
  deriving DecidableEq

/-- The `final_score` the loop of `pick_best_mode` computes for a mode, a
`float`. `mode.Width - target_width` is a difference of a `UINT` and an
`INT32`, computed as unsigned and then converted to `float`; `fabs` of a
`float` is a `float`; the comparisons of a `UINT` with an `int` compare as
unsigned. The quotient of the size score is computed in the arithmetic of
the `fabs` results and stored in a `float`; `0.01f` is the `float` nearest to
0.01; the refresh score is computed in `double` arithmetic and converted to
`float`. The target size is the minimum size. -/
def pick_mode_score (env : pick_mode_env) (mode : D3DDISPLAYMODE) : fp :=
  let target_width := env.minwidth
  let target_height := env.minheight
  -- compute initial score based on difference between target and current
  let size_score : fp :=
    fp_convert binary32
      (fp_div env.fabs_float (fp.fin 1)
        (fp_add env.fabs_float
          (fp_add env.fabs_float (fp.fin 1)
            (fp_abs (fp_round binary32
              ((toUInt32 ((mode.Width : Int) - target_width) : Nat) : ℚ))))
          (fp_abs (fp_round binary32
            ((toUInt32 ((mode.Height : Int) - target_height) : Nat) : ℚ)))))
  -- if the mode is too small, give a big penalty
  let size_score : fp :=
    if mode.Width < toUInt32 env.minwidth ∨ mode.Height < toUInt32 env.minheight then
      fp_mul binary32 size_score (fp_round binary32 (1 / 100))
    else size_score
  -- if we're looking for a particular mode, that's a winner
  let size_score : fp :=
    if mode.Width = toUInt32 env.win_config_width ∧ mode.Height = toUInt32 env.win_config_height
    then fp.fin 2 else size_score
  -- compute refresh score
  let refresh_score : fp :=
    fp_convert binary32
      (fp_div binary64 (fp.fin 1)
        (fp_add binary64 (fp.fin 1)
          (fp_abs (fp_sub binary64 (fp_round binary64 (mode.RefreshRate : ℚ))
            env.target_refresh))))
  -- if we're looking for a particular refresh, make sure it matches
  let refresh_score : fp :=
    if mode.RefreshRate = toUInt32 env.win_config_refresh then fp.fin 2 else refresh_score
  -- weight size and refresh equally
  fp_add binary32 size_score refresh_score

/-- The enumeration loop of `pick_best_mode` (the path taken when the window
is not linked to SwitchRes); each entry of the list is the result of one
`EnumAdapterModes` call, `none` when the call fails, which ends the loop. -/
def pick_best_mode_loop (env : pick_mode_env) :
    List (Option D3DDISPLAYMODE) → mode_selection → mode_selection
  | [], s => s
  | none :: _, s => s
  | some mode :: modes, s =>
    -- skip non-32 bit modes
    if mode.Format ≠ D3DFORMAT.D3DFMT_X8R8G8B8 then pick_best_mode_loop env modes s
    else
      let final_score := pick_mode_score env mode
      -- best so far?
      if fp_lt s.best_score final_score = true then
        pick_best_mode_loop env modes
          { best_score := final_score
            m_width := toInt32 mode.Width
            m_height := toInt32 mode.Height
            m_pixformat := mode.Format
            m_refresh := toInt32 mode.RefreshRate }
      else pick_best_mode_loop env modes s

/-- The score of the specification: `size_score + refresh_score` with
`size_score = 1 / (1 + |dw| + |dh|)` against the target size, multiplied by
0.01 if the mode is below the minimum width or height and multiplied by 2 if
the mode has the requested width and height, and
`refresh_score = 1 / (1 + |dr|)` multiplied by 2 if the mode has the requested
refresh. -/
def spec_mode_score (env : pick_mode_env) (mode : D3DDISPLAYMODE) : ℚ :=
  (1 / (1 + |(mode.Width : ℚ) - (env.minwidth : ℚ)| + |(mode.Height : ℚ) - (env.minheight : ℚ)|))
      * (if (mode.Width : Int) < env.minwidth ∨ (mode.Height : Int) < env.minheight
          then 1 / 100 else 1)
      * (if (mode.Width : Int) = env.win_config_width ∧ (mode.Height : Int) = env.win_config_height
          then 2 else 1)
    + (1 / (1 + |(mode.RefreshRate : ℚ) - fp_val env.target_refresh|))
      * (if (mode.RefreshRate : Int) = env.win_config_refresh then 2 else 1)

/-- A window that asks for 800x600 at any refresh, on a target whose minimum
size is 640x480 at 60 Hz. -/
def sample_pick_env : pick_mode_env :=
  { fabs_float := binary32, minwidth := 640, minheight := 480, target_refresh := 60
    win_config_width := 800, win_config_height := 600, win_config_refresh := 0 }

/-- The 32-bit display mode `w` x `h` at `r` Hz. -/
def mode32 (w h r : Nat) : D3DDISPLAYMODE :=
  { Width := w, Height := h, RefreshRate := r, Format := D3DFORMAT.D3DFMT_X8R8G8B8 }

/-- A window that asks for no particular size or refresh, on a target whose
minimum size is 1600x1200 at 60 Hz. -/
def large_pick_env : pick_mode_env :=
  { fabs_float := binary32, minwidth := 1600, minheight := 1200, target_refresh := 60
    win_config_width := 0, win_config_height := 0, win_config_refresh := 0 }

/-- The state of the selection before the loop: `best_score = 0`, no mode. -/
def no_selection : mode_selection :=
  { best_score := fp.fin 0, m_width := 0, m_height := 0, m_pixformat := D3DFORMAT.D3DFMT_A8R8G8B8,
    m_refresh := 0 }

/-- The selection the loop of `pick_best_mode` stores when `mode` is the best
so far. -/
def selection_of (env : pick_mode_env) (mode : D3DDISPLAYMODE) : mode_selection :=
  { best_score := pick_mode_score env mode
    m_width := toInt32 mode.Width
    m_height := toInt32 mode.Height
    m_pixformat := mode.Format
    m_refresh := toInt32 mode.RefreshRate }

/-! ## `machine.cpp`: `handle_saveload` -/

/-- The values of `m_saveload_schedule` (enum of `machine.h`). -/
inductive saveload_schedule where
  | SLS_NONE
  | SLS_SAVE
  | SLS_LOAD
  deriving DecidableEq, Repr

/-- The values of `save_error` that `handle_saveload` tells apart; `other` is
any value that reaches the `default` label. -/
inductive save_error where
  | STATERR_NONE
  | STATERR_ILLEGAL_REGISTRATIONS
  | STATERR_INVALID_HEADER
  | STATERR_READ_ERROR
  | STATERR_WRITE_ERROR
  | other
  deriving DecidableEq, Repr

/-- The open flags and the machine flag of headers outside the translated
sources, taken as parameters. -/
structure saveload_decls where
  OPEN_FLAG_READ : Nat
  OPEN_FLAG_WRITE : Nat
  OPEN_FLAG_CREATE : Nat
  OPEN_FLAG_CREATE_PATHS : Nat
  MACHINE_SUPPORTS_SAVE : Nat

/-- The values of `fileio.h` and `emucore.h` in MAME. -/
def mame_saveload_decls : saveload_decls :=
  { OPEN_FLAG_READ := 1
    OPEN_FLAG_WRITE := 2
    OPEN_FLAG_CREATE := 4
    OPEN_FLAG_CREATE_PATHS := 8
    MACHINE_SUPPORTS_SAVE := 0x40000 }

/-- The messages `handle_saveload` shows with `popmessage`; `opname` is
"load" or "save", `opnamed` is "loaded" or "saved". -/
inductive saveload_message where
  | anonymous_timers (opname : String)
  | illegal_registrations (opname : String)
  | invalid_header (opname : String)
  | read_error (opname : String)
  | write_error (opname : String)
  | success_not_supported (opnamed : String)
  | success (opnamed : String)
  | unknown_error (opnamed : String)
  | open_failed (opname : String)
  deriving DecidableEq, Repr

/-- The members of `running_machine` that `handle_saveload` reads and writes
(`m_saveload_searchpath` as "the pointer is non-null", times as seconds). -/
structure saveload_state where
  m_saveload_pending_file : String
  m_saveload_searchpath : Bool
  m_saveload_schedule : saveload_schedule
  m_saveload_schedule_time : ℚ
  deriving DecidableEq

/-- What `handle_saveload` reads from code outside the translated sources:
the scheduler's `can_save()`, the current time, the machine flags, whether
`file.open` returns `osd_file::error::NONE` for a name and open flags, and the
results of `m_save.read_file` and `m_save.write_file`. -/
structure saveload_env where
  can_save : Bool
  time : ℚ
  system_flags : Nat
  open_ok : String → Nat → Bool
  read_file : save_error
  write_file : save_error

/-- What `handle_saveload` does: the state afterwards, the `file.open` call
made (name and open flags), whether `file.remove_on_close()` was called, and
the message shown. -/
structure saveload_outcome where
  state : saveload_state
  opened : Option (String × Nat)
  remove_on_close : Bool
  message : Option saveload_message
  deriving DecidableEq

/-- Source `running_machine::handle_saveload`. -/
def handle_saveload (D : saveload_decls) (env : saveload_env) (s : saveload_state) :
    saveload_outcome :=
  -- unschedule the operation
  let unscheduled : saveload_state :=
    { s with
      m_saveload_pending_file := ""
      m_saveload_searchpath := false
      m_saveload_schedule := saveload_schedule.SLS_NONE }
  -- if no name, bail
  if s.m_saveload_pending_file ≠ "" then
    let opname := if s.m_saveload_schedule = saveload_schedule.SLS_LOAD then "load" else "save"
    -- if there are anonymous timers, we can't save just yet
    if !env.can_save then
      -- if more than a second has passed, we're probably screwed
      if env.time - s.m_saveload_schedule_time > 1 then
        { state := unscheduled, opened := none, remove_on_close := false
          message := some (saveload_message.anonymous_timers opname) }
      else
        -- return without cancelling the operation
        { state := s, opened := none, remove_on_close := false, message := none }
    else
      let openflags :=
        if s.m_saveload_schedule = saveload_schedule.SLS_LOAD then D.OPEN_FLAG_READ
        else D.OPEN_FLAG_WRITE ||| D.OPEN_FLAG_CREATE ||| D.OPEN_FLAG_CREATE_PATHS
      -- open the file
      if env.open_ok s.m_saveload_pending_file openflags then
        let opnamed :=
          if s.m_saveload_schedule = saveload_schedule.SLS_LOAD then "loaded" else "saved"
        -- read/write the save state
        let saverr :=
          if s.m_saveload_schedule = saveload_schedule.SLS_LOAD then env.read_file
          else env.write_file
        -- handle the result
        let message :=
          match saverr with
          | save_error.STATERR_ILLEGAL_REGISTRATIONS =>
            saveload_message.illegal_registrations opname
          | save_error.STATERR_INVALID_HEADER => saveload_message.invalid_header opname
          | save_error.STATERR_READ_ERROR => saveload_message.read_error opname
          | save_error.STATERR_WRITE_ERROR => saveload_message.write_error opname
          | save_error.STATERR_NONE =>
            if env.system_flags &&& D.MACHINE_SUPPORTS_SAVE = 0 then
              saveload_message.success_not_supported opnamed
            else saveload_message.success opnamed
          | save_error.other => saveload_message.unknown_error opnamed
        -- close and perhaps delete the file
        { state := unscheduled
          opened := some (s.m_saveload_pending_file, openflags)
          remove_on_close :=
            decide (saverr ≠ save_error.STATERR_NONE
              ∧ s.m_saveload_schedule = saveload_schedule.SLS_SAVE)
          message := some message }
      else
        { state := unscheduled
          opened := some (s.m_saveload_pending_file, openflags)
          remove_on_close := false
          message := some (saveload_message.open_failed opname) }
  else { state := unscheduled, opened := none, remove_on_close := false, message := none }

/-- A scheduled save to "state.sta". -/
def pending_save : saveload_state :=
  { m_saveload_pending_file := "state.sta"
    m_saveload_searchpath := true
    m_saveload_schedule := saveload_schedule.SLS_SAVE
    m_saveload_schedule_time := 0 }

/-- An environment in which the scheduler can save, the file opens, and the
save state is written with result `saverr`. -/
def saving_env (saverr : save_error) : saveload_env :=
  { can_save := true
    time := 0
    system_flags := 0x40000
    open_ok := fun _ _ => true
    read_file := save_error.STATERR_NONE
    write_file := saverr }

/-! ## `machine.cpp`: `start_all_devices` -/

/-- What one call of `device.start()` does, as `start_all_devices` sees it:
the device is started, the `device_missing_dependencies` exception is thrown,
or another exception is thrown, which `start_all_devices` does not catch. -/
inductive start_outcome where
  | started
  | missing_dependencies
  | exception
  deriving DecidableEq, Repr

/-- How `start_all_devices` ends: it returns (with the `started()` flags of
the devices), it throws the fatal error "Circular dependency in device
startup!" (with the number of failed starts of the last sweep), an exception
of a `start()` call escapes, or the model runs out of `fuel`. -/
inductive start_result where
  | returned (flags : List Bool)
  | circular_dependency (failed_starts : Nat)
  | thrown
  | out_of_fuel
  deriving DecidableEq, Repr

/-- The `for` loop of `start_all_devices` over all devices, at the device with
index `done.length`: `done` and `todo` are the `started()` flags of the devices
before and from that index on, `failed_starts` the counter. The outcome of a
`start()` call is given by `start`, from the number of calls made so far, the
flags of all devices and the index of the device. `none` when an exception
other than `device_missing_dependencies` is thrown; otherwise the flags, the
counter and the number of calls at the end of the sweep. -/
def start_sweep (start : Nat → List Bool → Nat → start_outcome) :
    Nat → List Bool → List Bool → Nat → Option (List Bool × Nat × Nat)
  | attempts, done, [], failed_starts => some (done, failed_starts, attempts)
  | attempts, done, true :: todo, failed_starts =>
    start_sweep start attempts (done ++ [true]) todo failed_starts
  | attempts, done, false :: todo, failed_starts =>
    -- attempt to start the device, catching any expected exceptions
    match start attempts (done ++ false :: todo) done.length with
    | start_outcome.started =>
      start_sweep start (attempts + 1) (done ++ [true]) todo failed_starts
    | start_outcome.missing_dependencies =>
      start_sweep start (attempts + 1) (done ++ [false]) todo (failed_starts + 1)
    | start_outcome.exception => none

/-- Source `running_machine::start_all_devices`, from the `while` test on:
`flags` are the `started()` flags of the devices in iteration order,
`last_failed_starts` the local of that name; the loop body is run at most
`fuel` times. The second component lists the value of `failed_starts` at the
end of every sweep that completed, in order. -/
def start_all_devices_loop (start : Nat → List Bool → Nat → start_outcome) :
    Nat → Nat → List Bool → Int → start_result × List Nat
  | 0, _, _, _ => (start_result.out_of_fuel, [])
  | fuel + 1, attempts, flags, last_failed_starts =>
    if last_failed_starts ≠ 0 then
      -- iterate over all devices
      match start_sweep start attempts [] flags 0 with
      | none => (start_result.thrown, [])
      | some (flags, failed_starts, attempts) =>
        -- each iteration should reduce the number of failed starts
        if (failed_starts : Int) = last_failed_starts then
          (start_result.circular_dependency failed_starts, [failed_starts])
        else
          let rest := start_all_devices_loop start fuel attempts flags failed_starts
          (rest.1, failed_starts :: rest.2)
    else (start_result.returned flags, [])

/-- Source `running_machine::start_all_devices` (`last_failed_starts = -1`
before the loop): how it ends, and `failed_starts` at the end of every sweep
that completed. -/
def start_all_devices (start : Nat → List Bool → Nat → start_outcome) (fuel : Nat)
    (flags : List Bool) : start_result × List Nat :=
  start_all_devices_loop start fuel 0 flags (-1)

/-- Three devices of which device 0 needs device 2 and device 1 needs device
0: a start succeeds when the devices needed are started. -/
def chain_start : Nat → List Bool → Nat → start_outcome :=
  fun _ flags i =>
    if i = 0 then
      (if flags.getD 2 false then start_outcome.started else start_outcome.missing_dependencies)
    else if i = 1 then
      (if flags.getD 0 false then start_outcome.started else start_outcome.missing_dependencies)
    else start_outcome.started

/-- Two devices that need each other. -/
def circular_start : Nat → List Bool → Nat → start_outcome :=
  fun _ flags i =>
    if flags.getD (1 - i) false then start_outcome.started
    else start_outcome.missing_dependencies

/-- The dimensions of `compute_size_subroutine` before the aspect step: after
the rounding to powers of two and the rounding to a square. -/
def compute_size_rounded (D : texture_decls) (mgr : d3d_texture_manager)
    (texwidth texheight : Int) : Int × Int :=
  let pow2 : Bool := mgr.m_texture_caps &&& D.D3DPTEXTURECAPS_NONPOW2CONDITIONAL = 0
  let finalwidth := if pow2 then pow2_round texwidth else texwidth
  let finalheight := if pow2 then pow2_round texheight else texheight
  let square : Bool := mgr.m_texture_caps &&& D.D3DPTEXTURECAPS_SQUAREONLY ≠ 0
  (if square then (if finalwidth < finalheight then finalheight else finalwidth) else finalwidth,
   if square then (if finalwidth < finalheight then finalheight else finalwidth)
   else finalheight)

/-! ## `drawd3d.cpp`: what `set_data` locks -/

/-- The first `switch` of `texture_info::set_data`: whether the pointer through
which the texture is locked is non-null (`m_d3dsurface` for
`TEXTURE_TYPE_SURFACE`, `m_d3dtex` otherwise). -/
def set_data_lock_target (t : texture_info) : Bool :=
  match t.m_type with
  | texture_type.TEXTURE_TYPE_SURFACE => t.m_d3dsurface
  | _ => t.m_d3dtex

/-- A 640 x 480 back buffer, shaders disabled, window prescale 2. -/
def prescale2_ctx : texture_context := { sample_ctx with win_prescale := 2 }

/-- An 800 x 600 screen texture source at address 4096. -/
def screen_texsource : render_texinfo :=
  { base := 4096, rowpixels := 800, width := 800, height := 600, seqid := 1
    osddata := 0, palette := 0 }

/-- A device on which the first allocation of the constructor fails and the
others succeed. -/
def first_fails_alloc : texture_alloc := { ok_alloc with first_source := hresult.failed }

/-! ## `monitor.cpp`: `monitor_set_preset` -/

/-- Consecutive calls `monitor_fill_range(&range[i], line)` for the given
lines, from index `i` on: the array of ranges afterwards and the values the
calls return. -/
def monitor_fill_ranges (scan : String → Int × monitor_range) :
    List String → Nat → List monitor_range → List monitor_range × List Int
  | [], _, range => (range, [])
  | line :: lines, i, range =>
    let r := monitor_fill_range scan (range.getD i zero_range) line
    let rest := monitor_fill_ranges scan lines (i + 1) (range.set i r.2)
    (rest.1, r.1 :: rest.2)

/-- The branches of `monitor_set_preset` before the VESA branch: for a preset
name, the range strings handed to `monitor_fill_range` (for `range[0]`,
`range[1]`, ...) and the value returned; `none` for any other name. -/
def monitor_preset_lines (type : String) : Option (List String × Int) :=
  if type = "pal" then
    some
      (["15625.00-15625.00, 50.00-50.00, 1.500, 4.700, 5.800, 0.064, 0.160, 1.056, 0, 0, 192, 288, 448, 576"],
       1)
  else if type = "ntsc" then
    some
      (["15734.26-15734.26, 59.94-59.94, 1.500, 4.700, 4.700, 0.191, 0.191, 0.953, 0, 0, 192, 240, 448, 480"],
       1)
  else if type = "generic_15" then
    some
      (["15625-15750, 49.50-65.00, 2.000, 4.700, 8.000, 0.064, 0.192, 1.024, 0, 0, 192, 288, 448, 576"],
       1)
  else if type = "arcade_15" then
    some
      (["15625-16200, 49.50-65.00, 2.000, 4.700, 8.000, 0.064, 0.192, 1.024, 0, 0, 192, 288, 448, 576"],
       1)
  else if type = "arcade_15ex" then
    some
      (["15625-16500, 49.50-65.00, 2.000, 4.700, 8.000, 0.064, 0.192, 1.024, 0, 0, 192, 288, 448, 576"],
       1)
  else if type = "arcade_25" then
    some
      (["24960-24960, 49.50-65.00, 0.800, 4.000, 3.200, 0.080, 0.200, 1.000, 0, 0, 384, 400, 768, 800"],
       1)
  else if type = "arcade_31" then
    some
      (["31400-31500, 49.50-65.00, 0.940, 3.770, 1.890, 0.349, 0.064, 1.017, 0, 0, 400, 512, 0, 0"],
       1)
  else if type = "arcade_15_25" then
    some
      (["15625-16200, 49.50-65.00, 2.000, 4.700, 8.000, 0.064, 0.192, 1.024, 0, 0, 192, 288, 448, 576",
        "24960-24960, 49.50-65.00, 0.800, 4.000, 3.200, 0.080, 0.200, 1.000, 0, 0, 384, 400, 768, 800"],
       2)
  else if type = "arcade_15_25_31" then
    some
      (["15625-16200, 49.50-65.00, 2.000, 4.700, 8.000, 0.064, 0.192, 1.024, 0, 0, 192, 288, 448, 576",
        "24960-24960, 49.50-65.00, 0.800, 4.000, 3.200, 0.080, 0.200, 1.000, 0, 0, 384, 400, 768, 800",
        "31400-31500, 49.50-65.00, 0.940, 3.770, 1.890, 0.349, 0.064, 1.017, 0, 0, 400, 512, 0, 0"],
       3)
  else if type = "m2929" then
    some
      (["30000-40000, 47.00-90.00, 0.600, 2.500, 2.800, 0.032, 0.096, 0.448, 0, 0, 384, 640, 0, 0"],
       1)
  else if type = "d9800" ∨ type = "d9400" then
    some
      (["15250-18000, 40-80, 2.187, 4.688, 6.719, 0.190, 0.191, 1.018, 0, 0, 224, 288, 448, 576",
        "18001-19000, 40-80, 2.187, 4.688, 6.719, 0.140, 0.191, 0.950, 0, 0, 288, 320, 0, 0",
        "20501-29000, 40-80, 2.910, 3.000, 4.440, 0.451, 0.164, 1.048, 0, 0, 320, 384, 0, 0",
        "29001-32000, 40-80, 0.636, 3.813, 1.906, 0.318, 0.064, 1.048, 0, 0, 384, 480, 0, 0",
        "32001-34000, 40-80, 0.636, 3.813, 1.906, 0.020, 0.106, 0.607, 0, 0, 480, 576, 0, 0",
        "34001-38000, 40-80, 1.000, 3.200, 2.200, 0.020, 0.106, 0.607, 0, 0, 576, 600, 0, 0"],
       6)
  else if type = "d9200" then
    some
      (["15250-16500, 40-80, 2.187, 4.688, 6.719, 0.190, 0.191, 1.018, 0, 0, 224, 288, 448, 576",
        "23900-24420, 40-80, 2.910, 3.000, 4.440, 0.451, 0.164, 1.148, 0, 0, 384, 400, 0, 0",
        "31000-32000, 40-80, 0.636, 3.813, 1.906, 0.318, 0.064, 1.048, 0, 0, 400, 512, 0, 0",
        "37000-38000, 40-80, 1.000, 3.200, 2.200, 0.020, 0.106, 0.607, 0, 0, 512, 600, 0, 0"],
       4)
  else if type = "k7000" then
    some
      (["15625-15800, 49.50-63.00, 2.000, 4.700, 8.000, 0.064, 0.160, 1.056, 0, 0, 192, 288, 448, 576"],
       1)
  else if type = "k7131" then
    some
      (["15625-16670, 49.5-65, 2.000, 4.700, 8.000, 0.064, 0.160, 1.056, 0, 0, 192, 288, 448, 576"],
       1)
  else if type = "m3129" then
    some
      (["15250-16500, 40-80, 2.187, 4.688, 6.719, 0.190, 0.191, 1.018, 1, 1, 192, 288, 448, 576",
        "23900-24420, 40-80, 2.910, 3.000, 4.440, 0.451, 0.164, 1.048, 1, 1, 384, 400, 0, 0",
        "31000-32000, 40-80, 0.636, 3.813, 1.906, 0.318, 0.064, 1.048, 1, 1, 400, 512, 0, 0"],
       3)
  else if type = "h9110" ∨ type = "polo" then
    some
      (["15625-16670, 49.5-65, 2.000, 4.700, 8.000, 0.064, 0.160, 1.056, 0, 0, 192, 288, 448, 576"],
       1)
  else if type = "pstar" then
    some
      (["15700-15800, 50-65, 1.800, 0.400, 7.400, 0.064, 0.160, 1.056, 0, 0, 192, 256, 0, 0",
        "16200-16300, 50-65, 0.200, 0.400, 8.000, 0.040, 0.040, 0.640, 0, 0, 256, 264, 512, 528",
        "25300-25400, 50-65, 0.200, 0.400, 8.000, 0.040, 0.040, 0.640, 0, 0, 384, 400, 768, 800",
        "31500-31600, 50-65, 0.170, 0.350, 5.500, 0.040, 0.040, 0.640, 0, 0, 400, 512, 0, 0"],
       4)
  else if type = "ms2930" then
    some
      (["15450-16050, 50-65, 3.190, 4.750, 6.450, 0.191, 0.191, 1.164, 0, 0, 192, 288, 448, 576",
        "23900-24900, 50-65, 2.870, 3.000, 4.440, 0.451, 0.164, 1.148, 0, 0, 384, 400, 0, 0",
        "31000-32000, 50-65, 0.330, 3.580, 1.750, 0.316, 0.063, 1.137, 0, 0, 480, 512, 0, 0"],
       3)
  else if type = "ms929" then
    some
      (["15450-16050, 50-65, 3.910, 4.700, 6.850, 0.190, 0.191, 1.018, 0, 0, 192, 288, 448, 576",
        "23900-24900, 50-65, 2.910, 3.000, 4.440, 0.451, 0.164, 1.048, 0, 0, 384, 400, 0, 0"],
       2)
  else if type = "r666b" then
    some
      (["15450-16050, 50-65, 3.190, 4.750, 6.450, 0.191, 0.191, 1.164, 0, 0, 192, 288, 448, 576",
        "23900-24900, 50-65, 2.870, 3.000, 4.440, 0.451, 0.164, 1.148, 0, 0, 384, 400, 0, 0",
        "31000-32500, 50-65, 0.330, 3.580, 1.750, 0.316, 0.063, 1.137, 0, 0, 400, 512, 0, 0"],
       3)
  else if type = "pc_31_120" then
    some
      (["31400-31600, 100-130, 0.671, 2.683, 3.353, 0.034, 0.101, 0.436, 0, 0, 200, 256, 0, 0",
        "31400-31600, 50-65, 0.671, 2.683, 3.353, 0.034, 0.101, 0.436, 0, 0, 400, 512, 0, 0"],
       2)
  else if type = "pc_70_120" then
    some
      (["30000-70000, 100-130, 2.201, 0.275, 4.678, 0.063, 0.032, 0.633, 0, 0, 192, 320, 0, 0",
        "30000-70000, 50-65, 2.201, 0.275, 4.678, 0.063, 0.032, 0.633, 0, 0, 400, 1024, 0, 0"],
       2)
  else none

/-- Source `monitor_set_preset`: the value returned, the array of ranges
afterwards and the values returned by its `monitor_fill_range` calls. The VESA
branch calls `monitor_fill_vesa_gtf`, which depends on code outside the
translated sources and is the parameter `vesa`. -/
def monitor_set_preset (scan : String → Int × monitor_range)
    (vesa : List monitor_range → String → Int × List monitor_range) (type : String)
    (range : List monitor_range) : Int × List monitor_range × List Int :=
  match monitor_preset_lines type with
  | some (lines, ret) =>
    let r := monitor_fill_ranges scan lines 0 range
    (ret, r.1, r.2)
  | none =>
    if type = "vesa_480" ∨ type = "vesa_600" ∨ type = "vesa_768" ∨ type = "vesa_1024" then
      let r := vesa range type
      (r.1, r.2, [])
    else (0, range, [])

/-- The preset names of `monitor_set_preset` other than the VESA ones. -/
def monitor_preset_names : List String :=
  ["pal", "ntsc", "generic_15", "arcade_15", "arcade_15ex", "arcade_25", "arcade_31",
   "arcade_15_25", "arcade_15_25_31", "m2929", "d9800", "d9400", "d9200", "k7000", "k7131",
   "m3129", "h9110", "polo", "pstar", "ms2930", "ms929", "r666b", "pc_31_120", "pc_70_120"]

/-! ## `drawd3d.cpp`: the pixel copy of `set_data` -/

/-- The texture formats of the `switch` of `set_data` that `texture_decls`
does not hold; their values are declared outside the source files at hand. -/
structure texformat_decls where
  TEXFORMAT_PALETTE16 : Nat
  TEXFORMAT_RGB32 : Nat

/-- The values of the MAME headers (`TEXFORMAT_PALETTE16 = 1`,
`TEXFORMAT_RGB32 = 3`). -/
def mame_texformat_decls : texformat_decls :=
  { TEXFORMAT_PALETTE16 := 1, TEXFORMAT_RGB32 := 3 }

/-- The accessors `r()`, `g()` and `b()` of `rgb_t`, declared outside the
source files at hand. -/
structure rgb_t_ops where
  r : Nat → Nat
  g : Nat → Nat
  b : Nat → Nat

/-- The accessors of the MAME headers: bits 16..23, 8..15 and 0..7. -/
def mame_rgb_t : rgb_t_ops :=
  { r := fun pix => (pix >>> 16) &&& 0xff
    g := fun pix => (pix >>> 8) &&& 0xff
    b := fun pix => pix &&& 0xff }

/-- The loop `for (x = 0; x < width; x++) *dst++ = conv(*src++);` of the
copyline functions with `n` iterations left: `src` gives the element a source
pointer reads, `p` is the source pointer; the result is the pixels written in
order and the source pointer after the loop. -/
def copyline_loop (conv : Nat → Nat) (src : Int → Nat) : Nat → Int → List Nat × Int
  | 0, p => ([], p)
  | n + 1, p =>
    let rest := copyline_loop conv src n (p + 1)
    (conv (src p) :: rest.1, rest.2)

/-- Source `copyline_palette16`: the pixels written through `dst`, in order.
`src` gives the element a source pointer reads, `p` is the argument `src`. -/
def copyline_palette16 (src : Int → Nat) (p : Int) (width : Int) (palette : Nat → Nat)
    (xborderpix : Int) : List Nat :=
  let first := if xborderpix ≠ 0 then [0xff000000 ||| palette (src p)] else []
  let body := copyline_loop (fun pix => 0xff000000 ||| palette pix) src width.toNat p
  let last := if xborderpix ≠ 0 then [0xff000000 ||| palette (src (body.2 - 1))] else []
  first ++ body.1 ++ last

/-- Source `copyline_palettea16`. -/
def copyline_palettea16 (src : Int → Nat) (p : Int) (width : Int) (palette : Nat → Nat)
    (xborderpix : Int) : List Nat :=
  let first := if xborderpix ≠ 0 then [palette (src p)] else []
  let body := copyline_loop (fun pix => palette pix) src width.toNat p
  let last := if xborderpix ≠ 0 then [palette (src (body.2 - 1))] else []
  first ++ body.1 ++ last

/-- Source `copyline_rgb32`; `palette = none` is the null pointer of the direct
case. -/
def copyline_rgb32 (R : rgb_t_ops) (src : Int → Nat) (p : Int) (width : Int)
    (palette : Option (Nat → Nat)) (xborderpix : Int) : List Nat :=
  match palette with
  | some palette =>
    let first :=
      if xborderpix ≠ 0 then
        let srcpix := src p
        [0xff000000 ||| palette (0x200 + R.r srcpix) ||| palette (0x100 + R.g srcpix)
          ||| palette (R.b srcpix)]
      else []
    let body := copyline_loop
      (fun srcpix => 0xff000000 ||| palette (0x200 + R.r srcpix)
        ||| palette (0x100 + R.g srcpix) ||| palette (R.b srcpix)) src width.toNat p
    let last :=
      if xborderpix ≠ 0 then
        let srcpix := src (body.2 - 1)
        [0xff000000 ||| palette (0x200 + R.r srcpix) ||| palette (0x100 + R.g srcpix)
          ||| palette (R.b srcpix)]
      else []
    first ++ body.1 ++ last
  | none =>
    let first := if xborderpix ≠ 0 then [0xff000000 ||| src p] else []
    let body := copyline_loop (fun pix => 0xff000000 ||| pix) src width.toNat p
    let last := if xborderpix ≠ 0 then [0xff000000 ||| src (body.2 - 1)] else []
    first ++ body.1 ++ last

/-- Source `copyline_argb32`; `palette = none` is the null pointer of the
direct case. -/
def copyline_argb32 (R : rgb_t_ops) (src : Int → Nat) (p : Int) (width : Int)
    (palette : Option (Nat → Nat)) (xborderpix : Int) : List Nat :=
  match palette with
  | some palette =>
    let first :=
      if xborderpix ≠ 0 then
        let srcpix := src p
        [(srcpix &&& 0xff000000) ||| palette (0x200 + R.r srcpix)
          ||| palette (0x100 + R.g srcpix) ||| palette (R.b srcpix)]
      else []
    let body := copyline_loop
      (fun srcpix => (srcpix &&& 0xff000000) ||| palette (0x200 + R.r srcpix)
        ||| palette (0x100 + R.g srcpix) ||| palette (R.b srcpix)) src width.toNat p
    let last :=
      if xborderpix ≠ 0 then
        let srcpix := src (body.2 - 1)
        [(srcpix &&& 0xff000000) ||| palette (0x200 + R.r srcpix)
          ||| palette (0x100 + R.g srcpix) ||| palette (R.b srcpix)]
      else []
    first ++ body.1 ++ last
  | none =>
    let first := if xborderpix ≠ 0 then [src p] else []
    let body := copyline_loop (fun pix => pix) src width.toNat p
    let last := if xborderpix ≠ 0 then [src (body.2 - 1)] else []
    first ++ body.1 ++ last

/-- The members of `render_texinfo` that the pixel copy reads: `pixels k` is
the element at `base + k`, `palette` the table behind the palette pointer
(`none` for a null pointer). -/
structure texsource_pixels where
  pixels : Int → Nat
  rowpixels : Int
  width : Int
  height : Int
  palette : Option (Nat → Nat)

/-- The inner `switch` of `set_data` for one destination row: the pixels the
selected copyline function writes from source row `srcy`; `none` stands for a
call that reads through a null palette, `yuy16` for the three YUY16 copyline
functions, and an unknown format writes nothing. -/
def set_data_line (D : texture_decls) (F : texformat_decls) (R : rgb_t_ops)
    (yuy16 : Int → Int → List Nat) (flags : Nat) (texsource : texsource_pixels)
    (m_xborderpix : Int) (srcy : Int) : Option (List Nat) :=
  let format := PRIMFLAG_GET_TEXFORMAT D flags
  if format = F.TEXFORMAT_PALETTE16 then
    texsource.palette.map (fun palette =>
      copyline_palette16 texsource.pixels (srcy * texsource.rowpixels) texsource.width palette
        m_xborderpix)
  else if format = D.TEXFORMAT_PALETTEA16 then
    texsource.palette.map (fun palette =>
      copyline_palettea16 texsource.pixels (srcy * texsource.rowpixels) texsource.width palette
        m_xborderpix)
  else if format = F.TEXFORMAT_RGB32 then
    some (copyline_rgb32 R texsource.pixels (srcy * texsource.rowpixels) texsource.width
      texsource.palette m_xborderpix)
  else if format = D.TEXFORMAT_ARGB32 then
    some (copyline_argb32 R texsource.pixels (srcy * texsource.rowpixels) texsource.width
      texsource.palette m_xborderpix)
  else if format = D.TEXFORMAT_YUY16 then
    some (yuy16 (srcy * texsource.rowpixels) m_xborderpix)
  else some []

/-- The loop over Y of `set_data` with `n` iterations left: for each `dsty` the
destination row `dsty + m_yborderpix` (the row at `rect.pBits` plus that many
pitches) and what `line srcy` writes there. -/
def set_data_loop {α : Type} (line : Int → α) (height m_yborderpix : Int) :
    Nat → Int → List (Int × α)
  | 0, _ => []
  | n + 1, dsty =>
    let srcy := if dsty < 0 then 0 else if dsty ≥ height then height - 1 else dsty
    (dsty + m_yborderpix, line srcy) :: set_data_loop line height m_yborderpix n (dsty + 1)

/-- Source `texture_info::set_data` between the lock and the unlock: the rows
written, as pairs of the destination row and its pixels; nothing is written
when the lock fails. -/
def set_data_copy (D : texture_decls) (F : texformat_decls) (R : rgb_t_ops)
    (yuy16 : Int → Int → List Nat) (lock : hresult) (flags : Nat)
    (texsource : texsource_pixels) (m_xborderpix m_yborderpix : Int) :
    List (Int × Option (List Nat)) :=
  if FAILED lock then []
  else
    let miny := 0 - m_yborderpix
    let maxy := texsource.height + m_yborderpix
    set_data_loop (set_data_line D F R yuy16 flags texsource m_xborderpix) texsource.height
      m_yborderpix (maxy - miny).toNat miny

/-- The clamp of the specification: `x` limited to `lo .. hi`. -/
def spec_clamp (x lo hi : Int) : Int := max lo (min x hi)

/-- The conversion of one source pixel by `copyline_palette16`. -/
def palette16_pixel (palette : Nat → Nat) (pix : Nat) : Nat := 0xff000000 ||| palette pix

/-- The conversion of one source pixel by `copyline_palettea16`. -/
def palettea16_pixel (palette : Nat → Nat) (pix : Nat) : Nat := palette pix

/-- The conversion of one source pixel by `copyline_rgb32`. -/
def rgb32_pixel (R : rgb_t_ops) (palette : Option (Nat → Nat)) (pix : Nat) : Nat :=
  match palette with
  | some palette =>
    0xff000000 ||| palette (0x200 + R.r pix) ||| palette (0x100 + R.g pix) ||| palette (R.b pix)
  | none => 0xff000000 ||| pix

/-- The conversion of one source pixel by `copyline_argb32`. -/
def argb32_pixel (R : rgb_t_ops) (palette : Option (Nat → Nat)) (pix : Nat) : Nat :=
  match palette with
  | some palette =>
    (pix &&& 0xff000000) ||| palette (0x200 + R.r pix) ||| palette (0x100 + R.g pix)
      ||| palette (R.b pix)
  | none => pix

/-- A line with one border pixel on each side: the conversion of source pixel
0, of the pixels `0 .. width - 1`, and of source pixel `width - 1`. -/
def spec_border_line (conv : Nat → Nat) (src : Int → Nat) (p : Int) (width : Int) : List Nat :=
  [conv (src p)] ++ (List.range width.toNat).map (fun i : Nat => conv (src (p + (i : Int))))
    ++ [conv (src (p + (width - 1)))]

/-- A 3 x 2 source with the pixel at column `x` of row `y` equal to
`10 * y + x` (four pixels to the row) and a palette adding 100. -/
def sample_pixels : texsource_pixels :=
  { pixels := fun k => (10 * (k / 4) + k % 4).toNat
    rowpixels := 4
    width := 3
    height := 2
    palette := some (fun pix => pix + 100) }

/-! ## `drawd3d.cpp`: the vertex buffer and the queued polys -/

/-- The members of `renderer_d3d9` that `mesh_alloc` and
`primitive_flush_pending` use: whether `m_lockedbuf` is non-null, `m_numverts`,
and the vertex counts of `m_poly[0 .. m_numpolys - 1]`. `asserts` records, in
order, whether `vertnum + numverts <= m_numverts` held for each poly drawn. -/
structure mesh_state where
  m_lockedbuf : Bool
  m_numverts : Int
  m_poly : List Int
  asserts : List Bool
  deriving DecidableEq, Repr

/-- The loop over the polys of `primitive_flush_pending`: the outcome of the
assertion for each poly, `vertnum` advancing by the vertex count. -/
def flush_polys (m_numverts : Int) : List Int → Int → List Bool
  | [], _ => []
  | numverts :: rest, vertnum =>
    decide (vertnum + numverts ≤ m_numverts) :: flush_polys m_numverts rest (vertnum + numverts)

/-- Source `renderer_d3d9::primitive_flush_pending` with shaders disabled
(`vertnum` starts at 0): ignored when the buffer is not locked; otherwise the
buffer is unlocked, every poly is drawn and the counts are reset. -/
def primitive_flush_pending (s : mesh_state) : mesh_state :=
  if s.m_lockedbuf = false then s
  else
    let vertnum := 0
    { m_lockedbuf := false
      m_numverts := 0
      m_poly := []
      asserts := s.asserts ++ flush_polys s.m_numverts s.m_poly vertnum }

/-- Source `renderer_d3d9::mesh_alloc` with shaders disabled;
`VERTEX_BUFFER_SIZE` is declared outside the source files at hand, `lock` is
the result of the `Lock` call if one is made (a successful call sets
`m_lockedbuf`, a failed one leaves it null). The Boolean tells whether the
pointer returned is non-null. -/
def mesh_alloc (VERTEX_BUFFER_SIZE : Int) (lock : hresult) (numverts : Int) (s : mesh_state) :
    Bool × mesh_state :=
  let s :=
    if s.m_lockedbuf = true ∧ s.m_numverts + numverts ≥ VERTEX_BUFFER_SIZE then
      primitive_flush_pending s
    else s
  if s.m_lockedbuf = false ∧ FAILED lock = true then (false, s)
  else
    let s := if s.m_lockedbuf = false then { s with m_lockedbuf := true } else s
    if s.m_lockedbuf = true ∧ s.m_numverts + numverts < VERTEX_BUFFER_SIZE then
      (true, { s with m_numverts := s.m_numverts + numverts })
    else (false, s)

/-- Source `renderer_d3d9::draw_quad`, as far as the vertex buffer and the poly
list go: nothing is queued when `mesh_alloc` returns a null pointer. -/
def draw_quad (VERTEX_BUFFER_SIZE : Int) (lock : hresult) (s : mesh_state) : mesh_state :=
  let r := mesh_alloc VERTEX_BUFFER_SIZE lock 4 s
  if r.1 = false then r.2
  else { r.2 with m_poly := r.2.m_poly ++ [4] }

/-- Source `renderer_d3d9::draw_line`, as far as the vertex buffer and the poly
list go: nothing is queued when `mesh_alloc` returns a null pointer. -/
def draw_line (VERTEX_BUFFER_SIZE : Int) (lock : hresult) (s : mesh_state) : mesh_state :=
  let r := mesh_alloc VERTEX_BUFFER_SIZE lock 4 s
  if r.1 = false then r.2
  else { r.2 with m_poly := r.2.m_poly ++ [4] }

/-- Source `renderer_d3d9::batch_vectors`, as far as the vertex buffer and the
poly list go: the pointer returned by `mesh_alloc` is stored in
`m_vectorbatch` (`batch_vector` writes nothing through a null pointer) and the
poly is queued whatever the pointer is. -/
def batch_vectors (VERTEX_BUFFER_SIZE : Int) (lock : hresult) (vector_count : Int)
    (s : mesh_state) : mesh_state :=
  let vertex_count := vector_count * 6
  let r := mesh_alloc VERTEX_BUFFER_SIZE lock vertex_count s
  { r.2 with m_poly := r.2.m_poly ++ [vertex_count] }

/-- The state after a flush: buffer not locked, no vertices, no polys. -/
def flushed_mesh : mesh_state :=
  { m_lockedbuf := false, m_numverts := 0, m_poly := [], asserts := [] }

/-! ## Lemmas on the text conversions -/

theorem hexVal_hexDigitChar : ∀ n, n < 16 → hexVal (hexDigitChar n) = some n := by
  decide

theorem decVal_hexDigitChar : ∀ n, n < 10 → decVal (hexDigitChar n) = some n := by
  decide

theorem isSpaceC_hexDigitChar : ∀ n, n < 16 → isSpaceC (hexDigitChar n) = false := by
  decide

theorem sscanf_02X_space (s : List Char) : sscanf_02X (' ' :: s) = sscanf_02X s := by
  simp [sscanf_02X, skipSpace, isSpaceC]

theorem sscanf_02X_sprintf_d_sep (k : Nat) (hk : k < 100) (r : List Char) :
    sscanf_02X (sprintf_d k ++ ' ' :: r) = some (bcd k, ' ' :: r) := by
  interval_cases k <;> rfl

theorem sscanf_02X_sprintf_d_end (k : Nat) (hk : k < 100) :
    sscanf_02X (sprintf_d k) = some (bcd k, []) := by
  interval_cases k <;> rfl

theorem sscanf_02X4_sprintf_d4 (a b c d : Nat) (ha : a < 100) (hb : b < 100)
    (hc : c < 100) (hd : d < 100) :
    sscanf_02X4 (sprintf_d4 a b c d) = some (bcd a, bcd b, bcd c, bcd d) := by
  simp [sscanf_02X4, sprintf_d4, sscanf_02X_sprintf_d_sep, sscanf_02X_sprintf_d_end,
    sscanf_02X_space, ha, hb, hc, hd]


theorem set_DWORD_BCD_eq (data : List Nat) (v off : Nat) (hv : v < 100000000) :
    set_DWORD_BCD data v off =
      store4 data off (bcd (v / 1000000)) (bcd (v / 10000 % 100)) (bcd (v / 100 % 100))
        (bcd (v % 100)) := by
  have h1 : v / 10000 / 100 < 100 := by omega
  have h2 : v / 10000 % 100 < 100 := by omega
  have h3 : v % 10000 / 100 < 100 := by omega
  have h4 : v % 10000 % 100 < 100 := by omega
  have e1 : v / 10000 / 100 = v / 1000000 := by omega
  have e3 : v % 10000 / 100 = v / 100 % 100 := by omega
  have e4 : v % 10000 % 100 = v % 100 := by omega
  unfold set_DWORD_BCD
  rw [if_pos hv]
  simp only []
  rw [sscanf_02X4_sprintf_d4 _ _ _ _ h1 h2 h3 h4, e1, e3, e4]

theorem set_DWORD_BCD_skip (data : List Nat) (v off : Nat) (hv : ¬ v < 100000000) :
    set_DWORD_BCD data v off = data := by
  simp only [set_DWORD_BCD, if_neg hv]

theorem sprintf_02X_bcd (k : Nat) (hk : k < 100) :
    sprintf_02X (bcd k % 256) = [hexDigitChar (k / 10), hexDigitChar (k % 10)] := by
  have : bcd k < 256 := by unfold bcd; omega
  have e1 : bcd k % 256 / 16 % 16 = k / 10 := by unfold bcd; omega
  have e2 : bcd k % 256 % 16 = k % 10 := by unfold bcd; omega
  simp only [sprintf_02X, e1, e2]

theorem scanDecDigits_digit (acc n : Nat) (hn : n < 10) (rest : List Char) :
    scanDecDigits acc (hexDigitChar n :: rest) = scanDecDigits (acc * 10 + n) rest := by
  simp only [scanDecDigits, decVal_hexDigitChar n hn]

theorem sscanf_d_digit (n : Nat) (hn : n < 10) (rest : List Char) :
    sscanf_d (hexDigitChar n :: rest) = some (scanDecDigits n rest) := by
  have hs : isSpaceC (hexDigitChar n) = false := isSpaceC_hexDigitChar n (by omega)
  simp [sscanf_d, skipSpace, hs, decVal_hexDigitChar n hn]

theorem sscanf_d_bcd4 (k1 k2 k3 k4 : Nat) (h1 : k1 < 100) (h2 : k2 < 100) (h3 : k3 < 100)
    (h4 : k4 < 100) :
    sscanf_d (sprintf_02X (bcd k1 % 256) ++ sprintf_02X (bcd k2 % 256) ++
      sprintf_02X (bcd k3 % 256) ++ sprintf_02X (bcd k4 % 256))
      = some (k1 * 1000000 + k2 * 10000 + k3 * 100 + k4) := by
  rw [sprintf_02X_bcd k1 h1, sprintf_02X_bcd k2 h2, sprintf_02X_bcd k3 h3, sprintf_02X_bcd k4 h4]
  simp only [List.cons_append, List.nil_append, List.append_assoc]
  rw [sscanf_d_digit _ (by omega), scanDecDigits_digit _ _ (by omega),
    scanDecDigits_digit _ _ (by omega), scanDecDigits_digit _ _ (by omega),
    scanDecDigits_digit _ _ (by omega), scanDecDigits_digit _ _ (by omega),
    scanDecDigits_digit _ _ (by omega), scanDecDigits_digit _ _ (by omega)]
  simp only [scanDecDigits, Option.some.injEq]
  omega

theorem scanHexDigits_digit (w acc n : Nat) (hn : n < 16) (rest : List Char) :
    scanHexDigits (w + 1) acc (hexDigitChar n :: rest) = scanHexDigits w (acc * 16 + n) rest := by
  simp only [scanHexDigits, hexVal_hexDigitChar n hn]

theorem sscanf_08X_digit (n : Nat) (hn : n < 16) (rest : List Char) :
    sscanf_08X (hexDigitChar n :: rest) = some (scanHexDigits 7 n rest) := by
  have hs : isSpaceC (hexDigitChar n) = false := isSpaceC_hexDigitChar n hn
  simp [sscanf_08X, skipSpace, hs, hexVal_hexDigitChar n hn]

theorem sscanf_08X_bytes (b0 b1 b2 b3 : Nat) (h0 : b0 < 256) (h1 : b1 < 256) (h2 : b2 < 256)
    (h3 : b3 < 256) :
    sscanf_08X (sprintf_02X b0 ++ sprintf_02X b1 ++ sprintf_02X b2 ++ sprintf_02X b3)
      = some (b0 * 16777216 + b1 * 65536 + b2 * 256 + b3) := by
  simp only [sprintf_02X, List.cons_append, List.nil_append, List.append_assoc]
  rw [sscanf_08X_digit _ (by omega), scanHexDigits_digit _ _ _ (by omega), scanHexDigits_digit _ _ _ (by omega),
    scanHexDigits_digit _ _ _ (by omega), scanHexDigits_digit _ _ _ (by omega),
    scanHexDigits_digit _ _ _ (by omega), scanHexDigits_digit _ _ _ (by omega),
    scanHexDigits_digit _ _ _ (by omega)]
  simp only [scanHexDigits, Option.some.injEq]
  omega


/-! ## Lemmas on the byte buffer -/

theorem byteAt_set (l : List Nat) (i j v : Nat) :
    byteAt (l.set i v) j = if i = j ∧ i < l.length then v % 256 else byteAt l j := by
  unfold byteAt
  by_cases hij : i = j
  · subst hij
    by_cases hl : i < l.length
    · simp [List.getD_eq_getElem?_getD, List.getElem?_set, hl]
    · have hn : l[i]? = none := List.getElem?_eq_none (by omega)
      simp [List.getD_eq_getElem?_getD, List.getElem?_set, hl, hn]
  · simp [List.getD_eq_getElem?_getD, List.getElem?_set, hij]

theorem length_store4 (l : List Nat) (off a b c d : Nat) :
    (store4 l off a b c d).length = l.length := by
  simp [store4]

theorem byteAt_store4_disj (l : List Nat) (off a b c d j : Nat)
    (h : j < off ∨ off + 4 ≤ j) : byteAt (store4 l off a b c d) j = byteAt l j := by
  unfold store4
  rw [byteAt_set, byteAt_set, byteAt_set, byteAt_set]
  rw [if_neg (by omega), if_neg (by omega), if_neg (by omega), if_neg (by omega)]

theorem byteAt_store4_same (l : List Nat) (off a b c d : Nat) (h : off + 3 < l.length) :
    byteAt (store4 l off a b c d) off = a % 256 ∧
    byteAt (store4 l off a b c d) (off + 1) = b % 256 ∧
    byteAt (store4 l off a b c d) (off + 2) = c % 256 ∧
    byteAt (store4 l off a b c d) (off + 3) = d % 256 := by
  unfold store4
  simp only [byteAt_set, List.length_set]
  refine ⟨?_, ?_, ?_, ?_⟩
  · rw [if_neg (by omega), if_neg (by omega), if_neg (by omega), if_pos ⟨trivial, by omega⟩]
    omega
  · rw [if_neg (by omega), if_neg (by omega), if_pos ⟨trivial, by omega⟩]
    omega
  · rw [if_neg (by omega), if_pos ⟨trivial, by omega⟩]
    omega
  · rw [if_pos ⟨trivial, by omega⟩]
    omega

theorem sprintf_dword_store4_disj (l : List Nat) (off a b c d i : Nat)
    (h : i + 4 ≤ off ∨ off + 4 ≤ i) :
    sprintf_dword i (store4 l off a b c d) = sprintf_dword i l := by
  unfold sprintf_dword
  rw [byteAt_store4_disj _ _ _ _ _ _ _ (by omega), byteAt_store4_disj _ _ _ _ _ _ _ (by omega),
    byteAt_store4_disj _ _ _ _ _ _ _ (by omega), byteAt_store4_disj _ _ _ _ _ _ _ (by omega)]

theorem sprintf_dword_store4_same (l : List Nat) (off a b c d : Nat) (h : off + 3 < l.length) :
    sprintf_dword off (store4 l off a b c d) =
      sprintf_02X (a % 256) ++ sprintf_02X (b % 256) ++ sprintf_02X (c % 256) ++
        sprintf_02X (d % 256) := by
  obtain ⟨h0, h1, h2, h3⟩ := byteAt_store4_same l off a b c d h
  unfold sprintf_dword
  rw [h0, h1, h2, h3]

theorem byteAt_replicate_zero (n j : Nat) : byteAt (List.replicate n 0) j = 0 := by
  unfold byteAt
  by_cases hj : j < n
  · simp [List.getD_eq_getElem?_getD, List.getElem?_replicate, hj]
  · simp [List.getD_eq_getElem?_getD, List.getElem?_replicate, hj]

theorem sprintf_dword_zero (i : Nat) :
    sprintf_dword i (List.replicate 68 0) =
      sprintf_02X (bcd 0 % 256) ++ sprintf_02X (bcd 0 % 256) ++ sprintf_02X (bcd 0 % 256) ++
        sprintf_02X (bcd 0 % 256) := by
  unfold sprintf_dword
  simp only [byteAt_replicate_zero]
  rfl


/-! ## Reading back what the setters stored -/

theorem toInt32_toUInt32 (x : Int) (h0 : -2147483648 ≤ x) (h1 : x < 2147483648) :
    toInt32 (toUInt32 x) = x := by
  unfold toInt32 toUInt32
  split_ifs with h <;> omega

theorem toUInt32_lt (x : Int) : toUInt32 x < 4294967296 := by
  unfold toUInt32
  omega

theorem toUInt32_of_bcd (x : Int) (h0 : 0 ≤ x) (h1 : x < 100000000) :
    toUInt32 x < 100000000 := by
  unfold toUInt32
  omega

theorem length_set_DWORD (d : List Nat) (v off : Nat) :
    (set_DWORD d v off).length = d.length := by
  simp [set_DWORD, length_store4]

theorem length_set_DWORD_BCD (d : List Nat) (v off : Nat) :
    (set_DWORD_BCD d v off).length = d.length := by
  by_cases hv : v < 100000000
  · rw [set_DWORD_BCD_eq d v off hv, length_store4]
  · rw [set_DWORD_BCD_skip d v off hv]

theorem sprintf_dword_set_DWORD_disj (d : List Nat) (v off i : Nat)
    (h : i + 4 ≤ off ∨ off + 4 ≤ i) :
    sprintf_dword i (set_DWORD d v off) = sprintf_dword i d := by
  unfold set_DWORD
  exact sprintf_dword_store4_disj _ _ _ _ _ _ _ h

theorem sprintf_dword_set_DWORD_BCD_disj (d : List Nat) (v off i : Nat)
    (h : i + 4 ≤ off ∨ off + 4 ≤ i) :
    sprintf_dword i (set_DWORD_BCD d v off) = sprintf_dword i d := by
  by_cases hv : v < 100000000
  · rw [set_DWORD_BCD_eq d v off hv]
    exact sprintf_dword_store4_disj _ _ _ _ _ _ _ h
  · rw [set_DWORD_BCD_skip d v off hv]

theorem get_DWORD_BCD_set_DWORD_BCD_same (d : List Nat) (v off : Nat) (hv : v < 100000000)
    (h : off + 3 < d.length) :
    get_DWORD_BCD off (set_DWORD_BCD d v off) = some (v : Int) := by
  unfold get_DWORD_BCD
  rw [set_DWORD_BCD_eq d v off hv, sprintf_dword_store4_same _ _ _ _ _ _ h,
    sscanf_d_bcd4 _ _ _ _ (by omega) (by omega) (by omega) (by omega)]
  have e : v / 1000000 * 1000000 + v / 10000 % 100 * 10000 + v / 100 % 100 * 100 + v % 100 = v := by
    omega
  rw [e]
  simp only [Option.map_some', Option.some.injEq]
  unfold toInt32
  split_ifs with h' <;> omega

theorem get_DWORD_BCD_zero (i : Nat) : get_DWORD_BCD i (List.replicate 68 0) = some 0 := by
  unfold get_DWORD_BCD
  rw [sprintf_dword_zero, sscanf_d_bcd4 _ _ _ _ (by omega) (by omega) (by omega) (by omega)]
  rfl

theorem get_DWORD_set_DWORD_same (d : List Nat) (v off : Nat) (hv : v < 4294967296)
    (h : off + 3 < d.length) :
    get_DWORD off (set_DWORD d v off) = some (toInt32 v) := by
  unfold get_DWORD set_DWORD
  rw [sprintf_dword_store4_same _ _ _ _ _ _ h,
    sscanf_08X_bytes _ _ _ _ (by omega) (by omega) (by omega) (by omega)]
  have e : v / 16777216 % 256 % 256 * 16777216 + v / 65536 % 256 % 256 * 65536 +
      v / 256 % 256 % 256 * 256 + v % 256 % 256 = v := by omega
  rw [e]
  rfl

theorem get_DWORD_BCD_set_DWORD_disj (d : List Nat) (v off i : Nat)
    (h : i + 4 ≤ off ∨ off + 4 ≤ i) :
    get_DWORD_BCD i (set_DWORD d v off) = get_DWORD_BCD i d := by
  unfold get_DWORD_BCD
  rw [sprintf_dword_set_DWORD_disj _ _ _ _ h]

theorem get_DWORD_BCD_set_DWORD_BCD_disj (d : List Nat) (v off i : Nat)
    (h : i + 4 ≤ off ∨ off + 4 ≤ i) :
    get_DWORD_BCD i (set_DWORD_BCD d v off) = get_DWORD_BCD i d := by
  unfold get_DWORD_BCD
  rw [sprintf_dword_set_DWORD_BCD_disj _ _ _ _ h]

theorem get_DWORD_set_DWORD_disj (d : List Nat) (v off i : Nat)
    (h : i + 4 ≤ off ∨ off + 4 ≤ i) :
    get_DWORD i (set_DWORD d v off) = get_DWORD i d := by
  unfold get_DWORD
  rw [sprintf_dword_set_DWORD_disj _ _ _ _ h]

/-- Reading at the offset of a `set_DWORD_BCD` into a buffer that reads 0
there: the value, or 0 when the value was too large to be stored. -/
theorem get_DWORD_BCD_set_DWORD_BCD_stored (d : List Nat) (v off : Nat)
    (hl : d.length = 68) (h : off + 3 < 68) (hz : get_DWORD_BCD off d = some 0) :
    get_DWORD_BCD off (set_DWORD_BCD d v off) = some (bcd_stored v) := by
  unfold bcd_stored
  by_cases hv : v < 100000000
  · rw [if_pos hv, get_DWORD_BCD_set_DWORD_BCD_same _ _ _ hv (by omega)]
  · rw [if_neg hv, set_DWORD_BCD_skip _ _ _ hv, hz]

theorem bcd_stored_of_encodable (x : Int) (hx : bcd_encodable x) :
    bcd_stored (toUInt32 x) = x := by
  obtain ⟨h0, h1⟩ := hx
  unfold bcd_stored
  rw [if_pos (toUInt32_of_bcd x h0 h1)]
  unfold toUInt32
  omega

theorem toInt32_range (n : Nat) : -2147483648 ≤ toInt32 n ∧ toInt32 n < 2147483648 := by
  unfold toInt32
  split_ifs with h <;> omega

theorem ati_fields_reads (m : modeline) :
    get_DWORD_BCD 36 (ati_set_modeline_fields m)
      = some (bcd_stored (toUInt32 (cdiv (toInt32 (toUInt32 m.pclock)) 10000))) ∧
    get_DWORD_BCD 8 (ati_set_modeline_fields m) = some (bcd_stored (toUInt32 m.hactive)) ∧
    get_DWORD_BCD 12 (ati_set_modeline_fields m) = some (bcd_stored (toUInt32 m.hbegin)) ∧
    get_DWORD_BCD 16 (ati_set_modeline_fields m)
      = some (bcd_stored (toUInt32 (m.hend - m.hbegin))) ∧
    get_DWORD_BCD 4 (ati_set_modeline_fields m) = some (bcd_stored (toUInt32 m.htotal)) ∧
    get_DWORD_BCD 24 (ati_set_modeline_fields m) = some (bcd_stored (toUInt32 m.vactive)) ∧
    get_DWORD_BCD 28 (ati_set_modeline_fields m) = some (bcd_stored (toUInt32 m.vbegin)) ∧
    get_DWORD_BCD 32 (ati_set_modeline_fields m)
      = some (bcd_stored (toUInt32 (m.vend - m.vbegin))) ∧
    get_DWORD_BCD 20 (ati_set_modeline_fields m) = some (bcd_stored (toUInt32 m.vtotal)) ∧
    get_DWORD 0 (ati_set_modeline_fields m) = some (ati_flags m) := by
  have hfl : toInt32 (toUInt32 (ati_flags m)) = ati_flags m := by
    have := toInt32_range (toUInt32
      (cor (if ctrue m.interlace then CRTC_INTERLACED else 0)
           (if ctrue m.hsync then 0 else CRTC_H_SYNC_POLARITY)) |||
      toUInt32 (if ctrue m.vsync then 0 else CRTC_V_SYNC_POLARITY))
    exact toInt32_toUInt32 _ this.1 this.2
  unfold ati_set_modeline_fields
  refine ⟨?_, ?_, ?_, ?_, ?_, ?_, ?_, ?_, ?_, ?_⟩
  iterate 9
    · simp (disch := omega) only [get_DWORD_BCD_set_DWORD_disj,
        get_DWORD_BCD_set_DWORD_BCD_disj]
      refine get_DWORD_BCD_set_DWORD_BCD_stored _ _ _ ?_ ?_ ?_
      · simp only [length_set_DWORD_BCD, List.length_replicate]
      · omega
      · simp (disch := omega) only [get_DWORD_BCD_set_DWORD_BCD_disj, get_DWORD_BCD_zero]
  · rw [get_DWORD_set_DWORD_same _ _ _ (toUInt32_lt _)
      (by simp only [length_set_DWORD_BCD, List.length_replicate]; omega), hfl]

/-! ## The legacy ATI blob: round trip and checksum -/

theorem ati_flags_decode (m : modeline) (hi : m.interlace = 0 ∨ m.interlace = 1)
    (hh : m.hsync = 0 ∨ m.hsync = 1) (hv : m.vsync = 0 ∨ m.vsync = 1) :
    (if ctrue (cand (ati_flags m) CRTC_INTERLACED) then (1 : Int) else 0) = m.interlace ∧
    (if ctrue (cand (ati_flags m) CRTC_H_SYNC_POLARITY) then (0 : Int) else 1) = m.hsync ∧
    (if ctrue (cand (ati_flags m) CRTC_V_SYNC_POLARITY) then (0 : Int) else 1) = m.vsync := by
  unfold ati_flags
  rcases hi with hi | hi <;> rcases hh with hh | hh <;> rcases hv with hv | hv <;>
    rw [hi, hh, hv] <;> decide

theorem ati_blob_eq (m : modeline) :
    ati_set_modeline_blob m = some (set_DWORD (ati_set_modeline_fields m)
      (toUInt32 (65535 - ati_flags m - m.htotal - m.hactive - m.hend - m.vtotal - m.vactive
        - m.vend - cdiv m.pclock 10000)) 64) := by
  obtain ⟨-, -, -, -, -, -, -, -, -, hf⟩ := ati_fields_reads m
  unfold ati_set_modeline_blob
  simp only [hf]

theorem length_ati_fields (m : modeline) : (ati_set_modeline_fields m).length = 68 := by
  unfold ati_set_modeline_fields
  simp only [length_set_DWORD, length_set_DWORD_BCD, List.length_replicate]

theorem ati_blob_decode (m mode : modeline) (refresh_label : Int) (c : Nat) :
    ati_get_modeline_fields (set_DWORD (ati_set_modeline_fields m) c 64) refresh_label mode =
      some (ati_decoded m mode refresh_label) := by
  obtain ⟨h1, h2, h3, h4, h5, h6, h7, h8, h9, hf⟩ := ati_fields_reads m
  unfold ati_get_modeline_fields ati_decoded
  simp (disch := omega) only [get_DWORD_BCD_set_DWORD_disj, get_DWORD_set_DWORD_disj,
    h1, h2, h3, h4, h5, h6, h7, h8, h9, hf]

/-- C1: for a modeline whose interlace, hsync and vsync are 0 or 1 and whose
eight stored timing values lie in `[0, 10^8)`, `ati_set_modeline` builds a
68-byte blob, and the field extraction of `ati_get_modeline` on that blob
yields the same hactive, hbegin, hend, htotal, vactive, vbegin, vend, vtotal,
interlace, hsync and vsync. -/
theorem ati_blob_roundtrip (m mode : modeline) (refresh_label : Int)
    (hi : m.interlace = 0 ∨ m.interlace = 1) (hh : m.hsync = 0 ∨ m.hsync = 1)
    (hv : m.vsync = 0 ∨ m.vsync = 1) (henc : ati_timings_encodable m) :
    ∃ lp_data m', ati_set_modeline_blob m = some lp_data ∧ lp_data.length = 68 ∧
      ati_get_modeline_fields lp_data refresh_label mode = some m' ∧
      m'.hactive = m.hactive ∧ m'.hbegin = m.hbegin ∧ m'.hend = m.hend ∧
      m'.htotal = m.htotal ∧ m'.vactive = m.vactive ∧ m'.vbegin = m.vbegin ∧
      m'.vend = m.vend ∧ m'.vtotal = m.vtotal ∧ m'.interlace = m.interlace ∧
      m'.hsync = m.hsync ∧ m'.vsync = m.vsync := by
  obtain ⟨fi, fh, fv⟩ := ati_flags_decode m hi hh hv
  obtain ⟨a, b, c, d, e, f, g, k⟩ := henc
  refine ⟨_, _, ati_blob_eq m, ?_, ati_blob_decode m mode refresh_label _, ?_⟩
  · rw [length_set_DWORD, length_ati_fields]
  · simp only [ati_decoded, bcd_stored_of_encodable _ a, bcd_stored_of_encodable _ b,
      bcd_stored_of_encodable _ c, bcd_stored_of_encodable _ d, bcd_stored_of_encodable _ e,
      bcd_stored_of_encodable _ f, bcd_stored_of_encodable _ g, bcd_stored_of_encodable _ k]
    refine ⟨trivial, trivial, ?_, trivial, trivial, trivial, ?_, trivial, fi, fh, fv⟩ <;> omega

theorem ati_blob_roundtrip_witness :
    ati_timings_encodable sample_modeline ∧
    ∃ lp_data m', ati_set_modeline_blob sample_modeline = some lp_data ∧ lp_data.length = 68 ∧
      ati_get_modeline_fields lp_data 120 sample_modeline = some m' ∧
      m'.hactive = 320 ∧ m'.hbegin = 336 ∧ m'.hend = 367 ∧
      m'.htotal = 392 ∧ m'.vactive = 240 ∧ m'.vbegin = 244 ∧
      m'.vend = 247 ∧ m'.vtotal = 262 ∧ m'.interlace = 1 ∧
      m'.hsync = 1 ∧ m'.vsync = 0 :=
  ⟨by decide,
    ati_blob_roundtrip sample_modeline sample_modeline 120 (by decide) (by decide) (by decide)
      (by decide)⟩

theorem toUInt32_natCast (n : Nat) (h : n < 4294967296) : toUInt32 (n : Int) = n := by
  unfold toUInt32
  omega

theorem toInt32_natCast (n : Nat) (h : n < 2147483648) : toInt32 n = (n : Int) := by
  unfold toInt32
  split_ifs with h' <;> omega

theorem cor_natCast (a b : Nat) (ha : a < 2147483648) (hb : b < 2147483648) :
    cor (a : Int) (b : Int) = ((a ||| b : Nat) : Int) := by
  have hab : a ||| b < 2 ^ 31 := Nat.or_lt_two_pow (by omega) (by omega)
  unfold cor
  rw [toUInt32_natCast a (by omega), toUInt32_natCast b (by omega),
    toInt32_natCast _ (by omega)]

theorem cand_natCast (a b : Nat) (ha : a < 2147483648) (hb : b < 2147483648) :
    cand (a : Int) (b : Int) = ((a &&& b : Nat) : Int) := by
  have hab : a &&& b < 2 ^ 31 := Nat.and_lt_two_pow a (by omega)
  unfold cand
  rw [toUInt32_natCast a (by omega), toUInt32_natCast b (by omega),
    toInt32_natCast _ (by omega)]

theorem adl_flag_bits_lt (H : adl_header) (m : modeline) (hH : adl_masks_ok H) :
    adl_flag_bits H m < 2147483648 := by
  obtain ⟨-, -, -, hI, hH', hV, -, -, -⟩ := hH
  have : adl_flag_bits H m < 2 ^ 31 := by
    unfold adl_flag_bits
    refine Nat.or_lt_two_pow (Nat.or_lt_two_pow ?_ ?_) ?_
    · split_ifs <;> omega
    · split_ifs <;> omega
    · split_ifs <;> omega
  omega

theorem adl_timing_flags_eq (H : adl_header) (m : modeline) (hH : adl_masks_ok H) :
    adl_timing_flags H m = (adl_flag_bits H m : Int) := by
  obtain ⟨-, -, -, hI, hH', hV, -, -, -⟩ := hH
  have e1 : (if ctrue m.interlace then (H.ADL_DL_TIMINGFLAG_INTERLACED : Int) else 0)
      = ((if ctrue m.interlace then H.ADL_DL_TIMINGFLAG_INTERLACED else 0 : Nat) : Int) := by
    split_ifs <;> rfl
  have e2 : (if ctrue m.hsync then 0 else (H.ADL_DL_TIMINGFLAG_H_SYNC_POLARITY : Int))
      = ((if ctrue m.hsync then 0 else H.ADL_DL_TIMINGFLAG_H_SYNC_POLARITY : Nat) : Int) := by
    split_ifs <;> rfl
  have e3 : (if ctrue m.vsync then 0 else (H.ADL_DL_TIMINGFLAG_V_SYNC_POLARITY : Int))
      = ((if ctrue m.vsync then 0 else H.ADL_DL_TIMINGFLAG_V_SYNC_POLARITY : Nat) : Int) := by
    split_ifs <;> rfl
  have b1 : (if ctrue m.interlace then H.ADL_DL_TIMINGFLAG_INTERLACED else 0) < 2147483648 := by
    split_ifs <;> omega
  have b2 : (if ctrue m.hsync then 0 else H.ADL_DL_TIMINGFLAG_H_SYNC_POLARITY) < 2147483648 := by
    split_ifs <;> omega
  have b3 : (if ctrue m.vsync then 0 else H.ADL_DL_TIMINGFLAG_V_SYNC_POLARITY) < 2147483648 := by
    split_ifs <;> omega
  have b12 : (if ctrue m.interlace then H.ADL_DL_TIMINGFLAG_INTERLACED else 0) |||
      (if ctrue m.hsync then 0 else H.ADL_DL_TIMINGFLAG_H_SYNC_POLARITY) < 2 ^ 31 :=
    Nat.or_lt_two_pow (by omega) (by omega)
  unfold adl_timing_flags adl_flag_bits
  rw [e1, e2, e3, cor_natCast _ _ b1 b2, cor_natCast _ _ (by omega) b3]

theorem nat_or_and_right (x y z : Nat) : (x ||| y) &&& z = (x &&& z) ||| (y &&& z) := by
  rw [Nat.and_comm, Nat.and_or_distrib_left, Nat.and_comm z x, Nat.and_comm z y]

theorem adl_flag_bits_and (H : adl_header) (m : modeline) (hH : adl_masks_ok H) :
    adl_flag_bits H m &&& H.ADL_DL_TIMINGFLAG_INTERLACED
      = (if ctrue m.interlace then H.ADL_DL_TIMINGFLAG_INTERLACED else 0) ∧
    adl_flag_bits H m &&& H.ADL_DL_TIMINGFLAG_H_SYNC_POLARITY
      = (if ctrue m.hsync then 0 else H.ADL_DL_TIMINGFLAG_H_SYNC_POLARITY) ∧
    adl_flag_bits H m &&& H.ADL_DL_TIMINGFLAG_V_SYNC_POLARITY
      = (if ctrue m.vsync then 0 else H.ADL_DL_TIMINGFLAG_V_SYNC_POLARITY) := by
  obtain ⟨-, -, -, -, -, -, hIH, hIV, hHV⟩ := hH
  have hHI := (Nat.and_comm _ _).trans hIH
  have hVI := (Nat.and_comm _ _).trans hIV
  have hVH := (Nat.and_comm _ _).trans hHV
  unfold adl_flag_bits
  refine ⟨?_, ?_, ?_⟩ <;>
    cases ctrue m.interlace <;> cases ctrue m.hsync <;> cases ctrue m.vsync <;>
    simp [nat_or_and_right, hIH, hIV, hHV, hHI, hVI, hVH]


theorem adl_flags_read (H : adl_header) (m : modeline) (hH : adl_masks_ok H)
    (hfit : adl_fits H (adl_timing_flags H m)) :
    cand (H.field (adl_timing_flags H m)) H.ADL_DL_TIMINGFLAG_INTERLACED
      = ((if ctrue m.interlace then H.ADL_DL_TIMINGFLAG_INTERLACED else 0 : Nat) : Int) ∧
    cand (H.field (adl_timing_flags H m)) H.ADL_DL_TIMINGFLAG_H_SYNC_POLARITY
      = ((if ctrue m.hsync then 0 else H.ADL_DL_TIMINGFLAG_H_SYNC_POLARITY : Nat) : Int) ∧
    cand (H.field (adl_timing_flags H m)) H.ADL_DL_TIMINGFLAG_V_SYNC_POLARITY
      = ((if ctrue m.vsync then 0 else H.ADL_DL_TIMINGFLAG_V_SYNC_POLARITY : Nat) : Int) := by
  have hlt := adl_flag_bits_lt H m hH
  obtain ⟨a1, a2, a3⟩ := adl_flag_bits_and H m hH
  have hH' := hH
  obtain ⟨-, -, -, hI, hHs, hV, -, -, -⟩ := hH'
  unfold adl_fits at hfit
  rw [hfit, adl_timing_flags_eq H m hH, cand_natCast _ _ hlt hI, cand_natCast _ _ hlt hHs,
    cand_natCast _ _ hlt hV, a1, a2, a3]
  exact ⟨rfl, rfl, rfl⟩

/-- C3: for a modeline with `htotal != 0`, polarities and interlace in
`{0, 1}` and a flag word and timing values that fit the members of
`ADLDetailedTiming`, the timing packed by `adl_set_modeline` has INTERLACED
set iff `interlace = 1`, H_SYNC_POLARITY set iff `hsync = 0`, V_SYNC_POLARITY
set iff `vsync = 0`, and `adl_display_mode_info_to_modeline` succeeds on it
and restores htotal, hactive, hbegin, hend, vtotal, vactive, vbegin, vend,
interlace, hsync and vsync (for all flag masks that are non-zero and pairwise
disjoint). -/
theorem adl_detailed_timing_roundtrip (H : adl_header) (m m0 : modeline) (update_mode : Int)
    (hH : adl_masks_ok H) (hht : m.htotal ≠ 0)
    (hi : m.interlace = 0 ∨ m.interlace = 1) (hh : m.hsync = 0 ∨ m.hsync = 1)
    (hv : m.vsync = 0 ∨ m.vsync = 1) (hfit : adl_timings_fit H m) :
    (cand (adl_set_modeline_mode_info H m update_mode).sDetailedTiming.sTimingFlags
        H.ADL_DL_TIMINGFLAG_INTERLACED ≠ 0 ↔ m.interlace = 1) ∧
    (cand (adl_set_modeline_mode_info H m update_mode).sDetailedTiming.sTimingFlags
        H.ADL_DL_TIMINGFLAG_H_SYNC_POLARITY ≠ 0 ↔ m.hsync = 0) ∧
    (cand (adl_set_modeline_mode_info H m update_mode).sDetailedTiming.sTimingFlags
        H.ADL_DL_TIMINGFLAG_V_SYNC_POLARITY ≠ 0 ↔ m.vsync = 0) ∧
    ∃ m', adl_display_mode_info_to_modeline H (adl_set_modeline_mode_info H m update_mode) m0
        = (true, m') ∧
      m'.htotal = m.htotal ∧ m'.hactive = m.hactive ∧ m'.hbegin = m.hbegin ∧
      m'.hend = m.hend ∧ m'.vtotal = m.vtotal ∧ m'.vactive = m.vactive ∧
      m'.vbegin = m.vbegin ∧ m'.vend = m.vend ∧ m'.interlace = m.interlace ∧
      m'.hsync = m.hsync ∧ m'.vsync = m.vsync := by
  obtain ⟨ff, f1, f2, f3, f4, f5, f6, f7, f8⟩ := hfit
  obtain ⟨r1, r2, r3⟩ := adl_flags_read H m hH ff
  obtain ⟨nI, nH, nV, -⟩ := hH
  unfold adl_fits at f1 f2 f3 f4 f5 f6 f7 f8
  have hne : ¬ (H.field m.htotal = 0) := by rw [f1]; exact hht
  have ci : ctrue m.interlace = decide (m.interlace = 1) := by
    rcases hi with h | h <;> rw [h] <;> decide
  have ch : ctrue m.hsync = decide (m.hsync = 1) := by
    rcases hh with h | h <;> rw [h] <;> decide
  have cv : ctrue m.vsync = decide (m.vsync = 1) := by
    rcases hv with h | h <;> rw [h] <;> decide
  refine ⟨?_, ?_, ?_, ?_⟩
  · show cand (H.field (adl_timing_flags H m)) _ ≠ 0 ↔ _
    rw [r1, ci]
    by_cases h : m.interlace = 1 <;> simp [h, nI]
  · show cand (H.field (adl_timing_flags H m)) _ ≠ 0 ↔ _
    rw [r2, ch]
    rcases hh with h | h <;> simp [h, nH]
  · show cand (H.field (adl_timing_flags H m)) _ ≠ 0 ↔ _
    rw [r3, cv]
    rcases hv with h | h <;> simp [h, nV]
  · refine ⟨(adl_display_mode_info_to_modeline H
      (adl_set_modeline_mode_info H m update_mode) m0).2, ?_, ?_⟩
    · unfold adl_display_mode_info_to_modeline
      simp only [adl_set_modeline_mode_info, if_neg hne]
    · unfold adl_display_mode_info_to_modeline
      simp only [adl_set_modeline_mode_info, r1, r2, r3, f1, f2, f3, f4, f5, f6,
        f7, f8, ci, ch, cv, if_neg hht]
      refine ⟨trivial, trivial, trivial, by omega, trivial, trivial, trivial, by omega, ?_, ?_, ?_⟩
      · rcases hi with h | h <;> simp [h, ctrue, nI]
      · rcases hh with h | h <;> simp [h, ctrue, nH]
      · rcases hv with h | h <;> simp [h, ctrue, nV]


theorem adl_detailed_timing_roundtrip_witness :
    (adl_set_modeline_mode_info adl_sdk_header sample_modeline 0).sDetailedTiming.sTimingFlags
        = 10 ∧
    adl_timings_fit adl_sdk_header sample_modeline ∧
    ((cand (adl_set_modeline_mode_info adl_sdk_header sample_modeline 0).sDetailedTiming.sTimingFlags
        adl_sdk_header.ADL_DL_TIMINGFLAG_INTERLACED ≠ 0 ↔ sample_modeline.interlace = 1) ∧
    (cand (adl_set_modeline_mode_info adl_sdk_header sample_modeline 0).sDetailedTiming.sTimingFlags
        adl_sdk_header.ADL_DL_TIMINGFLAG_H_SYNC_POLARITY ≠ 0 ↔ sample_modeline.hsync = 0) ∧
    (cand (adl_set_modeline_mode_info adl_sdk_header sample_modeline 0).sDetailedTiming.sTimingFlags
        adl_sdk_header.ADL_DL_TIMINGFLAG_V_SYNC_POLARITY ≠ 0 ↔ sample_modeline.vsync = 0) ∧
    ∃ m', adl_display_mode_info_to_modeline adl_sdk_header
          (adl_set_modeline_mode_info adl_sdk_header sample_modeline 0) sample_modeline
        = (true, m') ∧
      m'.htotal = sample_modeline.htotal ∧ m'.hactive = sample_modeline.hactive ∧
      m'.hbegin = sample_modeline.hbegin ∧ m'.hend = sample_modeline.hend ∧
      m'.vtotal = sample_modeline.vtotal ∧ m'.vactive = sample_modeline.vactive ∧
      m'.vbegin = sample_modeline.vbegin ∧ m'.vend = sample_modeline.vend ∧
      m'.interlace = sample_modeline.interlace ∧ m'.hsync = sample_modeline.hsync ∧
      m'.vsync = sample_modeline.vsync) :=
  ⟨by decide, by decide,
    adl_detailed_timing_roundtrip adl_sdk_header sample_modeline sample_modeline 0
      (by decide) (by decide) (by decide) (by decide) (by decide) (by decide)⟩

theorem ite_one_eq_zero {c : Prop} [Decidable c] {x : Int}
    (h : (if c then (1 : Int) else x) = 0) : ¬ c ∧ x = 0 := by
  by_cases hc : c
  · rw [if_pos hc] at h
    exact absurd h (by decide)
  · rw [if_neg hc] at h
    exact ⟨hc, h⟩

/-! ### Order and NaN in floating-point arithmetic -/

theorem fp_round_ne_nan (F : fp_format) (q : ℚ) : fp_round F q ≠ fp.nan := by
  unfold fp_round
  simp only []
  split_ifs <;> simp

theorem fp_le_of_not_lt (a b : fp) (ha : a ≠ fp.nan) (hb : b ≠ fp.nan)
    (h : fp_lt b a = false) : fp_le a b = true := by
  cases a with
  | nan => exact absurd rfl ha
  | inf x =>
    cases b with
    | nan => exact absurd rfl hb
    | inf y => cases x <;> cases y <;> simp_all [fp_lt, fp_le]
    | fin q => cases x <;> simp_all [fp_lt, fp_le]
  | fin p =>
    cases b with
    | nan => exact absurd rfl hb
    | inf y => cases y <;> simp_all [fp_lt, fp_le]
    | fin q => simp_all [fp_lt, fp_le]

theorem fp_mul_fin_ne_nan (F : fp_format) (a : fp) (y : ℚ) (ha : a ≠ fp.nan) (hy : y ≠ 0) :
    fp_mul F a (fp.fin y) ≠ fp.nan := by
  cases a with
  | nan => exact absurd rfl ha
  | inf x => simp [fp_mul, hy]
  | fin p => exact fp_round_ne_nan F _

theorem fp_fin_mul_ne_nan (F : fp_format) (x : ℚ) (b : fp) (hx : x ≠ 0) (hb : b ≠ fp.nan) :
    fp_mul F (fp.fin x) b ≠ fp.nan := by
  cases b with
  | nan => exact absurd rfl hb
  | inf y => simp [fp_mul, hx]
  | fin q => exact fp_round_ne_nan F _

theorem fp_fin_add_ne_nan (F : fp_format) (x : ℚ) (b : fp) (hb : b ≠ fp.nan) :
    fp_add F (fp.fin x) b ≠ fp.nan := by
  cases b with
  | nan => exact absurd rfl hb
  | inf y => simp [fp_add]
  | fin q => exact fp_round_ne_nan F _

/-- A `double` that is not NaN and is neither below a positive finite bound
nor above a finite bound is finite and not zero. -/
theorem fp_between_fin (a : fp) (lo hi : ℚ) (hlo : 0 < lo) (ha : a ≠ fp.nan)
    (h1 : fp_lt a (fp.fin lo) = false) (h2 : fp_lt (fp.fin hi) a = false) :
    ∃ x, a = fp.fin x ∧ x ≠ 0 := by
  cases a with
  | nan => exact absurd rfl ha
  | inf s => cases s <;> simp_all [fp_lt]
  | fin p =>
    refine ⟨p, rfl, ?_⟩
    simp only [fp_lt, decide_eq_false_iff_not, not_lt] at h1
    intro h0
    rw [h0] at h1
    exact absurd hlo (not_lt.2 h1)

theorem fp_lt_irrefl (a : fp) : fp_lt a a = false := by
  cases a with
  | nan => rfl
  | inf s => cases s <;> rfl
  | fin p => simp [fp_lt]

theorem fp_lt_trans (a b c : fp) (h1 : fp_lt a b = true) (h2 : fp_lt b c = true) :
    fp_lt a c = true := by
  cases a with
  | nan => simp [fp_lt] at h1
  | inf x =>
    cases b with
    | nan => simp [fp_lt] at h1
    | inf y =>
      cases c with
      | nan => simp [fp_lt] at h2
      | inf z => cases x <;> cases y <;> cases z <;> simp_all [fp_lt]
      | fin r => cases x <;> cases y <;> simp_all [fp_lt]
    | fin q =>
      cases c with
      | nan => simp [fp_lt] at h2
      | inf z => cases x <;> cases z <;> simp_all [fp_lt]
      | fin r => cases x <;> simp_all [fp_lt]
  | fin p =>
    cases b with
    | nan => simp [fp_lt] at h1
    | inf y =>
      cases c with
      | nan => simp [fp_lt] at h2
      | inf z => cases y <;> cases z <;> simp_all [fp_lt]
      | fin r => cases y <;> simp_all [fp_lt]
    | fin q =>
      cases c with
      | nan => simp [fp_lt] at h2
      | inf z => cases z <;> simp_all [fp_lt]
      | fin r =>
        simp only [fp_lt, decide_eq_true_eq] at h1 h2 ⊢
        exact lt_trans h1 h2

/-! ### The checks of `monitor_evaluate_range` -/

/-- The line-limiter checks that an accepted range has passed. -/
theorem monitor_accept_lines (range : monitor_range)
    (h : monitor_evaluate_range range = 0) :
    ¬ (range.progressive_lines_min > 0 ∧ range.progressive_lines_min < PROGRESSIVE_LINES_MIN) ∧
    ¬ (((range.progressive_lines_min : double) + range.hfreq_max * range.vertical_blank)
        * range.vfreq_min > range.hfreq_max) ∧
    ¬ (range.progressive_lines_max < range.progressive_lines_min) ∧
    ¬ (((range.progressive_lines_max : double) + range.hfreq_max * range.vertical_blank)
        * range.vfreq_min > range.hfreq_max) ∧
    (range.interlaced_lines_min ≠ 0 →
      ¬ (range.interlaced_lines_min < range.progressive_lines_max) ∧
      ¬ (range.interlaced_lines_min < PROGRESSIVE_LINES_MIN * 2) ∧
      ¬ ((((cdiv range.interlaced_lines_min 2 : Int) : double) + range.hfreq_max * range.vertical_blank)
          * range.vfreq_min > range.hfreq_max) ∧
      ¬ (range.interlaced_lines_max < range.interlaced_lines_min) ∧
      ¬ ((((cdiv range.interlaced_lines_max 2 : Int) : double) + range.hfreq_max * range.vertical_blank)
          * range.vfreq_min > range.hfreq_max)) ∧
    (range.interlaced_lines_min = 0 → range.interlaced_lines_max = 0) := by
  unfold monitor_evaluate_range at h
  obtain ⟨-, h⟩ := ite_one_eq_zero h
  obtain ⟨-, h⟩ := ite_one_eq_zero h
  obtain ⟨-, h⟩ := ite_one_eq_zero h
  obtain ⟨-, h⟩ := ite_one_eq_zero h
  obtain ⟨-, h⟩ := ite_one_eq_zero h
  obtain ⟨-, h⟩ := ite_one_eq_zero h
  obtain ⟨-, h⟩ := ite_one_eq_zero h
  obtain ⟨-, h⟩ := ite_one_eq_zero h
  obtain ⟨-, h⟩ := ite_one_eq_zero h
  obtain ⟨-, h⟩ := ite_one_eq_zero h
  obtain ⟨-, h⟩ := ite_one_eq_zero h
  obtain ⟨-, h⟩ := ite_one_eq_zero h
  obtain ⟨h13, h⟩ := ite_one_eq_zero h
  obtain ⟨h14, h⟩ := ite_one_eq_zero h
  obtain ⟨h15, h⟩ := ite_one_eq_zero h
  obtain ⟨h16, h⟩ := ite_one_eq_zero h
  refine ⟨h13, h14, h15, h16, ?_, ?_⟩
  · intro hne
    rw [if_pos hne] at h
    obtain ⟨h18, h⟩ := ite_one_eq_zero h
    obtain ⟨h19, h⟩ := ite_one_eq_zero h
    obtain ⟨h20, h⟩ := ite_one_eq_zero h
    obtain ⟨h21, h⟩ := ite_one_eq_zero h
    obtain ⟨h22, -⟩ := ite_one_eq_zero h
    exact ⟨h18, h19, h20, h21, h22⟩
  · intro he
    rw [if_neg (not_not.mpr he)] at h
    obtain ⟨h18, -⟩ := ite_one_eq_zero h
    exact not_not.mp h18

/-- The frequency checks that an accepted range has passed, for `hfreq_max`
and `vfreq_min`. -/
theorem monitor_accept_freqs (range : monitor_range)
    (h : monitor_evaluate_range range = 0) :
    ¬ (range.hfreq_max < HFREQ_MIN) ∧ ¬ (range.hfreq_max > HFREQ_MAX)
      ∧ ¬ (range.vfreq_min < VFREQ_MIN) ∧ ¬ (range.vfreq_min > VFREQ_MAX) := by
  unfold monitor_evaluate_range at h
  obtain ⟨-, h⟩ := ite_one_eq_zero h
  obtain ⟨h2, h⟩ := ite_one_eq_zero h
  obtain ⟨h3, -⟩ := ite_one_eq_zero h
  exact ⟨fun c => h2 (Or.inl c), fun c => h2 (Or.inr (Or.inr c)),
    fun c => h3 (Or.inl c), fun c => h3 (Or.inr c)⟩

/-- For an accepted range whose `hfreq_max`, `vfreq_min` and `vertical_blank`
are not NaN, the value `(L + hfreq_max * vertical_blank) * vfreq_min` is not
NaN, whatever the `int` `L` is. -/
theorem monitor_line_product_ne_nan (range : monitor_range)
    (h : monitor_evaluate_range range = 0)
    (hh : range.hfreq_max ≠ fp.nan) (hv : range.vfreq_min ≠ fp.nan)
    (hb : range.vertical_blank ≠ fp.nan) (L : Int) (hL : |L| ≤ 9007199254740992) :
    ((L : double) + range.hfreq_max * range.vertical_blank) * range.vfreq_min ≠ fp.nan := by
  obtain ⟨f1, f2, f3, f4⟩ := monitor_accept_freqs range h
  have e1 : HFREQ_MIN = fp.fin 14000 := by decide!
  have e2 : HFREQ_MAX = fp.fin 100000 := by decide!
  have e3 : VFREQ_MIN = fp.fin 40 := by decide!
  have e4 : VFREQ_MAX = fp.fin 200 := by decide!
  obtain ⟨x, hx, hx0⟩ := fp_between_fin range.hfreq_max 14000 100000 (by norm_num) hh
    (by rw [← e1]; exact Bool.eq_false_iff.2 f1) (by rw [← e2]; exact Bool.eq_false_iff.2 f2)
  obtain ⟨v, hv', hv0⟩ := fp_between_fin range.vfreq_min 40 200 (by norm_num) hv
    (by rw [← e3]; exact Bool.eq_false_iff.2 f3) (by rw [← e4]; exact Bool.eq_false_iff.2 f4)
  have eL : (L : double) = fp.fin (L : ℚ) := if_pos hL
  rw [hx, hv', eL]
  exact fp_mul_fin_ne_nan binary64 _ v
    (fp_fin_add_ne_nan binary64 _ _ (fp_fin_mul_ne_nan binary64 x _ hx0 hb)) hv0

/-- A value that is not greater than a second one, neither of them NaN, is at
most the second one. -/
theorem double_le_of_not_gt (a b : double) (ha : a ≠ fp.nan) (hb : b ≠ fp.nan)
    (h : ¬ (a > b)) : a ≤ b :=
  fp_le_of_not_lt a b ha hb (Bool.eq_false_iff.2 h)

/-- The halves of the `int` range lie within the exactly converted integers. -/
theorem cdiv_two_abs (x : Int) (h : |x| ≤ 2147483648) : |cdiv x 2| ≤ 9007199254740992 := by
  have h1 : (Int.tdiv x 2).natAbs = x.natAbs / 2 := by
    rw [Int.natAbs_tdiv]
    rfl
  have h2 : (x.natAbs : Int) = |x| := Int.natCast_natAbs x
  have h3 : ((Int.tdiv x 2).natAbs : Int) = |Int.tdiv x 2| := Int.natCast_natAbs _
  unfold cdiv
  omega

/-- C5 as stated fails: the range whose `double` members are all NaN is
accepted by `monitor_evaluate_range`, every comparison with a NaN operand
being false, and `(L + hfreq_max * vertical_blank) * vfreq_min <= hfreq_max`
is false for it; and the range with `hfreq_max = 15625`, 300 lines, no
vertical blanking and `vfreq_min` the `double` next above `15625 / 300` is
accepted, the product rounding to 15625, although the exact value of
`(300 + 15625 * 0) * vfreq_min` is greater than 15625. -/
theorem monitor_accept_line_bounds_counterexample :
    monitor_evaluate_range nan_range = 0
      ∧ ¬ (((nan_range.progressive_lines_min : double)
          + nan_range.hfreq_max * nan_range.vertical_blank) * nan_range.vfreq_min
        ≤ nan_range.hfreq_max)
      ∧ monitor_evaluate_range rounding_range = 0
      ∧ ((rounding_range.progressive_lines_min : double)
          + rounding_range.hfreq_max * rounding_range.vertical_blank)
            * rounding_range.vfreq_min = fp.fin 15625
      ∧ ((rounding_range.progressive_lines_min : ℚ)
          + fp_val rounding_range.hfreq_max * fp_val rounding_range.vertical_blank)
            * fp_val rounding_range.vfreq_min > fp_val rounding_range.hfreq_max := by
  decide!

/-- C5 (amended): every range accepted by `monitor_evaluate_range` whose
`hfreq_max`, `vfreq_min` and `vertical_blank` are not NaN (the line members
being `int`s) satisfies `(L + hfreq_max * vertical_blank) * vfreq_min <=
hfreq_max`, computed and compared in `double` arithmetic (`L` converted to
`double`, the product, the sum and the second product each rounded), for
`L = progressive_lines_min` and `L = progressive_lines_max`, and, when
`interlaced_lines_min != 0`, for `L = interlaced_lines_min / 2` and
`L = interlaced_lines_max / 2` (integer halves). -/
theorem monitor_accept_line_bounds (range : monitor_range)
    (h : monitor_evaluate_range range = 0)
    (hh : range.hfreq_max ≠ fp.nan) (hv : range.vfreq_min ≠ fp.nan)
    (hb : range.vertical_blank ≠ fp.nan)
    (hint : |range.progressive_lines_min| ≤ 2147483648
      ∧ |range.progressive_lines_max| ≤ 2147483648
      ∧ |range.interlaced_lines_min| ≤ 2147483648
      ∧ |range.interlaced_lines_max| ≤ 2147483648) :
    ((range.progressive_lines_min : double) + range.hfreq_max * range.vertical_blank)
        * range.vfreq_min ≤ range.hfreq_max ∧
    ((range.progressive_lines_max : double) + range.hfreq_max * range.vertical_blank)
        * range.vfreq_min ≤ range.hfreq_max ∧
    (range.interlaced_lines_min ≠ 0 →
      (((cdiv range.interlaced_lines_min 2 : Int) : double)
          + range.hfreq_max * range.vertical_blank) * range.vfreq_min ≤ range.hfreq_max ∧
      (((cdiv range.interlaced_lines_max 2 : Int) : double)
          + range.hfreq_max * range.vertical_blank) * range.vfreq_min ≤ range.hfreq_max) := by
  obtain ⟨-, h2, -, h4, h5, -⟩ := monitor_accept_lines range h
  obtain ⟨i1, i2, i3, i4⟩ := hint
  have n := monitor_line_product_ne_nan range h hh hv hb
  refine ⟨double_le_of_not_gt _ _ (n _ (by omega)) hh h2,
    double_le_of_not_gt _ _ (n _ (by omega)) hh h4, fun hne => ?_⟩
  obtain ⟨-, -, h7, -, h9⟩ := h5 hne
  exact ⟨double_le_of_not_gt _ _ (n _ (cdiv_two_abs _ i3)) hh h7,
    double_le_of_not_gt _ _ (n _ (cdiv_two_abs _ i4)) hh h9⟩

theorem monitor_accept_line_bounds_witness :
    monitor_evaluate_range pal_range = 0 ∧
    (((pal_range.progressive_lines_min : double) + pal_range.hfreq_max * pal_range.vertical_blank)
        * pal_range.vfreq_min ≤ pal_range.hfreq_max ∧
    ((pal_range.progressive_lines_max : double) + pal_range.hfreq_max * pal_range.vertical_blank)
        * pal_range.vfreq_min ≤ pal_range.hfreq_max ∧
    (pal_range.interlaced_lines_min ≠ 0 →
      (((cdiv pal_range.interlaced_lines_min 2 : Int) : double)
          + pal_range.hfreq_max * pal_range.vertical_blank)
            * pal_range.vfreq_min ≤ pal_range.hfreq_max ∧
      (((cdiv pal_range.interlaced_lines_max 2 : Int) : double)
          + pal_range.hfreq_max * pal_range.vertical_blank)
            * pal_range.vfreq_min ≤ pal_range.hfreq_max)) :=
  ⟨by decide!, monitor_accept_line_bounds pal_range (by decide!) (by decide!) (by decide!)
    (by decide!) (by decide)⟩

/-- C6 (as stated, refuted): the specification of the `pal` preset with its
`progressive_lines_min` written as 0 parses into 16 fields, is accepted by
`monitor_evaluate_range` and stored by `monitor_fill_range`, and its
`progressive_lines_min` is below 128. -/
theorem progressive_lines_min_counterexample :
    monitor_fill_range sscanf_monitor_range zero_range
      "15625.00-15625.00, 50.00-50.00, 1.500, 4.700, 5.800, 0.064, 0.160, 1.056, 0, 0, 0, 288, 448, 576"
      = (0, pal_range_min0) ∧
    monitor_evaluate_range pal_range_min0 = 0 ∧
    ¬ (pal_range_min0.progressive_lines_min ≥ 128) :=
  ⟨by decide!, by decide!, by decide⟩

/-- C6 (amended): every range accepted by `monitor_evaluate_range` whose
`progressive_lines_min` is positive has `progressive_lines_min >= 128`; the
check is guarded by `progressive_lines_min > 0`, so it is skipped for 0. -/
theorem progressive_lines_min_bound (range : monitor_range)
    (h : monitor_evaluate_range range = 0) (hpos : range.progressive_lines_min > 0) :
    range.progressive_lines_min ≥ 128 := by
  obtain ⟨h1, -⟩ := monitor_accept_lines range h
  unfold PROGRESSIVE_LINES_MIN at h1
  omega

theorem progressive_lines_min_bound_witness :
    monitor_evaluate_range pal_range = 0 ∧ pal_range.progressive_lines_min > 0 ∧
    pal_range.progressive_lines_min ≥ 128 :=
  ⟨by decide!, by decide, progressive_lines_min_bound pal_range (by decide!) (by decide)⟩

/-- C7 (as stated, refuted): the specification of the `pal` preset is
accepted and stored, it supports interlace (`interlaced_lines_min = 448`), and
448 is less than twice its `progressive_lines_max = 288`. -/
theorem interlaced_lines_min_counterexample :
    monitor_fill_range sscanf_monitor_range zero_range
      "15625.00-15625.00, 50.00-50.00, 1.500, 4.700, 5.800, 0.064, 0.160, 1.056, 0, 0, 192, 288, 448, 576"
      = (0, pal_range) ∧
    monitor_evaluate_range pal_range = 0 ∧
    pal_range.interlaced_lines_min ≠ 0 ∧
    ¬ (pal_range.interlaced_lines_min ≥ 2 * pal_range.progressive_lines_max) :=
  ⟨by decide!, by decide!, by decide, by decide⟩

/-- C7 (amended): every accepted range that supports interlace
(`interlaced_lines_min != 0`) has `interlaced_lines_min >=
progressive_lines_max` and `interlaced_lines_min >= 2 * PROGRESSIVE_LINES_MIN`
(256). -/
theorem interlaced_lines_min_bound (range : monitor_range)
    (h : monitor_evaluate_range range = 0) (hi : range.interlaced_lines_min ≠ 0) :
    range.interlaced_lines_min ≥ range.progressive_lines_max ∧
    range.interlaced_lines_min ≥ 2 * PROGRESSIVE_LINES_MIN ∧
    2 * PROGRESSIVE_LINES_MIN = 256 := by
  obtain ⟨-, -, -, -, h5, -⟩ := monitor_accept_lines range h
  obtain ⟨h6, h7, -⟩ := h5 hi
  unfold PROGRESSIVE_LINES_MIN at h7 ⊢
  omega

theorem interlaced_lines_min_bound_witness :
    monitor_evaluate_range pal_range = 0 ∧ pal_range.interlaced_lines_min ≠ 0 ∧
    (pal_range.interlaced_lines_min ≥ pal_range.progressive_lines_max ∧
    pal_range.interlaced_lines_min ≥ 2 * PROGRESSIVE_LINES_MIN ∧
    2 * PROGRESSIVE_LINES_MIN = 256) :=
  ⟨by decide!, by decide, interlaced_lines_min_bound pal_range (by decide!) (by decide)⟩

theorem monitor_fill_range_eq (scan : String → Int × monitor_range) (range : monitor_range)
    (specs_line : String) (hauto : specs_line ≠ "auto") :
    monitor_fill_range scan range specs_line =
      if (scan specs_line).1 ≠ 16 then (-1, range)
      else if monitor_evaluate_range (monitor_parsed_range (scan specs_line).2) ≠ 0
        then (-1, range)
        else (0, monitor_parsed_range (scan specs_line).2) := by
  unfold monitor_fill_range
  rw [if_pos hauto]
  rfl

/-- C8: for a specification string other than "auto", `monitor_fill_range`
returns -1 and leaves the destination unchanged when the string does not
convert into exactly 16 fields or when the parsed range (vertical porches
divided by 1000, `vertical_blank` their sum) is rejected by
`monitor_evaluate_range`; when the parsed range is accepted it returns 0 and
stores the parsed range; so the destination changes only in that case. -/
theorem monitor_fill_range_sentinel (scan : String → Int × monitor_range)
    (range : monitor_range) (specs_line : String) (hauto : specs_line ≠ "auto") :
    (((scan specs_line).1 ≠ 16 ∨
        monitor_evaluate_range (monitor_parsed_range (scan specs_line).2) ≠ 0) →
      monitor_fill_range scan range specs_line = (-1, range)) ∧
    ((scan specs_line).1 = 16 →
      monitor_evaluate_range (monitor_parsed_range (scan specs_line).2) = 0 →
      monitor_fill_range scan range specs_line
        = (0, monitor_parsed_range (scan specs_line).2)) ∧
    ((monitor_fill_range scan range specs_line).2 ≠ range →
      (scan specs_line).1 = 16 ∧
      monitor_evaluate_range (monitor_parsed_range (scan specs_line).2) = 0 ∧
      (monitor_fill_range scan range specs_line).1 = 0) := by
  rw [monitor_fill_range_eq scan range specs_line hauto]
  by_cases he : (scan specs_line).1 = 16
  · by_cases hv : monitor_evaluate_range (monitor_parsed_range (scan specs_line).2) = 0
    · simp [he, hv]
    · simp [he, hv]
  · simp [he]

theorem monitor_fill_range_sentinel_witness :
    "15625.00-15625.00, 50.00-50.00" ≠ "auto" ∧
    (sscanf_monitor_range "15625.00-15625.00, 50.00-50.00").1 = 4 ∧
    monitor_fill_range sscanf_monitor_range pal_range "15625.00-15625.00, 50.00-50.00"
      = (-1, pal_range) :=
  ⟨by decide, by decide!,
    (monitor_fill_range_sentinel sscanf_monitor_range pal_range
      "15625.00-15625.00, 50.00-50.00" (by decide)).1 (Or.inl (by decide!))⟩


/-! ## Scanline set-up of `device_create` -/

theorem device_create_ok (env : device_create_env) (r : renderer_d3d9)
    (henv : device_created env) :
    device_create env r =
      (env.create_resources,
        device_create_scanlines
          { (if r.m_device then { r with m_device := false } else r) with
            m_create_error_count := 0, m_device := true }
          env.vsync_offset env.frame_delay) := by
  obtain ⟨h1, h2, h3⟩ := henv
  unfold device_create
  simp [h1, h2, h3]

theorem switchres_active_created (r : renderer_d3d9) :
    switchres_active
      { (if r.m_device then { r with m_device := false } else r) with
        m_create_error_count := 0, m_device := true } = switchres_active r := by
  unfold switchres_active
  split_ifs <;> rfl

theorem switchres_active_some (r : renderer_d3d9) (m : modeline)
    (hm : r.m_switchres_mode = some m) (hvt : m.vtotal ≠ 0) :
    switchres_active r = some m := by
  unfold switchres_active
  rw [hm]
  simp [ctrue, hvt]

/-- C9: when the device is created and a SwitchRes mode with non-zero vtotal
is active, with `f = interlace ? 2 : 1` and truncating division,
`device_create` sets `first_scanline = (vtotal - vbegin) / f` and
`last_scanline = vactive + (vtotal - vbegin) / f` for vendor 0x1002,
`first_scanline = 1` and `last_scanline = vactive / f` for vendor 0x8086, and
`first_scanline = 0` for every other vendor. -/
theorem device_create_vendor_scanlines (env : device_create_env) (r : renderer_d3d9)
    (m : modeline) (henv : device_created env) (hm : r.m_switchres_mode = some m)
    (hvt : m.vtotal ≠ 0) :
    (r.m_vendor_id = 0x1002 →
      (device_create env r).2.m_first_scanline
        = cdiv (m.vtotal - m.vbegin) (if m.interlace ≠ 0 then 2 else 1) ∧
      (device_create env r).2.m_last_scanline
        = m.vactive + cdiv (m.vtotal - m.vbegin) (if m.interlace ≠ 0 then 2 else 1)) ∧
    (r.m_vendor_id = 0x8086 →
      (device_create env r).2.m_first_scanline = 1 ∧
      (device_create env r).2.m_last_scanline
        = cdiv m.vactive (if m.interlace ≠ 0 then 2 else 1)) ∧
    (r.m_vendor_id ≠ 0x1002 → r.m_vendor_id ≠ 0x8086 →
      (device_create env r).2.m_first_scanline = 0) := by
  have hf : interlace_factor m = (if m.interlace ≠ 0 then 2 else 1) := by
    unfold interlace_factor ctrue
    by_cases h : m.interlace = 0 <;> simp [h]
  have ha := switchres_active_some r m hm hvt
  have hv : ∀ r' : renderer_d3d9, r'.m_vendor_id = r.m_vendor_id →
      switchres_active r' = some m →
      ∀ a b, (r.m_vendor_id = 0x1002 →
        (device_create_scanlines r' a b).m_first_scanline
          = cdiv (m.vtotal - m.vbegin) (if m.interlace ≠ 0 then 2 else 1) ∧
        (device_create_scanlines r' a b).m_last_scanline
          = m.vactive + cdiv (m.vtotal - m.vbegin) (if m.interlace ≠ 0 then 2 else 1)) ∧
      (r.m_vendor_id = 0x8086 →
        (device_create_scanlines r' a b).m_first_scanline = 1 ∧
        (device_create_scanlines r' a b).m_last_scanline
          = cdiv m.vactive (if m.interlace ≠ 0 then 2 else 1)) ∧
      (r.m_vendor_id ≠ 0x1002 → r.m_vendor_id ≠ 0x8086 →
        (device_create_scanlines r' a b).m_first_scanline = 0) := by
    intro r' hvid hact a b
    unfold device_create_scanlines
    simp only [hact, hvid, hf]
    refine ⟨fun h => ?_, fun h => ?_, fun h1 h2 => ?_⟩
    · simp [h]
    · simp [h]
    · simp [h1, h2]
  rw [device_create_ok env r henv]
  refine hv _ ?_ ?_ _ _
  · split_ifs <;> rfl
  · rw [switchres_active_created, ha]

theorem device_create_vendor_scanlines_witness :
    device_created sample_env ∧ sample_mode_240p.vtotal ≠ 0 ∧
    (device_create sample_env sample_renderer).2.m_first_scanline = 18 ∧
    (device_create sample_env sample_renderer).2.m_last_scanline = 258 :=
  ⟨by decide, by decide,
    ((device_create_vendor_scanlines sample_env sample_renderer sample_mode_240p
      (by decide) rfl (by decide)).1 rfl).1,
    ((device_create_vendor_scanlines sample_env sample_renderer sample_mode_240p
      (by decide) rfl (by decide)).1 rfl).2⟩

theorem device_create_scanlines_break (r : renderer_d3d9) (vsync_offset frame_delay : Int) :
    (device_create_scanlines r vsync_offset frame_delay).m_break_scanline =
      if (device_create_scanlines r vsync_offset frame_delay).m_last_scanline - vsync_offset
          > (device_create_scanlines r vsync_offset frame_delay).m_first_scanline
      then (device_create_scanlines r vsync_offset frame_delay).m_last_scanline - vsync_offset
      else (device_create_scanlines r vsync_offset frame_delay).m_last_scanline := rfl

/-- C10 (as stated, refuted): for a windowed renderer on an Intel adapter with
a client area one pixel high and `vsync_offset = 4`, `device_create` succeeds
and leaves `break_scanline = first_scanline = 1`: the break scanline is not
strictly greater than the first scanline. -/
theorem break_scanline_counterexample :
    (device_create sample_env windowed_renderer).1 = 0 ∧
    (device_create sample_env windowed_renderer).2.m_first_scanline = 1 ∧
    (device_create sample_env windowed_renderer).2.m_last_scanline = 1 ∧
    (device_create sample_env windowed_renderer).2.m_break_scanline = 1 ∧
    ¬ ((device_create sample_env windowed_renderer).2.m_break_scanline
        > (device_create sample_env windowed_renderer).2.m_first_scanline) :=
  ⟨by decide, by decide, by decide, by decide, by decide⟩

/-- C10 (amended): when the device is created, `device_create` sets
`break_scanline = last_scanline - vsync_offset` whenever that value is
greater than `first_scanline` and `break_scanline = last_scanline` otherwise;
the resulting `break_scanline` is strictly greater than `first_scanline`
whenever `last_scanline` is. -/
theorem device_create_break_scanline (env : device_create_env) (r : renderer_d3d9)
    (henv : device_created env) :
    ((device_create env r).2.m_last_scanline - env.vsync_offset
        > (device_create env r).2.m_first_scanline →
      (device_create env r).2.m_break_scanline
        = (device_create env r).2.m_last_scanline - env.vsync_offset) ∧
    (¬ ((device_create env r).2.m_last_scanline - env.vsync_offset
        > (device_create env r).2.m_first_scanline) →
      (device_create env r).2.m_break_scanline = (device_create env r).2.m_last_scanline) ∧
    ((device_create env r).2.m_last_scanline > (device_create env r).2.m_first_scanline →
      (device_create env r).2.m_break_scanline > (device_create env r).2.m_first_scanline) := by
  rw [device_create_ok env r henv]
  simp only [device_create_scanlines_break]
  refine ⟨fun h => ?_, fun h => ?_, fun h => ?_⟩
  · rw [if_pos h]
  · rw [if_neg h]
  · by_cases hb : (device_create_scanlines
        { (if r.m_device then { r with m_device := false } else r) with
          m_create_error_count := 0, m_device := true }
        env.vsync_offset env.frame_delay).m_last_scanline - env.vsync_offset
      > (device_create_scanlines
        { (if r.m_device then { r with m_device := false } else r) with
          m_create_error_count := 0, m_device := true }
        env.vsync_offset env.frame_delay).m_first_scanline
    · rw [if_pos hb]
      exact hb
    · rw [if_neg hb]
      exact h

theorem device_create_break_scanline_witness :
    device_created sample_env ∧
    (device_create sample_env sample_renderer).2.m_break_scanline = 254 ∧
    (device_create sample_env sample_renderer).2.m_last_scanline = 258 ∧
    (device_create sample_env sample_renderer).2.m_break_scanline
      > (device_create sample_env sample_renderer).2.m_first_scanline :=
  ⟨by decide, by decide, by decide,
    (device_create_break_scanline sample_env sample_renderer (by decide)).2.2 (by decide)⟩

/-! ## Delay scanline and repeated device creation -/

theorem device_create_scanlines_delay (r : renderer_d3d9) (vsync_offset frame_delay : Int) :
    (device_create_scanlines r vsync_offset frame_delay).m_delay_scanline =
      (device_create_scanlines r vsync_offset frame_delay).m_first_scanline +
        cdiv ((match switchres_active r with
                | some m => m.vtotal
                | none => r.m_height) * (frame_delay - 1)) 10 := rfl

/-- C11: when the device is created and a SwitchRes mode with non-zero vtotal
is active, `device_create` sets `delay_scanline = first_scanline +
(vtotal * (frame_delay - 1)) / 10` with truncating division; for the Intel
adapter with vtotal 262, vactive 240, progressive, `vsync_offset = 4` and
`frame_delay = 3` the values are first 1, last 240, break 236, delay 53. -/
theorem device_create_delay_scanline (env : device_create_env) (r : renderer_d3d9)
    (m : modeline) (henv : device_created env) (hm : r.m_switchres_mode = some m)
    (hvt : m.vtotal ≠ 0) :
    (device_create env r).2.m_delay_scanline
      = (device_create env r).2.m_first_scanline
        + cdiv (m.vtotal * (env.frame_delay - 1)) 10 ∧
    ((device_create sample_env intel_renderer).2.m_first_scanline = 1 ∧
      (device_create sample_env intel_renderer).2.m_last_scanline = 240 ∧
      (device_create sample_env intel_renderer).2.m_break_scanline = 236 ∧
      (device_create sample_env intel_renderer).2.m_delay_scanline = 53) := by
  refine ⟨?_, by decide, by decide, by decide, by decide⟩
  rw [device_create_ok env r henv, device_create_scanlines_delay, switchres_active_created,
    switchres_active_some r m hm hvt]

theorem device_create_delay_scanline_witness :
    device_created sample_env ∧ sample_mode_240p.vtotal ≠ 0 ∧
    (device_create sample_env intel_renderer).2.m_delay_scanline
      = (device_create sample_env intel_renderer).2.m_first_scanline
        + cdiv (sample_mode_240p.vtotal * (sample_env.frame_delay - 1)) 10 :=
  ⟨by decide, by decide,
    (device_create_delay_scanline sample_env intel_renderer sample_mode_240p
      (by decide) rfl (by decide)).1⟩

theorem device_create_lost (env : device_create_env) (r : renderer_d3d9)
    (h : device_lost env) :
    (device_create env r).1 = (if r.m_create_error_count + 1 < 10 then 0 else 1) ∧
    (device_create env r).2.m_create_error_count = r.m_create_error_count + 1 := by
  obtain ⟨h1, h2, h3⟩ := h
  unfold device_create
  simp only [h1, h2, h3]
  by_cases hd : r.m_device = true <;> by_cases hc : r.m_create_error_count + 1 < 10 <;>
    simp [hd, hc]

theorem device_create_seq_lost (envs : List device_create_env) :
    ∀ r : renderer_d3d9, (∀ e ∈ envs, device_lost e) →
      (device_create_seq envs r).1 =
        (List.range envs.length).map
          (fun k : Nat => if r.m_create_error_count + (k : Int) + 1 < 10 then (0 : Int) else 1) := by
  induction envs with
  | nil => intro r _; rfl
  | cons env envs ih =>
    intro r h
    obtain ⟨h1, h2⟩ := device_create_lost env r (h env (List.mem_cons_self _ _))
    have ih' := ih (device_create env r).2 (fun e he => h e (List.mem_cons_of_mem _ he))
    simp only [device_create_seq, List.length_cons, List.range_succ_eq_map, List.map_cons,
      List.map_map, ih', h1, h2]
    refine congrArg₂ _ ?_ ?_
    · simp
    · apply List.map_congr_left
      intro k _
      simp only [Function.comp, Nat.cast_succ]
      have e : r.m_create_error_count + 1 + (k : Int) + 1
          = r.m_create_error_count + ((k : Int) + 1) + 1 := by ring
      rw [e]

/-- C16: starting from a counter of 0 (the value after a successful
creation), in any run of calls in which `CreateDevice` fails with DEVICELOST,
`device_create` returns 0 for each of the first nine calls and 1 (failure) from
the tenth on; and a call in which the device is created resets the counter to
0. -/
theorem device_create_devicelost_threshold (envs : List device_create_env)
    (r : renderer_d3d9) (h0 : r.m_create_error_count = 0)
    (hlost : ∀ e ∈ envs, device_lost e) :
    (device_create_seq envs r).1
      = (List.range envs.length).map (fun k : Nat => if k < 9 then (0 : Int) else 1) ∧
    (∀ (env : device_create_env) (r' : renderer_d3d9), device_created env →
      (device_create env r').2.m_create_error_count = 0) := by
  refine ⟨?_, ?_⟩
  · rw [device_create_seq_lost envs r hlost, h0]
    apply List.map_congr_left
    intro k _
    by_cases hk : k < 9
    · rw [if_pos hk, if_pos (by omega)]
    · rw [if_neg hk, if_neg (by omega)]
  · intro env r' henv
    rw [device_create_ok env r' henv]
    rfl

theorem device_create_devicelost_threshold_witness :
    (device_create_seq (List.replicate 10 lost_env) intel_renderer).1
      = [0, 0, 0, 0, 0, 0, 0, 0, 0, 1] :=
  (device_create_devicelost_threshold (List.replicate 10 lost_env) intel_renderer rfl
    (by decide)).1

/-! ## Raster synchronisation and presentation interval -/

theorem end_frame_warnings (frame_delay : Int) (syncrefresh : Bool) (r : renderer_d3d9)
    (raster : Nat → Option D3DRASTER_STATUS) (fuel : Nat)
    (hfd : frame_delay ≠ 0) (hsync : syncrefresh = true) :
    (end_frame frame_delay syncrefresh r raster fuel).warnings =
      match raster 0 with
      | some raster_status => if missed_retrace r raster_status then 1 else 0
      | none => 0 := by
  unfold end_frame
  rw [if_pos ⟨hfd, hsync⟩]
  simp only []
  split <;> rfl

/-- C12 (as stated, refuted): with `frame_delay = 3`, syncrefresh on and
`delay_scanline = 53`, a frame whose first raster read is at scanline 100
outside the vertical blank (past the delay scanline) logs no warning, and a
frame entered at scanline 10 (before the delay scanline) logs one. -/
theorem missed_retrace_counterexample :
    intel_created.m_delay_scanline = 53 ∧
    (end_frame 3 true intel_created (raster_entered_at 100) 10).warnings = 0 ∧
    (end_frame 3 true intel_created (raster_entered_at 10) 10).warnings = 1 :=
  ⟨by decide, by decide, by decide⟩

/-- C12 (amended): with frame-delay non-zero and syncrefresh on (and a
non-negative `delay_scanline`), `end_frame` logs the missed-retrace warning,
once, exactly when its first raster-status read succeeds and shows
`ScanLine < delay_scanline` while `InVBlank` is false; otherwise it logs no
warning. -/
theorem end_frame_missed_retrace (frame_delay : Int) (syncrefresh : Bool) (r : renderer_d3d9)
    (raster : Nat → Option D3DRASTER_STATUS) (fuel : Nat)
    (hfd : frame_delay ≠ 0) (hsync : syncrefresh = true)
    (hd0 : 0 ≤ r.m_delay_scanline) (hd1 : r.m_delay_scanline < 2147483648) :
    ((end_frame frame_delay syncrefresh r raster fuel).warnings = 1 ↔
      ∃ st, raster 0 = some st ∧ (st.ScanLine : Int) < r.m_delay_scanline
        ∧ st.InVBlank = false) ∧
    ((end_frame frame_delay syncrefresh r raster fuel).warnings = 0 ↔
      ¬ ∃ st, raster 0 = some st ∧ (st.ScanLine : Int) < r.m_delay_scanline
        ∧ st.InVBlank = false) := by
  rw [end_frame_warnings frame_delay syncrefresh r raster fuel hfd hsync]
  have hu : ((toUInt32 r.m_delay_scanline : Nat) : Int) = r.m_delay_scanline := by
    unfold toUInt32
    omega
  cases hr : raster 0 with
  | none => simp
  | some st =>
    have hm : missed_retrace r st = true ↔
        ((st.ScanLine : Int) < r.m_delay_scanline ∧ st.InVBlank = false) := by
      have hc : st.ScanLine < toUInt32 r.m_delay_scanline ↔
          (st.ScanLine : Int) < r.m_delay_scanline := by
        have hn := toUInt32_lt r.m_delay_scanline
        omega
      unfold missed_retrace
      simp [hc]
    by_cases hc : missed_retrace r st = true
    · have := hm.mp hc
      simp [hc, this]
    · have hn : ¬ ((st.ScanLine : Int) < r.m_delay_scanline ∧ st.InVBlank = false) :=
        fun h => hc (hm.mpr h)
      simp only [hc, Bool.false_eq_true, if_false, Option.some.injEq, exists_eq_left',
        true_iff, zero_ne_one, false_iff]
      exact ⟨hn, hn⟩

theorem end_frame_missed_retrace_witness :
    intel_created.m_delay_scanline = 53 ∧
    ((end_frame 3 true intel_created (raster_entered_at 10) 10).warnings = 1 ↔
      ∃ st, raster_entered_at 10 0 = some st ∧ (st.ScanLine : Int) < intel_created.m_delay_scanline
        ∧ st.InVBlank = false) :=
  ⟨by decide,
    (end_frame_missed_retrace 3 true intel_created (raster_entered_at 10) 10
      (by decide) rfl (by decide) (by decide)).1⟩

/-- C13 (as stated, refuted): for a windowed window with `frame_delay = 0` and
triple buffering requested (no waitvsync, no syncrefresh), the presentation
interval is IMMEDIATE, not ONE. -/
theorem presentation_interval_counterexample :
    windowed_triplebuf.frame_delay = 0 ∧ windowed_triplebuf.triplebuf = true ∧
    windowed_triplebuf.fullscreen = false ∧
    (update_presentation_parameters windowed_triplebuf).PresentationInterval
      = present_interval.D3DPRESENT_INTERVAL_IMMEDIATE :=
  ⟨by decide, by decide, by decide, by decide⟩

/-- C13 (amended): `update_presentation_parameters` sets `PresentationInterval`
to ONE exactly when frame-delay is disabled (`frame_delay = 0`) and waitvsync
or syncrefresh is requested, or triple buffering is requested on a fullscreen
window; in every other case it is IMMEDIATE. -/
theorem presentation_interval_one_iff (p : presentation_inputs) :
    ((update_presentation_parameters p).PresentationInterval
        = present_interval.D3DPRESENT_INTERVAL_ONE ↔
      (p.frame_delay = 0 ∧
        ((p.triplebuf = true ∧ p.fullscreen = true) ∨ p.waitvsync = true
          ∨ p.syncrefresh = true))) ∧
    ((update_presentation_parameters p).PresentationInterval
        = present_interval.D3DPRESENT_INTERVAL_IMMEDIATE ↔
      ¬ (p.frame_delay = 0 ∧
        ((p.triplebuf = true ∧ p.fullscreen = true) ∨ p.waitvsync = true
          ∨ p.syncrefresh = true))) := by
  unfold update_presentation_parameters
  by_cases h : p.frame_delay = 0 ∧
      ((p.triplebuf = true ∧ p.fullscreen = true) ∨ p.waitvsync = true ∨ p.syncrefresh = true)
  · simp only [if_pos h]
    simp [h]
  · simp only [if_neg h]
    simp [h]

/-! ## `ycc_to_rgb` -/

theorem clamp255_range (v : Int) : 0 ≤ clamp255 v ∧ clamp255 v ≤ 255 := by
  unfold clamp255
  split_ifs <;> omega

/-- C20: for all `y`, `cb`, `cr` (in particular all 8-bit values),
`ycc_to_rgb` returns alpha `0xff` and
the channels `R = clamp((298C + 409E + 128) >> 8)`,
`G = clamp((298C - 100D - 208E + 128) >> 8)`,
`B = clamp((298C + 516D + 128) >> 8)` with `C = y - 16`, `D = cb - 128`,
`E = cr - 128`, arithmetic shift and clamp to `[0, 255]`; every channel lies in
`[0, 255]`. -/
theorem ycc_to_rgb_matrix (y cb cr : Nat) :
    (ycc_to_rgb y cb cr).a = 0xff ∧
    (ycc_to_rgb y cb cr).r
      = clamp255 (casr (298 * ((y : Int) - 16) + 409 * ((cr : Int) - 128) + 128) 8) ∧
    (ycc_to_rgb y cb cr).g
      = clamp255 (casr (298 * ((y : Int) - 16) - 100 * ((cb : Int) - 128)
          - 208 * ((cr : Int) - 128) + 128) 8) ∧
    (ycc_to_rgb y cb cr).b
      = clamp255 (casr (298 * ((y : Int) - 16) + 516 * ((cb : Int) - 128) + 128) 8) ∧
    (0 ≤ (ycc_to_rgb y cb cr).r ∧ (ycc_to_rgb y cb cr).r ≤ 255) ∧
    (0 ≤ (ycc_to_rgb y cb cr).g ∧ (ycc_to_rgb y cb cr).g ≤ 255) ∧
    (0 ≤ (ycc_to_rgb y cb cr).b ∧ (ycc_to_rgb y cb cr).b ≤ 255) := by
  have er : (298 * (y : Int) - 298 * 16 + 409 * (cr : Int) - 409 * 128 + 128)
      = 298 * ((y : Int) - 16) + 409 * ((cr : Int) - 128) + 128 := by ring
  have eg : (298 * (y : Int) - 298 * 16 - 100 * (cb : Int) + 100 * 128 - 208 * (cr : Int)
      + 208 * 128 + 128)
      = 298 * ((y : Int) - 16) - 100 * ((cb : Int) - 128) - 208 * ((cr : Int) - 128) + 128 := by
    ring
  have eb : (298 * (y : Int) - 298 * 16 + 516 * (cb : Int) - 516 * 128 + 128)
      = 298 * ((y : Int) - 16) + 516 * ((cb : Int) - 128) + 128 := by ring
  unfold ycc_to_rgb
  simp only [er, eg, eb]
  exact ⟨trivial, trivial, trivial, trivial, clamp255_range _, clamp255_range _,
    clamp255_range _⟩

/-! ## The power-of-two rounding of texture dimensions -/

theorem casr_natCast (x k : Nat) : casr (x : Int) k = ((x >>> k : Nat) : Int) := by
  unfold casr
  rw [Nat.shiftRight_eq_div_pow, Int.natCast_div]
  norm_cast

theorem or_shift_lt (x k : Nat) (h : x < 2147483648) : x ||| x >>> k < 2147483648 := by
  have h1 : x >>> k < 2 ^ 31 := by
    rw [Nat.shiftRight_eq_div_pow]
    exact lt_of_le_of_lt (Nat.div_le_self _ _) (by omega)
  have : x ||| x >>> k < 2 ^ 31 := Nat.or_lt_two_pow (by omega) h1
  omega

theorem shift_lt (x k : Nat) (h : x < 2147483648) : x >>> k < 2147483648 := by
  rw [Nat.shiftRight_eq_div_pow]
  exact lt_of_le_of_lt (Nat.div_le_self _ _) h

theorem pow2_round_natCast (v : Nat) (hv : v < 2147483648) :
    pow2_round (v : Int) = (pow2_round_nat v : Int) := by
  have hc : cand (v : Int) ((v : Int) - 1) = ((v &&& (v - 1) : Nat) : Int) := by
    rcases Nat.eq_zero_or_pos v with h0 | hpos
    · subst h0
      decide
    · have e : ((v : Int) - 1) = ((v - 1 : Nat) : Int) := by omega
      rw [e, cand_natCast _ _ hv (by omega)]
  have s1 := or_shift_lt v 1 hv
  have s2 := or_shift_lt _ 2 s1
  have s3 := or_shift_lt _ 4 s2
  unfold pow2_round pow2_round_nat
  rw [hc]
  by_cases h : v &&& (v - 1) = 0
  · simp [h]
  · have h' : ((v &&& (v - 1) : Nat) : Int) ≠ 0 := by exact_mod_cast h
    rw [if_pos h', if_pos h]
    simp only []
    rw [casr_natCast v 1, cor_natCast _ _ hv (shift_lt _ _ hv), casr_natCast _ 2,
      cor_natCast _ _ s1 (shift_lt _ _ s1), casr_natCast _ 4,
      cor_natCast _ _ s2 (shift_lt _ _ s2), casr_natCast _ 8,
      cor_natCast _ _ s3 (shift_lt _ _ s3)]
    rfl

theorem smear16_testBit (x i : Nat) :
    (smear16 x).testBit i =
      (x.testBit i || x.testBit (1 + i) || x.testBit (2 + i) || x.testBit (3 + i)
        || x.testBit (4 + i) || x.testBit (5 + i) || x.testBit (6 + i) || x.testBit (7 + i)
        || x.testBit (8 + i) || x.testBit (9 + i) || x.testBit (10 + i) || x.testBit (11 + i)
        || x.testBit (12 + i) || x.testBit (13 + i) || x.testBit (14 + i)
        || x.testBit (15 + i)) := by
  simp only [smear16, Nat.testBit_or, Nat.testBit_shiftRight, ← Nat.add_assoc, Nat.reduceAdd]
  generalize x.testBit i = b0
  generalize x.testBit (1 + i) = b1
  generalize x.testBit (2 + i) = b2
  generalize x.testBit (3 + i) = b3
  generalize x.testBit (4 + i) = b4
  generalize x.testBit (5 + i) = b5
  generalize x.testBit (6 + i) = b6
  generalize x.testBit (7 + i) = b7
  generalize x.testBit (8 + i) = b8
  generalize x.testBit (9 + i) = b9
  generalize x.testBit (10 + i) = b10
  generalize x.testBit (11 + i) = b11
  generalize x.testBit (12 + i) = b12
  generalize x.testBit (13 + i) = b13
  generalize x.testBit (14 + i) = b14
  generalize x.testBit (15 + i) = b15
  cases b0 <;> cases b1 <;> cases b2 <;> cases b3 <;> simp
  all_goals (cases b4 <;> cases b5 <;> cases b6 <;> cases b7 <;> simp)
  all_goals (cases b8 <;> cases b9 <;> cases b10 <;> cases b11 <;> simp)
  all_goals (cases b12 <;> cases b13 <;> cases b14 <;> cases b15 <;> simp)

theorem smear16_testBit_iff (x i : Nat) :
    (smear16 x).testBit i = true ↔ ∃ d, d < 16 ∧ x.testBit (d + i) = true := by
  rw [smear16_testBit]
  simp only [Bool.or_eq_true]
  constructor
  · intro h
    rcases h with (((((((((((((((h | h) | h) | h) | h) | h) | h) | h) | h) | h) | h) | h) | h)
      | h) | h) | h)
    · exact ⟨0, by norm_num, by simpa using h⟩
    · exact ⟨1, by norm_num, h⟩
    · exact ⟨2, by norm_num, h⟩
    · exact ⟨3, by norm_num, h⟩
    · exact ⟨4, by norm_num, h⟩
    · exact ⟨5, by norm_num, h⟩
    · exact ⟨6, by norm_num, h⟩
    · exact ⟨7, by norm_num, h⟩
    · exact ⟨8, by norm_num, h⟩
    · exact ⟨9, by norm_num, h⟩
    · exact ⟨10, by norm_num, h⟩
    · exact ⟨11, by norm_num, h⟩
    · exact ⟨12, by norm_num, h⟩
    · exact ⟨13, by norm_num, h⟩
    · exact ⟨14, by norm_num, h⟩
    · exact ⟨15, by norm_num, h⟩
  · rintro ⟨d, hd, h⟩
    interval_cases d <;> simp_all

theorem testBit_top (x k : Nat) (hlo : 2 ^ k ≤ x) (hhi : x < 2 ^ (k + 1)) :
    x.testBit k = true := by
  rw [Nat.testBit_to_div_mod]
  have h1 : x / 2 ^ k = 1 := by
    apply Nat.div_eq_of_lt_le
    · simpa using hlo
    · rw [pow_succ] at hhi
      omega
  simp [h1]

theorem smear16_eq (x k : Nat) (hk : k ≤ 16) (hlo : 2 ^ k < x) (hhi : x < 2 ^ (k + 1)) :
    smear16 x = 2 ^ (k + 1) - 1 := by
  apply Nat.eq_of_testBit_eq
  intro i
  rw [Nat.testBit_two_pow_sub_one]
  by_cases hi : i < k + 1
  · rw [decide_eq_true hi, smear16_testBit_iff]
    by_cases hki : k - i ≤ 15
    · refine ⟨k - i, by omega, ?_⟩
      have e : k - i + i = k := by omega
      rw [e]
      exact testBit_top x k (le_of_lt hlo) hhi
    · have hk16 : k = 16 := by omega
      have hi0 : i = 0 := by omega
      subst hk16
      subst hi0
      have hr : x % 2 ^ 16 ≠ 0 := by
        norm_num at hlo hhi ⊢
        omega
      obtain ⟨j, hj⟩ := Nat.ne_zero_implies_bit_true hr
      rw [Nat.testBit_mod_two_pow] at hj
      simp only [Bool.and_eq_true, decide_eq_true_eq] at hj
      exact ⟨j, hj.1, by simpa using hj.2⟩
  · rw [decide_eq_false hi]
    rw [Bool.eq_false_iff]
    intro h
    rw [smear16_testBit_iff] at h
    obtain ⟨d, _, h⟩ := h
    have h1 := Nat.testBit_implies_ge h
    have h2 : 2 ^ (k + 1) ≤ 2 ^ (d + i) := Nat.pow_le_pow_right (by norm_num) (by omega)
    omega

theorem and_pred_two_pow (k : Nat) : 2 ^ k &&& (2 ^ k - 1) = 0 := by
  apply Nat.eq_of_testBit_eq
  intro i
  rw [Nat.testBit_and, Nat.testBit_two_pow, Nat.testBit_two_pow_sub_one]
  by_cases h : k = i
  · subst h
    simp
  · simp [h]

theorem and_pred_ne_zero (x k : Nat) (hlo : 2 ^ k < x) (hhi : x < 2 ^ (k + 1)) :
    x &&& (x - 1) ≠ 0 := by
  intro h
  have h1 : (x &&& (x - 1)).testBit k = true := by
    rw [Nat.testBit_and, testBit_top x k (le_of_lt hlo) hhi,
      testBit_top (x - 1) k (by omega) (by omega)]
    rfl
  rw [h] at h1
  simp at h1

theorem pow2_round_nat_ceil (v : Nat) (h1 : 1 ≤ v) (h2 : v ≤ 131072) :
    is_pow2_ceil v (pow2_round_nat v) := by
  have hv0 : v ≠ 0 := by omega
  have hlo : 2 ^ Nat.log2 v ≤ v := Nat.log2_self_le hv0
  have hhi : v < 2 ^ (Nat.log2 v + 1) := Nat.lt_log2_self
  generalize Nat.log2 v = k at hlo hhi
  unfold pow2_round_nat
  rcases Nat.eq_or_lt_of_le hlo with he | hlt
  · subst he
    rw [and_pred_two_pow]
    simp only [ne_eq, not_true_eq_false, if_false]
    exact ⟨⟨k, rfl⟩, le_refl _, fun j hj => hj⟩
  · have hk : k ≤ 16 := by
      by_contra hc
      have : 2 ^ 17 ≤ 2 ^ k := Nat.pow_le_pow_right (by norm_num) (by omega)
      omega
    rw [if_pos (and_pred_ne_zero v k hlt hhi), smear16_eq v k hk hlt hhi]
    have hp : 0 < 2 ^ (k + 1) := by positivity
    have e : 2 ^ (k + 1) - 1 + 1 = 2 ^ (k + 1) := by omega
    rw [e]
    refine ⟨⟨k + 1, rfl⟩, le_of_lt hhi, fun j hj => ?_⟩
    have hkj : k < j := by
      by_contra hc
      have : 2 ^ j ≤ 2 ^ k := Nat.pow_le_pow_right (by norm_num) (by omega)
      omega
    exact Nat.pow_le_pow_right (by norm_num) hkj

theorem aspect_double_id (max_aspect : Nat) (b : Int) (fuel : Nat) (a : Int) (ha : a ≠ 0)
    (h : ¬ (a < b ∧ toUInt32 (cdiv b a) > max_aspect)) :
    aspect_double max_aspect b fuel a = some a := by
  cases fuel <;> unfold aspect_double <;> split_ifs <;> first | rfl | (exfalso; tauto)

theorem pow2_round_ceil (v : Nat) (h1 : 1 ≤ v) (h2 : v ≤ 131072) :
    pow2_round (v : Int) = (pow2_round_nat v : Int) ∧ is_pow2_ceil v (pow2_round_nat v) :=
  ⟨pow2_round_natCast v (by omega), pow2_round_nat_ceil v h1 h2⟩

theorem toUInt32_cdiv_natCast (a b : Nat) (ha : a < 4294967296) :
    toUInt32 (cdiv (a : Int) (b : Int)) = a / b := by
  unfold cdiv
  rw [Int.tdiv_eq_ediv (Int.ofNat_nonneg a) (Int.ofNat_nonneg b), ← Int.natCast_div]
  have : a / b ≤ a := Nat.div_le_self _ _
  exact toUInt32_natCast _ (by omega)

theorem compute_size_subroutine_pow2 (D : texture_decls) (mgr : d3d_texture_manager)
    (w h : Nat) (hw1 : 1 ≤ w) (hw2 : w ≤ 131072) (hh1 : 1 ≤ h) (hh2 : h ≤ 131072)
    (hcaps : mgr.m_texture_caps &&& D.D3DPTEXTURECAPS_NONPOW2CONDITIONAL = 0)
    (hsq : mgr.m_texture_caps &&& D.D3DPTEXTURECAPS_SQUAREONLY = 0)
    (ha1 : pow2_round_nat h / pow2_round_nat w ≤ mgr.m_texture_max_aspect)
    (ha2 : pow2_round_nat w / pow2_round_nat h ≤ mgr.m_texture_max_aspect) :
    compute_size_subroutine D mgr (w : Int) (h : Int)
      = some ((pow2_round_nat w : Int), (pow2_round_nat h : Int)) := by
  have cw := pow2_round_nat_ceil w hw1 hw2
  have ch := pow2_round_nat_ceil h hh1 hh2
  have pw : 1 ≤ pow2_round_nat w := le_trans hw1 cw.2.1
  have ph : 1 ≤ pow2_round_nat h := le_trans hh1 ch.2.1
  have bw : pow2_round_nat w ≤ 2 ^ 17 := cw.2.2 17 (by norm_num; omega)
  have bh : pow2_round_nat h ≤ 2 ^ 17 := ch.2.2 17 (by norm_num; omega)
  have q1 := toUInt32_cdiv_natCast (pow2_round_nat h) (pow2_round_nat w) (by omega)
  have q2 := toUInt32_cdiv_natCast (pow2_round_nat w) (pow2_round_nat h) (by omega)
  unfold compute_size_subroutine
  simp only [hcaps, hsq, decide_True, if_true, ne_eq, not_true_eq_false, decide_False,
    Bool.false_eq_true, if_false]
  rw [pow2_round_natCast w (by omega), pow2_round_natCast h (by omega)]
  rw [aspect_double_id _ _ _ _ (by omega) (by omega)]
  simp only []
  rw [aspect_double_id _ _ _ _ (by omega) (by omega)]

/-- C18, amended: with shaders disabled, no wrap flag, a device lacking
non-power-of-two conditional support and no square-only, aspect or maximum-size
adjustment applying, for every positive source size whose bordered dimensions
(width + 2*xborder, height + 2*yborder, with xborder = 2 for YUY16 and 1
otherwise, yborder = 1) are at most 131072, `compute_size` makes each raw
dimension the smallest power of two that is at least the bordered dimension,
and sets start = (xborder/rawwidth, yborder/rawheight) and
stop = ((width+xborder)/rawwidth, (height+yborder)/rawheight). -/
theorem compute_size_pow2 (D : texture_decls) (mgr : d3d_texture_manager) (m_flags : Nat)
    (w h xb : Nat)
    (hxb : xb = if PRIMFLAG_GET_TEXFORMAT D m_flags = D.TEXFORMAT_YUY16 then 2 else 1)
    (hwrap : m_flags &&& D.PRIMFLAG_TEXWRAP_MASK ≠ D.PRIMFLAG_TEXWRAP_MASK)
    (hcaps : mgr.m_texture_caps &&& D.D3DPTEXTURECAPS_NONPOW2CONDITIONAL = 0)
    (hsq : mgr.m_texture_caps &&& D.D3DPTEXTURECAPS_SQUAREONLY = 0)
    (hw1 : 1 ≤ w) (hw2 : w + 2 * xb ≤ 131072) (hh1 : 1 ≤ h) (hh2 : h + 2 ≤ 131072)
    (ha1 : pow2_round_nat (h + 2) / pow2_round_nat (w + 2 * xb) ≤ mgr.m_texture_max_aspect)
    (ha2 : pow2_round_nat (w + 2 * xb) / pow2_round_nat (h + 2) ≤ mgr.m_texture_max_aspect)
    (hmw : pow2_round_nat (w + 2 * xb) ≤ mgr.m_texture_max_width)
    (hmh : pow2_round_nat (h + 2) ≤ mgr.m_texture_max_height) :
    compute_size D mgr false m_flags (w : Int) (h : Int)
        = some
          { m_xborderpix := xb
            m_yborderpix := 1
            m_start := ((xb : ℚ) / (pow2_round_nat (w + 2 * xb) : ℚ),
              1 / (pow2_round_nat (h + 2) : ℚ))
            m_stop := (((w + xb : Nat) : ℚ) / (pow2_round_nat (w + 2 * xb) : ℚ),
              ((h + 1 : Nat) : ℚ) / (pow2_round_nat (h + 2) : ℚ))
            m_rawdims := ((pow2_round_nat (w + 2 * xb) : Int), (pow2_round_nat (h + 2) : Int)) }
      ∧ is_pow2_ceil (w + 2 * xb) (pow2_round_nat (w + 2 * xb))
      ∧ is_pow2_ceil (h + 2) (pow2_round_nat (h + 2)) := by
  have cw := pow2_round_nat_ceil (w + 2 * xb) (by omega) hw2
  have ch := pow2_round_nat_ceil (h + 2) (by omega) hh2
  refine ⟨?_, cw, ch⟩
  have bw : pow2_round_nat (w + 2 * xb) ≤ 2 ^ 17 := cw.2.2 17 (by norm_num; omega)
  have bh : pow2_round_nat (h + 2) ≤ 2 ^ 17 := ch.2.2 17 (by norm_num; omega)
  have hsub := compute_size_subroutine_pow2 D mgr (w + 2 * xb) (h + 2) (by omega) hw2
    (by omega) hh2 hcaps hsq ha1 ha2
  have exb : (if PRIMFLAG_GET_TEXFORMAT D m_flags = D.TEXFORMAT_YUY16 then (2 : Int) else 1)
      = (xb : Int) := by
    rw [hxb]
    split_ifs <;> rfl
  have e1 : (w : Int) + 2 * (xb : Int) = ((w + 2 * xb : Nat) : Int) := by push_cast; ring
  have e2 : (h : Int) + 2 * 1 = ((h + 2 : Nat) : Int) := by push_cast; ring
  have t1 : ¬ toUInt32 (pow2_round_nat (w + 2 * xb) : Int) > mgr.m_texture_max_width := by
    rw [toUInt32_natCast _ (by omega)]
    omega
  have t2 : ¬ toUInt32 (pow2_round_nat (h + 2) : Int) > mgr.m_texture_max_height := by
    rw [toUInt32_natCast _ (by omega)]
    omega
  unfold compute_size
  simp only [hwrap, decide_False, Bool.not_false, Bool.and_self, if_true, exb, e1, e2, hsub,
    Bool.false_eq_true, if_false, t1, t2, Bool.or_self]
  push_cast
  simp

theorem compute_size_pow2_witness :
    (compute_size sample_decls pow2_mgr false 0x50 ((330 : Nat) : Int) ((240 : Nat) : Int)
        = some
          { m_xborderpix := ((2 : Nat) : Int)
            m_yborderpix := 1
            m_start := (((2 : Nat) : ℚ) / (pow2_round_nat (330 + 2 * 2) : ℚ),
              1 / (pow2_round_nat (240 + 2) : ℚ))
            m_stop := (((330 + 2 : Nat) : ℚ) / (pow2_round_nat (330 + 2 * 2) : ℚ),
              ((240 + 1 : Nat) : ℚ) / (pow2_round_nat (240 + 2) : ℚ))
            m_rawdims := ((pow2_round_nat (330 + 2 * 2) : Int), (pow2_round_nat (240 + 2) : Int)) }
      ∧ is_pow2_ceil (330 + 2 * 2) (pow2_round_nat (330 + 2 * 2))
      ∧ is_pow2_ceil (240 + 2) (pow2_round_nat (240 + 2)))
      ∧ pow2_round_nat (330 + 2 * 2) = 512 ∧ pow2_round_nat (240 + 2) = 256
      ∧ compute_size sample_decls pow2_mgr false 0x50 330 240
        = some
          { m_xborderpix := 2
            m_yborderpix := 1
            m_start := (2 / 512, 1 / 256)
            m_stop := (332 / 512, 241 / 256)
            m_rawdims := (512, 256) } :=
  ⟨compute_size_pow2 sample_decls pow2_mgr 0x50 330 240 2 (by decide!) (by decide!)
      (by decide!) (by decide!) (by decide) (by decide) (by decide) (by decide) (by decide!)
      (by decide!) (by decide!) (by decide!),
    by decide!, by decide!, by decide!⟩

/-- C18 as stated fails: on a device without non-power-of-two conditional
support that reports a maximum texture size of 1048576 x 1048576, with shaders
disabled and no wrap flag, a 131071 x 65535 ARGB32 source has the bordered
dimensions 131073 x 65537; `compute_size` sets the raw dimensions
262142 x 131072, and 262142 is not a power of two: the smallest power of two
that is at least 131073 is 262144. No square-only, aspect or maximum-size
adjustment applies. -/
theorem compute_size_pow2_overflow :
    (compute_size sample_decls wide_mgr false 0x40 131071 65535).map
        (fun s => (s.m_xborderpix, s.m_yborderpix, s.m_rawdims))
      = some (1, 1, (262142, 131072))
      ∧ compute_size_subroutine sample_decls wide_mgr 131073 65537 = some (262142, 131072)
      ∧ pow2_round 131073 = 262142
      ∧ (∀ k : Nat, (262142 : Nat) ≠ 2 ^ k)
      ∧ is_pow2_ceil 131073 262144
      ∧ is_pow2_ceil 65537 131072 := by
  have hp : ∀ k : Nat, (262142 : Nat) ≠ 2 ^ k := by
    intro k hk
    rcases Nat.lt_or_ge k 18 with h | h
    · have : 2 ^ k ≤ 2 ^ 17 := Nat.pow_le_pow_right (by norm_num) (by omega)
      omega
    · have : 2 ^ 18 ≤ 2 ^ k := Nat.pow_le_pow_right (by norm_num) h
      omega
  have hc : ∀ (v p k : Nat), p = 2 ^ (k + 1) → 2 ^ k < v → v ≤ p → is_pow2_ceil v p := by
    intro v p k hpk hlo hhi
    refine ⟨⟨k + 1, hpk⟩, hhi, fun j hj => ?_⟩
    have hkj : k < j := by
      by_contra hcon
      have : 2 ^ j ≤ 2 ^ k := Nat.pow_le_pow_right (by norm_num) (by omega)
      omega
    rw [hpk]
    exact Nat.pow_le_pow_right (by norm_num) hkj
  refine ⟨by decide!, by decide!, by decide!, hp, ?_, ?_⟩
  · exact hc 131073 262144 17 (by norm_num) (by norm_num) (by norm_num)
  · exact hc 65537 131072 16 (by norm_num) (by norm_num) (by norm_num)

/-! ## The texture list -/

theorem and_mask_eq_iff (x y m : Nat) :
    x &&& m = y &&& m ↔ ∀ i, m.testBit i = true → x.testBit i = y.testBit i := by
  constructor
  · intro h i hm
    have h1 := congrArg (fun n => Nat.testBit n i) h
    simpa [Nat.testBit_and, hm] using h1
  · intro h
    apply Nat.eq_of_testBit_eq
    intro i
    rw [Nat.testBit_and, Nat.testBit_and]
    cases hm : m.testBit i
    · simp
    · rw [h i hm]

theorem and_or_mask_eq_iff (x y b t : Nat) :
    x &&& (b ||| t) = y &&& (b ||| t) ↔ x &&& b = y &&& b ∧ x &&& t = y &&& t := by
  simp only [and_mask_eq_iff, Nat.testBit_or, Bool.or_eq_true]
  constructor
  · intro h
    exact ⟨fun i hi => h i (Or.inl hi), fun i hi => h i (Or.inr hi)⟩
  · rintro ⟨h1, h2⟩ i (hi | hi)
    · exact h1 i hi
    · exact h2 i hi

theorem xor_and_mask_eq_zero_iff (x y m : Nat) :
    (x ^^^ y) &&& m = 0 ↔ x &&& m = y &&& m := by
  rw [Nat.and_xor_distrib_right]
  constructor
  · intro h
    apply Nat.eq_of_testBit_eq
    intro i
    have h1 := congrArg (fun n => Nat.testBit n i) h
    simp only [Nat.testBit_xor, Nat.zero_testBit] at h1
    revert h1
    cases (x &&& m).testBit i <;> cases (y &&& m).testBit i <;> simp
  · intro h
    rw [h, Nat.xor_self]

theorem texture_compute_hash_eq (D : texture_decls) (t : texture_info) (prim : render_primitive)
    (h : same_identity D t prim) :
    texture_compute_hash D t.m_texinfo t.m_flags
      = texture_compute_hash D prim.texture prim.flags := by
  obtain ⟨hb, _, _, h1, h2, _, _⟩ := h
  have hm := (and_or_mask_eq_iff t.m_flags prim.flags D.PRIMFLAG_BLENDMODE_MASK
    D.PRIMFLAG_TEXFORMAT_MASK).2 ⟨h1, h2⟩
  unfold texture_compute_hash
  rw [hb, hm]

theorem find_texinfo_match_spec {S : Type} (D : texture_decls) (sh : shaders_ops S) (s : S)
    (prim : render_primitive) (list : List texture_info)
    (hhash : ∀ t ∈ list, t.m_hash = texture_compute_hash D t.m_texinfo t.m_flags) (i0 : Nat) :
    (∃ pre t post, list = pre ++ t :: post ∧ same_identity D t prim
        ∧ (∀ u ∈ pre, ¬ same_identity D u prim)
        ∧ find_texinfo_match D sh s false (texture_compute_hash D prim.texture prim.flags)
            prim.texture prim.flags list i0 = some (i0 + pre.length, t))
      ∨ ((∀ u ∈ list, ¬ same_identity D u prim)
        ∧ find_texinfo_match D sh s false (texture_compute_hash D prim.texture prim.flags)
            prim.texture prim.flags list i0 = none) := by
  induction list generalizing i0 with
  | nil => exact Or.inr ⟨by simp, rfl⟩
  | cons t ts ih =>
    have hh := hhash t (List.mem_cons_self _ _)
    by_cases hs : same_identity D t prim
    · left
      refine ⟨[], t, ts, rfl, hs, by simp, ?_⟩
      have he := texture_compute_hash_eq D t prim hs
      obtain ⟨hb, hw, hht, h1, h2, h3, h4⟩ := hs
      have hx := (xor_and_mask_eq_zero_iff t.m_flags prim.flags _).2
        ((and_or_mask_eq_iff t.m_flags prim.flags D.PRIMFLAG_BLENDMODE_MASK
          D.PRIMFLAG_TEXFORMAT_MASK).2 ⟨h1, h2⟩)
      unfold find_texinfo_match
      simp [h3, h4, hb, hw, hht, hx, hh, he]
    · have hrec := ih (fun u hu => hhash u (List.mem_cons_of_mem _ hu)) (i0 + 1)
      have hstep : find_texinfo_match D sh s false
          (texture_compute_hash D prim.texture prim.flags) prim.texture prim.flags (t :: ts) i0
          = find_texinfo_match D sh s false
            (texture_compute_hash D prim.texture prim.flags) prim.texture prim.flags ts
            (i0 + 1) := by
        have key : ((t.m_texinfo.osddata % 4294967296) >>> 1
              ≠ (prim.texture.osddata % 4294967296) >>> 1
            ∨ (t.m_texinfo.osddata % 4294967296) &&& 1
              ≠ (prim.texture.osddata % 4294967296) &&& 1)
            ∨ ¬ (t.m_hash = texture_compute_hash D prim.texture prim.flags
              ∧ t.m_texinfo.base = prim.texture.base
              ∧ t.m_texinfo.width = prim.texture.width
              ∧ t.m_texinfo.height = prim.texture.height
              ∧ (t.m_flags ^^^ prim.flags)
                &&& (D.PRIMFLAG_BLENDMODE_MASK ||| D.PRIMFLAG_TEXFORMAT_MASK) = 0) := by
          by_contra hcon
          simp only [not_or, not_not, ne_eq] at hcon
          obtain ⟨⟨a6, a7⟩, _, a2, a3, a4, a5⟩ := hcon
          have a5 := (and_or_mask_eq_iff _ _ _ _).1 ((xor_and_mask_eq_zero_iff _ _ _).1 a5)
          exact hs ⟨a2, a3, a4, a5.1, a5.2, a6, a7⟩
        rw [find_texinfo_match]
        split_ifs <;> first | rfl | (exfalso; tauto)
      rcases hrec with ⟨pre, u, post, hl, hu, hpre, hf⟩ | ⟨hall, hf⟩
      · left
        refine ⟨t :: pre, u, post, by rw [hl]; rfl, hu, ?_, ?_⟩
        · intro v hv
          rcases List.mem_cons.1 hv with rfl | hv
          · exact hs
          · exact hpre v hv
        · rw [hstep, hf]
          simp only [List.length_cons]
          congr 2
          omega
      · right
        refine ⟨?_, by rw [hstep, hf]⟩
        intro v hv
        rcases List.mem_cons.1 hv with rfl | hv
        · exact hs
        · exact hall v hv

theorem texture_info_seqid_same (t : texture_info) (n : Nat) (h : t.m_texinfo.seqid = n) :
    ({ t with
        m_texinfo := { t.m_texinfo with seqid := n }
        set_data_calls := t.set_data_calls + 0 } : texture_info) = t := by
  subst h
  rfl

/-- C17: with shaders disabled, when `update_textures` processes a primitive
with a texture whose identity (base, width, height, blend mode, texture format,
screen, page) equals that of a texture of the list, it reuses the first such
texture: the list keeps its length and only that entry changes; `set_data` is
called on it once if the stored seqid differs from the primitive's and not at
all if they are equal, and afterwards the stored seqid is the primitive's.
The stored hashes are those the constructor computed. -/
theorem update_textures_reuse {S : Type} (D : texture_decls) (sh : shaders_ops S)
    (ctx : texture_context) (alloc : Nat → texture_alloc) (st : texture_update_state S)
    (prim : render_primitive)
    (hsh : ctx.shaders_enabled = false)
    (hbase : prim.texture.base ≠ 0)
    (hhash : ∀ t ∈ st.mgr.m_texture_list,
      t.m_hash = texture_compute_hash D t.m_texinfo t.m_flags)
    (hex : ∃ t ∈ st.mgr.m_texture_list, same_identity D t prim) :
    ∃ pre t post st',
      st.mgr.m_texture_list = pre ++ t :: post
        ∧ same_identity D t prim
        ∧ (∀ u ∈ pre, ¬ same_identity D u prim)
        ∧ update_textures_prim D sh ctx alloc st prim = some st'
        ∧ st'.mgr.m_texture_list
          = pre ++
            { t with
              m_texinfo := { t.m_texinfo with seqid := prim.texture.seqid }
              set_data_calls :=
                t.set_data_calls + (if t.m_texinfo.seqid = prim.texture.seqid then 0 else 1) }
            :: post
        ∧ st'.mgr.m_texture_list.length = st.mgr.m_texture_list.length
        ∧ st'.shaders = st.shaders
        ∧ st'.post_fx_available = st.post_fx_available := by
  rcases find_texinfo_match_spec D sh st.shaders prim st.mgr.m_texture_list hhash 0 with
    ⟨pre, t, post, hl, hid, hpre, hf⟩ | ⟨hall, _⟩
  · have hfind : find_texinfo D sh false st.mgr st.shaders prim.texture prim.flags
        = (some (pre.length, t), st.shaders) := by
      unfold find_texinfo
      simp only [hf, Nat.zero_add]
    have hset : ∀ u : texture_info, (pre ++ t :: post).set pre.length u = pre ++ u :: post := by
      intro u
      simp
    have hupd : update_textures_prim D sh ctx alloc st prim
        = some
          { mgr :=
              { st.mgr with
                m_texture_list := st.mgr.m_texture_list.set pre.length
                  (if t.m_texinfo.seqid ≠ prim.texture.seqid then
                    { set_data t with
                      m_texinfo := { (set_data t).m_texinfo with seqid := prim.texture.seqid } }
                  else t) }
            shaders := st.shaders
            post_fx_available := st.post_fx_available } := by
      unfold update_textures_prim
      simp only [hsh, hfind, hbase, ne_eq, not_false_eq_true, if_true,
        if_false, Bool.false_eq_true]
    refine ⟨pre, t, post, _, hl, hid, hpre, hupd, ?_, ?_, rfl, rfl⟩
    · simp only [hl, hset]
      by_cases hseq : t.m_texinfo.seqid = prim.texture.seqid
      · simp only [hseq, ne_eq, not_true_eq_false, if_false, if_true]
        rw [texture_info_seqid_same t _ hseq]
      · simp only [hseq, ne_eq, not_false_eq_true, if_true, if_false, set_data]
    · simp [hl]
  · obtain ⟨t, ht, hid⟩ := hex
    exact absurd hid (hall t ht)

theorem update_textures_reuse_witness :
    (∃ pre t post st',
      sample_texture_state.mgr.m_texture_list = pre ++ t :: post
        ∧ same_identity sample_decls t (sample_prim 8192 8)
        ∧ (∀ u ∈ pre, ¬ same_identity sample_decls u (sample_prim 8192 8))
        ∧ update_textures_prim sample_decls no_shaders sample_ctx (fun _ => ok_alloc)
            sample_texture_state (sample_prim 8192 8) = some st'
        ∧ st'.mgr.m_texture_list
          = pre ++
            { t with
              m_texinfo := { t.m_texinfo with seqid := (sample_prim 8192 8).texture.seqid }
              set_data_calls :=
                t.set_data_calls
                  + (if t.m_texinfo.seqid = (sample_prim 8192 8).texture.seqid then 0 else 1) }
            :: post
        ∧ st'.mgr.m_texture_list.length = sample_texture_state.mgr.m_texture_list.length
        ∧ st'.shaders = sample_texture_state.shaders
        ∧ st'.post_fx_available = sample_texture_state.post_fx_available)
      ∧ (update_textures_prim sample_decls no_shaders sample_ctx (fun _ => ok_alloc)
            sample_texture_state (sample_prim 8192 8)).map
          (fun st => st.mgr.m_texture_list.map
            (fun t => (t.m_texinfo.base, t.m_texinfo.seqid, t.set_data_calls)))
        = some [(4096, 1, 1), (8192, 8, 2)] :=
  ⟨update_textures_reuse sample_decls no_shaders sample_ctx (fun _ => ok_alloc)
      sample_texture_state (sample_prim 8192 8) rfl (by decide) (by decide!)
      (by decide!),
    by decide!⟩

/-! ## The texture constructor -/

theorem texture_allocate_second_core (alloc : texture_alloc) (t : texture_info) :
    (texture_allocate_second alloc t).m_hash = t.m_hash
      ∧ (texture_allocate_second alloc t).m_texinfo = t.m_texinfo
      ∧ (texture_allocate_second alloc t).m_flags = t.m_flags
      ∧ (texture_allocate_second alloc t).m_type = t.m_type := by
  unfold texture_allocate_second
  split_ifs <;> exact ⟨rfl, rfl, rfl, rfl⟩

theorem texture_allocate_core (D : texture_decls) (mgr : d3d_texture_manager)
    (alloc : texture_alloc) (flags : Nat) (t : texture_info) :
    (texture_allocate D mgr alloc flags t).m_hash = t.m_hash
      ∧ (texture_allocate D mgr alloc flags t).m_texinfo = t.m_texinfo
      ∧ (texture_allocate D mgr alloc flags t).m_flags = t.m_flags
      ∧ (texture_allocate D mgr alloc flags t).m_type = t.m_type := by
  unfold texture_allocate
  simp only []
  split_ifs <;>
    first
    | exact ⟨rfl, rfl, rfl, rfl⟩
    | exact texture_allocate_second_core alloc _

theorem texture_info_new_core (D : texture_decls) (mgr : d3d_texture_manager)
    (ctx : texture_context) (alloc : texture_alloc) (texsource : render_texinfo)
    (prescale : Int) (flags : Nat) (t : texture_info) (error : Bool)
    (h : texture_info_new D mgr ctx alloc texsource prescale flags = some (t, error)) :
    t.m_hash = texture_compute_hash D texsource flags ∧ t.m_texinfo = texsource
      ∧ t.m_flags = flags
      ∧ t.m_type = texture_info_type D mgr ctx.shaders_enabled prescale flags := by
  unfold texture_info_new at h
  split at h
  · exact absurd h (by simp)
  · split_ifs at h
    all_goals
      simp only [Option.some.injEq, Prod.mk.injEq] at h
      obtain ⟨h, _⟩ := h
      subst h
    · exact ⟨rfl, rfl, rfl, rfl⟩
    · exact ⟨rfl, rfl, rfl, rfl⟩
    · exact texture_allocate_core D mgr alloc flags _

/-- C19: the texture type chosen by the `texture_info` constructor for a
prescale of at least 1, and stored in every texture it builds: PLAIN for a
non-screen texture; for a screen texture with prescale 1 or with shaders
enabled, DYNAMIC if dynamic textures are supported, else PLAIN; for a screen
texture with prescale above 1, shaders disabled, a format other than YUY16 and
StretchRect supported, SURFACE; in every remaining case DYNAMIC if supported,
else PLAIN. -/
theorem texture_info_type_selection (D : texture_decls) (mgr : d3d_texture_manager)
    (ctx : texture_context) (alloc : texture_alloc) (texsource : render_texinfo)
    (prescale : Int) (flags : Nat) (hp : 1 ≤ prescale) :
    (∀ t error, texture_info_new D mgr ctx alloc texsource prescale flags = some (t, error) →
        t.m_type = texture_info_type D mgr ctx.shaders_enabled prescale flags)
      ∧ (PRIMFLAG_GET_SCREENTEX D flags = 0 →
        texture_info_type D mgr ctx.shaders_enabled prescale flags
          = texture_type.TEXTURE_TYPE_PLAIN)
      ∧ (PRIMFLAG_GET_SCREENTEX D flags ≠ 0 → (prescale = 1 ∨ ctx.shaders_enabled = true) →
        texture_info_type D mgr ctx.shaders_enabled prescale flags
          = if mgr.m_dynamic_supported then texture_type.TEXTURE_TYPE_DYNAMIC
            else texture_type.TEXTURE_TYPE_PLAIN)
      ∧ (PRIMFLAG_GET_SCREENTEX D flags ≠ 0 → prescale > 1 → ctx.shaders_enabled = false →
        PRIMFLAG_GET_TEXFORMAT D flags ≠ D.TEXFORMAT_YUY16 → mgr.m_stretch_supported = true →
        texture_info_type D mgr ctx.shaders_enabled prescale flags
          = texture_type.TEXTURE_TYPE_SURFACE)
      ∧ (PRIMFLAG_GET_SCREENTEX D flags ≠ 0 → ¬ (prescale = 1 ∨ ctx.shaders_enabled = true) →
        ¬ (prescale > 1 ∧ ctx.shaders_enabled = false
            ∧ PRIMFLAG_GET_TEXFORMAT D flags ≠ D.TEXFORMAT_YUY16
            ∧ mgr.m_stretch_supported = true) →
        texture_info_type D mgr ctx.shaders_enabled prescale flags
          = if mgr.m_dynamic_supported then texture_type.TEXTURE_TYPE_DYNAMIC
            else texture_type.TEXTURE_TYPE_PLAIN) := by
  refine ⟨fun t error h => (texture_info_new_core D mgr ctx alloc texsource prescale flags t
    error h).2.2.2, ?_, ?_, ?_, ?_⟩
  · intro h
    unfold texture_info_type
    rw [if_pos h]
  · intro h h1
    unfold texture_info_type
    rw [if_neg h, if_pos (by tauto)]
  · intro h h1 h2 h3 h4
    unfold texture_info_type
    rw [if_neg h, if_neg (by rw [h2]; simp; omega), if_pos ⟨h4, h3⟩]
  · intro h h1 h2
    unfold texture_info_type
    rw [if_neg h, if_neg (by tauto)]
    have h3 : ¬ (mgr.m_stretch_supported = true
        ∧ PRIMFLAG_GET_TEXFORMAT D flags ≠ D.TEXFORMAT_YUY16) := by
      intro hc
      apply h2
      refine ⟨?_, ?_, hc.2, hc.1⟩
      · have : prescale ≠ 1 := fun e => h1 (Or.inl e)
        omega
      · cases hs : ctx.shaders_enabled
        · rfl
        · exact absurd (Or.inr hs) h1
    rw [if_neg h3]

theorem texture_info_type_selection_witness :
    (1 : Int) ≤ 2
      ∧ texture_info_type sample_decls pow2_mgr sample_ctx.shaders_enabled 2 0x2040
        = texture_type.TEXTURE_TYPE_SURFACE
      ∧ (texture_info_new sample_decls pow2_mgr sample_ctx ok_alloc (sample_prim 4096 1).texture 2
          0x2040).map (fun r => r.1.m_type) = some texture_type.TEXTURE_TYPE_SURFACE :=
  ⟨by decide,
    (texture_info_type_selection sample_decls pow2_mgr sample_ctx ok_alloc
      (sample_prim 4096 1).texture 2 0x2040 (by decide)).2.2.2.1
      (by decide!) (by decide) (by decide) (by decide!) (by decide),
    by decide!⟩

/-! ## Setting a timing -/

theorem ati_set_modeline_eq (win_version : Int) (reg : ati_registry) (mode : modeline) :
    ∃ lp_data, ati_set_modeline_blob mode = some lp_data ∧
      ati_set_modeline win_version reg mode
        = some
          (if reg.open_ok then
            let lp_name := ati_value_name mode.width mode.height
              (ati_refresh_label win_version mode)
            let first := reg.query_ok lp_name
            let second : Bool := !first && decide (win_version > 5) && ctrue mode.interlace
            let lp_name :=
              if second then
                ati_value_name mode.width mode.height (ati_refresh_label win_version mode + 1)
              else lp_name
            let found : Bool := first || (second && reg.query_ok lp_name)
            { result := found
              set_calls := if found then [(lp_name, lp_data)] else []
              written := if found && reg.set_ok lp_name then [(lp_name, lp_data)] else [] }
          else { result := false, set_calls := [], written := [] }) := by
  refine ⟨_, ati_blob_eq mode, ?_⟩
  unfold ati_set_modeline
  rw [ati_blob_eq mode]
  simp only []
  split_ifs <;> rfl

theorem ati_refresh_label_interlaced (win_version : Int) (mode : modeline)
    (hwin : win_version > 5) (hint : mode.interlace ≠ 0) (hlabel : mode.refresh_label = 0) :
    ati_refresh_label win_version mode = 2 * mode.refresh := by
  have hc : ctrue mode.interlace = true := by
    unfold ctrue
    exact decide_eq_true hint
  unfold ati_refresh_label win_interlace_factor
  rw [hlabel, hc]
  simp only [ctrue, ne_eq, not_true_eq_false, decide_False, Bool.false_eq_true, if_false, hwin,
    and_self, if_true]
  ring

/-- C15 as stated fails: on a Windows 6 host, for the interlaced 320x240@60
modeline with `refresh_label` unset and a registry key that holds values under
both `DALDTMCRTBCD320x240x0x120` and `DALDTMCRTBCD320x240x0x121`,
`ati_set_modeline` issues one write, under `DALDTMCRTBCD320x240x0x120`;
nothing is written under the second name. -/
theorem ati_set_modeline_both_names_counterexample :
    sample_modeline.interlace ≠ 0 ∧ sample_modeline.refresh_label = 0
      ∧ (sample_modeline.width, sample_modeline.height, sample_modeline.refresh) = (320, 240, 60)
      ∧ (full_registry true).query_ok "DALDTMCRTBCD320x240x0x120".toList = true
      ∧ (full_registry true).query_ok "DALDTMCRTBCD320x240x0x121".toList = true
      ∧ (ati_set_modeline 6 (full_registry true) sample_modeline).map
          (fun out => (out.set_calls.map (fun c => c.1), out.written.map (fun c => c.1)))
        = some (["DALDTMCRTBCD320x240x0x120".toList], ["DALDTMCRTBCD320x240x0x120".toList]) := by
  decide!

/-- C15, amended: on a host with OS major version above 5, for an interlaced
modeline of size w x h and refresh r with `refresh_label` unset, when the
registry key opens, `ati_set_modeline` writes the blob under one value name at
most: under `DALDTMCRTBCD{w}x{h}x0x{2r}` when a value of that name exists,
otherwise under `DALDTMCRTBCD{w}x{h}x0x{2r+1}` when a value of that name
exists, and under no name (returning false) when neither exists. -/
theorem ati_set_modeline_one_name (win_version : Int) (reg : ati_registry) (mode : modeline)
    (hwin : win_version > 5) (hint : mode.interlace ≠ 0) (hlabel : mode.refresh_label = 0)
    (hopen : reg.open_ok = true) :
    ∃ lp_data out,
      ati_set_modeline_blob mode = some lp_data
        ∧ ati_set_modeline win_version reg mode = some out
        ∧ (reg.query_ok (ati_value_name mode.width mode.height (2 * mode.refresh)) = true →
          out.set_calls = [(ati_value_name mode.width mode.height (2 * mode.refresh), lp_data)]
            ∧ out.result = true)
        ∧ (reg.query_ok (ati_value_name mode.width mode.height (2 * mode.refresh)) = false →
          reg.query_ok (ati_value_name mode.width mode.height (2 * mode.refresh + 1)) = true →
          out.set_calls
              = [(ati_value_name mode.width mode.height (2 * mode.refresh + 1), lp_data)]
            ∧ out.result = true)
        ∧ (reg.query_ok (ati_value_name mode.width mode.height (2 * mode.refresh)) = false →
          reg.query_ok (ati_value_name mode.width mode.height (2 * mode.refresh + 1)) = false →
          out.set_calls = [] ∧ out.result = false)
        ∧ out.set_calls.length ≤ 1
        ∧ (∀ c ∈ out.written, c ∈ out.set_calls) := by
  obtain ⟨lp_data, hb, h⟩ := ati_set_modeline_eq win_version reg mode
  have hc : ctrue mode.interlace = true := by
    unfold ctrue
    exact decide_eq_true hint
  rw [ati_refresh_label_interlaced win_version mode hwin hint hlabel, if_pos hopen] at h
  refine ⟨lp_data, _, hb, h, ?_, ?_, ?_, ?_, ?_⟩
  · intro h1
    simp [h1]
  · intro h1 h2
    simp [h1, h2, hwin, hc]
  · intro h1 h2
    simp [h1, h2, hwin, hc]
  · cases h1 : reg.query_ok (ati_value_name mode.width mode.height (2 * mode.refresh)) <;>
      cases h2 : reg.query_ok (ati_value_name mode.width mode.height (2 * mode.refresh + 1)) <;>
      simp [h1, h2, hwin, hc]
  · intro c
    cases h1 : reg.query_ok (ati_value_name mode.width mode.height (2 * mode.refresh)) <;>
      cases h2 : reg.query_ok (ati_value_name mode.width mode.height (2 * mode.refresh + 1)) <;>
      simp [h1, h2, hwin, hc]

theorem ati_set_modeline_one_name_witness :
    (∃ lp_data out,
      ati_set_modeline_blob sample_modeline = some lp_data
        ∧ ati_set_modeline 6 quirk_registry sample_modeline = some out
        ∧ (quirk_registry.query_ok
            (ati_value_name sample_modeline.width sample_modeline.height
              (2 * sample_modeline.refresh)) = true →
          out.set_calls
              = [(ati_value_name sample_modeline.width sample_modeline.height
                  (2 * sample_modeline.refresh), lp_data)]
            ∧ out.result = true)
        ∧ (quirk_registry.query_ok
            (ati_value_name sample_modeline.width sample_modeline.height
              (2 * sample_modeline.refresh)) = false →
          quirk_registry.query_ok
            (ati_value_name sample_modeline.width sample_modeline.height
              (2 * sample_modeline.refresh + 1)) = true →
          out.set_calls
              = [(ati_value_name sample_modeline.width sample_modeline.height
                  (2 * sample_modeline.refresh + 1), lp_data)]
            ∧ out.result = true)
        ∧ (quirk_registry.query_ok
            (ati_value_name sample_modeline.width sample_modeline.height
              (2 * sample_modeline.refresh)) = false →
          quirk_registry.query_ok
            (ati_value_name sample_modeline.width sample_modeline.height
              (2 * sample_modeline.refresh + 1)) = false →
          out.set_calls = [] ∧ out.result = false)
        ∧ out.set_calls.length ≤ 1
        ∧ (∀ c ∈ out.written, c ∈ out.set_calls))
      ∧ ati_value_name sample_modeline.width sample_modeline.height
          (2 * sample_modeline.refresh) = "DALDTMCRTBCD320x240x0x120".toList
      ∧ ati_value_name sample_modeline.width sample_modeline.height
          (2 * sample_modeline.refresh + 1) = "DALDTMCRTBCD320x240x0x121".toList
      ∧ (ati_set_modeline 6 quirk_registry sample_modeline).map
          (fun out => (out.result, out.set_calls.map (fun c => c.1)))
        = some (true, ["DALDTMCRTBCD320x240x0x121".toList]) :=
  ⟨ati_set_modeline_one_name 6 quirk_registry sample_modeline (by decide) (by decide)
      (by decide) (by decide),
    by decide!, by decide!, by decide!⟩

theorem adl_set_modeline_result (H : adl_header) (U : update_mode_decls)
    (lpAdapter : List adl_adapter)
    (set : Int → Int → ADLDisplayModeInfo → Int → Bool) (target_display : String)
    (m : modeline) (update_mode : Int) :
    (adl_set_modeline H U lpAdapter set target_display m update_mode).result
      = (adl_set_modeline H U lpAdapter set target_display m update_mode).override_ok := by
  unfold adl_set_modeline
  split
  · rfl
  · simp only []
    split_ifs <;> rfl

/-- C14 as stated fails: with the PowerStrip back-end, on an environment in
which the PowerStrip write of the timing fails, `custom_video_set_timing`
returns true. -/
theorem set_timing_powerstrip_counterexample :
    (sample_video_env custom_video_method.CUSTOM_VIDEO_TIMING_POWERSTRIP false).ps_set_modeline
        sample_modeline = false
      ∧ custom_video_set_timing adl_sdk_header sample_update_modes
          (sample_video_env custom_video_method.CUSTOM_VIDEO_TIMING_POWERSTRIP false)
          sample_modeline
        = some { result := true, write_ok := false } := by
  decide!

/-- C14, amended: `custom_video_set_timing` always returns. With the ADL
back-end it returns false whenever the display is not mapped or the timing
override is not set; with the legacy ATI back-end it returns false whenever the
registry key cannot be opened or no value exists under the name or names it
tries (the name with the refresh label, and, only for an interlaced mode on
`win_version > 5`, the name with the label plus one); with the PowerStrip
back-end it returns true whatever the outcome of the write; with no back-end
it returns false. -/
theorem set_timing_failure (H : adl_header) (U : update_mode_decls) (env : custom_video_env)
    (mode : modeline) :
    ∃ out, custom_video_set_timing H U env mode = some out
      ∧ (env.custom_method = custom_video_method.CUSTOM_VIDEO_TIMING_ATI_ADL →
        out.write_ok = false → out.result = false)
      ∧ (env.custom_method = custom_video_method.CUSTOM_VIDEO_TIMING_ATI_ADL →
        get_device_mapping_from_display_name env.m_device_name env.lpAdapter = none →
        out.result = false)
      ∧ (env.custom_method = custom_video_method.CUSTOM_VIDEO_TIMING_ATI_LEGACY →
        env.registry.open_ok = false → out.result = false)
      ∧ (env.custom_method = custom_video_method.CUSTOM_VIDEO_TIMING_ATI_LEGACY →
        env.registry.query_ok (ati_value_name mode.width mode.height
          (ati_refresh_label env.win_version mode)) = false →
        (env.win_version > 5 ∧ ctrue mode.interlace = true →
          env.registry.query_ok (ati_value_name mode.width mode.height
            (ati_refresh_label env.win_version mode + 1)) = false) →
        out.result = false)
      ∧ (env.custom_method = custom_video_method.CUSTOM_VIDEO_TIMING_POWERSTRIP →
        out.result = true)
      ∧ (env.custom_method = custom_video_method.other → out.result = false) := by
  obtain ⟨lp_data, _, hati⟩ := ati_set_modeline_eq env.win_version env.registry mode
  unfold custom_video_set_timing
  cases hm : env.custom_method
  · simp only [hati]
    refine ⟨_, rfl, ?_, ?_, ?_, ?_, ?_, ?_⟩
    · intro h
      cases h
    · intro h
      cases h
    · intro _ ho
      simp [ho]
    · intro _ h1 h2
      cases ho : env.registry.open_ok
      · simp
      · by_cases h3 : env.win_version > 5 ∧ ctrue mode.interlace = true
        · simp [h1, h2 h3, h3.1, h3.2]
        · have h4 : (decide (env.win_version > 5) && ctrue mode.interlace) = false := by
            cases hv : decide (env.win_version > 5) <;> cases hi : ctrue mode.interlace
              <;> first | rfl | (exfalso; simp_all; omega)
          simp [h1, h4]
    · intro h
      cases h
    · intro h
      cases h
  · refine ⟨_, rfl, ?_, ?_, ?_, ?_, ?_, ?_⟩
    · intro _ hw
      simp only [] at hw ⊢
      rw [adl_set_modeline_result]
      exact hw
    · intro _ hmap
      simp only [adl_set_modeline, hmap]
    · intro h
      cases h
    · intro h
      cases h
    · intro h
      cases h
    · intro h
      cases h
  · refine ⟨_, rfl, ?_, ?_, ?_, ?_, ?_, ?_⟩ <;> first | (intro _; rfl) | (intro h; cases h)
  · refine ⟨_, rfl, ?_, ?_, ?_, ?_, ?_, ?_⟩ <;> first | (intro _; rfl) | (intro h; cases h)

theorem set_timing_failure_witness :
    (∃ out, custom_video_set_timing adl_sdk_header sample_update_modes
        (sample_video_env custom_video_method.CUSTOM_VIDEO_TIMING_ATI_ADL false) sample_modeline
          = some out
      ∧ out.write_ok = false ∧ out.result = false)
      ∧ quirk_video_env.registry.query_ok (ati_value_name progressive_modeline.width
          progressive_modeline.height
          (ati_refresh_label quirk_video_env.win_version progressive_modeline)) = false
      ∧ quirk_video_env.registry.query_ok (ati_value_name progressive_modeline.width
          progressive_modeline.height
          (ati_refresh_label quirk_video_env.win_version progressive_modeline + 1)) = true
      ∧ custom_video_set_timing adl_sdk_header sample_update_modes quirk_video_env
          progressive_modeline
        = some { result := false, write_ok := false } := by
  obtain ⟨out, h, hadl, _⟩ := set_timing_failure adl_sdk_header sample_update_modes
    (sample_video_env custom_video_method.CUSTOM_VIDEO_TIMING_ATI_ADL false) sample_modeline
  have e : custom_video_set_timing adl_sdk_header sample_update_modes
      (sample_video_env custom_video_method.CUSTOM_VIDEO_TIMING_ATI_ADL false) sample_modeline
      = some { result := false, write_ok := false } := by decide!
  have hw : out.write_ok = false := by
    rw [e] at h
    cases h
    rfl
  obtain ⟨out2, h2, _, _, _, hati, _⟩ := set_timing_failure adl_sdk_header
    sample_update_modes quirk_video_env progressive_modeline
  have q1 : quirk_video_env.registry.query_ok (ati_value_name progressive_modeline.width
      progressive_modeline.height
      (ati_refresh_label quirk_video_env.win_version progressive_modeline)) = false := by
    decide!
  have r2 : out2.result = false :=
    hati rfl q1 (fun hc => absurd hc.2 (by decide))
  have e2 : custom_video_set_timing adl_sdk_header sample_update_modes quirk_video_env
      progressive_modeline = some { result := false, write_ok := false } := by decide!
  exact ⟨⟨out, h, hw, hadl rfl hw⟩, q1, by decide!, e2⟩

theorem find_texinfo_match_mem {S : Type} (D : texture_decls) (sh : shaders_ops S) (s : S)
    (shaders_enabled : Bool) (hash : Nat) (texinfo : render_texinfo) (flags : Nat)
    (list : List texture_info) (i0 i : Nat) (t : texture_info)
    (h : find_texinfo_match D sh s shaders_enabled hash texinfo flags list i0 = some (i, t)) :
    ∃ pre post, list = pre ++ t :: post ∧ i = i0 + pre.length := by
  induction list generalizing i0 with
  | nil => exact absurd h (by simp [find_texinfo_match])
  | cons u us ih =>
    have hrec : ∀ h' : find_texinfo_match D sh s shaders_enabled hash texinfo flags us (i0 + 1)
        = some (i, t), ∃ pre post, u :: us = pre ++ t :: post ∧ i = i0 + pre.length := by
      intro h'
      obtain ⟨pre, post, hl, hi⟩ := ih (i0 + 1) h'
      refine ⟨u :: pre, post, by rw [hl]; rfl, ?_⟩
      simp only [List.length_cons]
      omega
    have hhere : ∀ h' : (some (i0, u) : Option (Nat × texture_info)) = some (i, t),
        ∃ pre post, u :: us = pre ++ t :: post ∧ i = i0 + pre.length := by
      intro h'
      simp only [Option.some.injEq, Prod.mk.injEq] at h'
      obtain ⟨h1, h2⟩ := h'
      subst h1
      subst h2
      exact ⟨[], us, rfl, rfl⟩
    rw [find_texinfo_match] at h
    split_ifs at h <;> first | exact hrec h | exact hhere h

theorem find_texinfo_fst {S : Type} (D : texture_decls) (sh : shaders_ops S)
    (shaders_enabled : Bool) (mgr : d3d_texture_manager) (s : S) (texinfo : render_texinfo)
    (flags : Nat) :
    (find_texinfo D sh shaders_enabled mgr s texinfo flags).1
      = find_texinfo_match D sh s shaders_enabled (texture_compute_hash D texinfo flags) texinfo
        flags mgr.m_texture_list 0 := by
  unfold find_texinfo
  simp only []
  split
  · next found hf => rw [hf]
  · next hf =>
    rw [hf]
    split_ifs <;> rfl

theorem update_textures_prim_list {S : Type} (D : texture_decls) (sh : shaders_ops S)
    (ctx : texture_context) (alloc : Nat → texture_alloc) (st st' : texture_update_state S)
    (prim : render_primitive)
    (h : update_textures_prim D sh ctx alloc st prim = some st') :
    st'.mgr.m_texture_list = st.mgr.m_texture_list
      ∨ (∃ tex error, texture_info_new D st.mgr ctx (alloc st.mgr.m_texture_list.length)
            prim.texture (if ctx.shaders_enabled then 1 else ctx.win_prescale) prim.flags
            = some (tex, error)
          ∧ st'.mgr.m_texture_list = st.mgr.m_texture_list ++ [tex])
      ∨ (∃ i t, find_texinfo_match D sh st.shaders ctx.shaders_enabled
            (texture_compute_hash D prim.texture prim.flags) prim.texture prim.flags
            st.mgr.m_texture_list 0 = some (i, t)
          ∧ (st'.mgr.m_texture_list = st.mgr.m_texture_list.set i t
            ∨ st'.mgr.m_texture_list = st.mgr.m_texture_list.set i
              { set_data t with
                m_texinfo := { (set_data t).m_texinfo with seqid := prim.texture.seqid } })) := by
  have hfst := find_texinfo_fst D sh ctx.shaders_enabled st.mgr st.shaders prim.texture prim.flags
  unfold update_textures_prim at h
  by_cases hb : prim.texture.base ≠ 0
  · rw [if_pos hb] at h
    simp only [] at h
    generalize find_texinfo D sh ctx.shaders_enabled st.mgr st.shaders prim.texture prim.flags
      = found at h hfst
    obtain ⟨f1, f2⟩ := found
    simp only [] at hfst
    subst hfst
    cases hf : find_texinfo_match D sh st.shaders ctx.shaders_enabled
        (texture_compute_hash D prim.texture prim.flags) prim.texture prim.flags
        st.mgr.m_texture_list 0 with
    | none =>
      rw [hf] at h
      simp only [] at h
      cases hn : texture_info_new D st.mgr ctx (alloc st.mgr.m_texture_list.length)
          prim.texture (if ctx.shaders_enabled then 1 else ctx.win_prescale) prim.flags with
      | none =>
        rw [hn] at h
        exact absurd h (by simp)
      | some r =>
        obtain ⟨tex, error⟩ := r
        rw [hn] at h
        simp only [] at h
        right
        left
        refine ⟨tex, error, rfl, ?_⟩
        split_ifs at h <;> (cases h; rfl)
    | some r =>
      obtain ⟨i, t⟩ := r
      rw [hf] at h
      simp only [] at h
      right
      right
      refine ⟨i, t, rfl, ?_⟩
      by_cases hs : t.m_texinfo.seqid ≠ prim.texture.seqid
      · right
        simp only [if_pos hs] at h
        split_ifs at h <;> (cases h; rfl)
      · left
        simp only [if_neg hs] at h
        split_ifs at h <;> (cases h; rfl)
  · rw [if_neg hb] at h
    left
    split_ifs at h <;> (cases h; rfl)

/-- The stored hashes stay those the constructor computed: `update_textures`
keeps, for every texture of the list, the hash equal to the hash of its stored
source and flags. -/
theorem update_textures_prim_hash {S : Type} (D : texture_decls) (sh : shaders_ops S)
    (ctx : texture_context) (alloc : Nat → texture_alloc) (st st' : texture_update_state S)
    (prim : render_primitive)
    (hhash : ∀ t ∈ st.mgr.m_texture_list,
      t.m_hash = texture_compute_hash D t.m_texinfo t.m_flags)
    (h : update_textures_prim D sh ctx alloc st prim = some st') :
    ∀ t ∈ st'.mgr.m_texture_list, t.m_hash = texture_compute_hash D t.m_texinfo t.m_flags := by
  rcases update_textures_prim_list D sh ctx alloc st st' prim h with
    hl | ⟨tex, error, hn, hl⟩ | ⟨i, t, hf, hl⟩
  · rw [hl]
    exact hhash
  · rw [hl]
    intro u hu
    rcases List.mem_append.1 hu with hu | hu
    · exact hhash u hu
    · rw [List.mem_singleton.1 hu]
      obtain ⟨h1, h2, h3, _⟩ := texture_info_new_core D st.mgr ctx _ _ _ _ tex error hn
      rw [h1, h2, h3]
  · obtain ⟨pre, post, hlist, hi⟩ := find_texinfo_match_mem D sh st.shaders ctx.shaders_enabled
      _ _ _ _ 0 i t hf
    have ht := hhash t (by rw [hlist]; simp)
    have hset : ∀ u : texture_info, st.mgr.m_texture_list.set i u = pre ++ u :: post := by
      intro u
      rw [hlist, hi]
      simp
    have hmem : ∀ u v : texture_info, v ∈ pre ++ u :: post → v = u ∨ v ∈ st.mgr.m_texture_list := by
      intro u v hv
      rw [hlist]
      simp only [List.mem_append, List.mem_cons] at hv ⊢
      tauto
    intro v hv
    rcases hl with hl | hl
    · rw [hl, hset] at hv
      rcases hmem _ _ hv with rfl | hv
      · exact ht
      · exact hhash v hv
    · rw [hl, hset] at hv
      rcases hmem _ _ hv with rfl | hv
      · exact ht
      · exact hhash v hv

/-- The invariant of `update_textures_prim_hash` along the whole loop of
`update_textures`. -/
theorem update_textures_hash {S : Type} (D : texture_decls) (sh : shaders_ops S)
    (ctx : texture_context) (alloc : Nat → texture_alloc) (prims : List render_primitive)
    (st st' : texture_update_state S)
    (hhash : ∀ t ∈ st.mgr.m_texture_list,
      t.m_hash = texture_compute_hash D t.m_texinfo t.m_flags)
    (h : update_textures D sh ctx alloc prims st = some st') :
    ∀ t ∈ st'.mgr.m_texture_list, t.m_hash = texture_compute_hash D t.m_texinfo t.m_flags := by
  induction prims generalizing st with
  | nil =>
    simp only [update_textures, Option.some.injEq] at h
    rw [← h]
    exact hhash
  | cons prim prims ih =>
    rw [update_textures] at h
    cases hp : update_textures_prim D sh ctx alloc st prim with
    | none =>
      rw [hp] at h
      exact absurd h (by simp)
    | some st1 =>
      rw [hp] at h
      exact ih st1 (update_textures_prim_hash D sh ctx alloc st st1 prim hhash hp) h

/-- With the legacy ATI back-end, when the value exists and `RegSetValueExA`
fails, `ati_set_modeline` has issued the write, nothing is written, and the
value returned is `found`, that is true. -/
theorem ati_set_modeline_failed_write :
    (ati_set_modeline 6 (full_registry false) sample_modeline).map
        (fun out => (out.result, out.set_calls.length, out.written.length))
      = some (true, 1, 0) := by
  decide!


/-! ## The render-state cache -/

theorem set_filter_same (D : render_state_decls) (v : Int) (r : render_states)
    (h : r.m_last_filter = v) : set_filter D v r = r := by
  unfold set_filter
  rw [if_neg (by rw [h]; simp)]

theorem set_filter_seq_same (D : render_state_decls) (v : Int) (n : Nat) (r : render_states)
    (h : r.m_last_filter = v) : set_filter_seq D (List.replicate n v) r = r := by
  induction n with
  | zero => rfl
  | succ n ih =>
    rw [List.replicate_succ, set_filter_seq, set_filter_same D v r h]
    exact ih

theorem set_filter_new (D : render_state_decls) (v : Int) (r : render_states)
    (h : v ≠ r.m_last_filter) :
    (set_filter D v r).m_last_filter = v
      ∧ (set_filter D v r).calls = r.calls ++
        [device_call.SetSamplerState 0 D3DSAMPLERSTATETYPE.D3DSAMP_MINFILTER
            (if v ≠ 0 then D.D3DTEXF_LINEAR else D.D3DTEXF_POINT),
         device_call.SetSamplerState 0 D3DSAMPLERSTATETYPE.D3DSAMP_MAGFILTER
            (if v ≠ 0 then D.D3DTEXF_LINEAR else D.D3DTEXF_POINT),
         device_call.SetSamplerState 1 D3DSAMPLERSTATETYPE.D3DSAMP_MINFILTER
            (if v ≠ 0 then D.D3DTEXF_LINEAR else D.D3DTEXF_POINT),
         device_call.SetSamplerState 1 D3DSAMPLERSTATETYPE.D3DSAMP_MAGFILTER
            (if v ≠ 0 then D.D3DTEXF_LINEAR else D.D3DTEXF_POINT)] := by
  unfold set_filter
  rw [if_pos h]
  exact ⟨rfl, rfl⟩

theorem set_filter_seq_alternating (D : render_state_decls) (n : Nat) :
    ∀ (a b : Int) (r : render_states), a ≠ b → a ≠ r.m_last_filter →
      (set_filter_seq D (alternating a b n) r).calls.length = r.calls.length + 4 * n := by
  induction n with
  | zero =>
    intro a b r _ _
    rfl
  | succ n ih =>
    intro a b r hab ha
    obtain ⟨h1, h2⟩ := set_filter_new D a r ha
    rw [alternating, set_filter_seq, ih b a (set_filter D a r) (Ne.symm hab) (by rw [h1]; exact Ne.symm hab),
      h2]
    simp only [List.length_append, List.length_cons, List.length_nil]
    omega

/-- C21 as stated fails: from freshly reset render states one call of
`set_filter(1)` issues four device calls, three calls of `set_filter(1)` issue
four in total, four calls alternating between 0 and 1 issue sixteen, and a
call of `set_filter(-1)` issues none. -/
theorem set_filter_calls_counterexample :
    (set_filter_seq d3d9_render_state_decls [1]
        (reset_render_states initial_render_states)).calls.length = 4
      ∧ (set_filter_seq d3d9_render_state_decls [1, 1, 1]
        (reset_render_states initial_render_states)).calls.length = 4
      ∧ (set_filter_seq d3d9_render_state_decls (alternating 0 1 4)
        (reset_render_states initial_render_states)).calls.length = 16
      ∧ (set_filter_seq d3d9_render_state_decls [-1]
        (reset_render_states initial_render_states)).calls.length = 0 := by
  decide

/-- C21, amended: starting from freshly reset render states, `N >= 1`
consecutive calls of `set_filter(v)` with the same `v` other than -1 (the
value the reset stores) issue exactly one update of the device in total, which
is four `SetSamplerState` calls (the MIN and MAG filter of samplers 0 and 1),
and `N` calls whose argument alternates between two different values, the
first of them other than -1, issue `N` updates, that is `4 * N` device calls. -/
theorem set_filter_cache (D : render_state_decls) (r : render_states) (v a b : Int) (N : Nat)
    (hN : 1 ≤ N) (hv : v ≠ -1) (ha : a ≠ -1) (hab : a ≠ b) :
    (set_filter_seq D (List.replicate N v) (reset_render_states r)).calls
        = r.calls ++
          [device_call.SetSamplerState 0 D3DSAMPLERSTATETYPE.D3DSAMP_MINFILTER
              (if v ≠ 0 then D.D3DTEXF_LINEAR else D.D3DTEXF_POINT),
           device_call.SetSamplerState 0 D3DSAMPLERSTATETYPE.D3DSAMP_MAGFILTER
              (if v ≠ 0 then D.D3DTEXF_LINEAR else D.D3DTEXF_POINT),
           device_call.SetSamplerState 1 D3DSAMPLERSTATETYPE.D3DSAMP_MINFILTER
              (if v ≠ 0 then D.D3DTEXF_LINEAR else D.D3DTEXF_POINT),
           device_call.SetSamplerState 1 D3DSAMPLERSTATETYPE.D3DSAMP_MAGFILTER
              (if v ≠ 0 then D.D3DTEXF_LINEAR else D.D3DTEXF_POINT)]
      ∧ (set_filter_seq D (alternating a b N) (reset_render_states r)).calls.length
        = r.calls.length + 4 * N := by
  constructor
  · obtain ⟨n, rfl⟩ : ∃ n, N = n + 1 := ⟨N - 1, by omega⟩
    obtain ⟨h1, h2⟩ := set_filter_new D v (reset_render_states r) hv
    rw [List.replicate_succ, set_filter_seq, set_filter_seq_same D v n _ h1, h2]
    rfl
  · exact set_filter_seq_alternating D N a b (reset_render_states r) hab ha

theorem set_filter_cache_witness :
    (set_filter_seq d3d9_render_state_decls (List.replicate 3 1)
        (reset_render_states initial_render_states)).calls
        = initial_render_states.calls ++
          [device_call.SetSamplerState 0 D3DSAMPLERSTATETYPE.D3DSAMP_MINFILTER
              (if (1 : Int) ≠ 0 then d3d9_render_state_decls.D3DTEXF_LINEAR
                else d3d9_render_state_decls.D3DTEXF_POINT),
           device_call.SetSamplerState 0 D3DSAMPLERSTATETYPE.D3DSAMP_MAGFILTER
              (if (1 : Int) ≠ 0 then d3d9_render_state_decls.D3DTEXF_LINEAR
                else d3d9_render_state_decls.D3DTEXF_POINT),
           device_call.SetSamplerState 1 D3DSAMPLERSTATETYPE.D3DSAMP_MINFILTER
              (if (1 : Int) ≠ 0 then d3d9_render_state_decls.D3DTEXF_LINEAR
                else d3d9_render_state_decls.D3DTEXF_POINT),
           device_call.SetSamplerState 1 D3DSAMPLERSTATETYPE.D3DSAMP_MAGFILTER
              (if (1 : Int) ≠ 0 then d3d9_render_state_decls.D3DTEXF_LINEAR
                else d3d9_render_state_decls.D3DTEXF_POINT)]
      ∧ (set_filter_seq d3d9_render_state_decls (alternating 0 1 3)
          (reset_render_states initial_render_states)).calls.length
        = initial_render_states.calls.length + 4 * 3 :=
  set_filter_cache d3d9_render_state_decls initial_render_states 1 0 1 3 (by decide) (by decide)
    (by decide) (by decide)

/-- After `reset_render_states`, the next call of `set_texture`, `set_filter`
and `set_wrap` with an argument other than the value the reset stores, and the
next call of `set_blendmode` when none of the blend constants is -1, issue
their device calls whatever was cached before. -/
theorem reset_forces_update (D : render_state_decls) (get_flags : Nat → Nat)
    (r : render_states) :
    (∀ texture, texture ≠ texture_ptr.all_ones →
        (set_texture get_flags texture (reset_render_states r)).calls
          = r.calls ++
            [device_call.SetTexture 0 texture, device_call.shaders_set_texture texture])
      ∧ (∀ filter : Int, filter ≠ -1 →
        (set_filter D filter (reset_render_states r)).calls.length = r.calls.length + 4)
      ∧ (∀ wrap : Nat, wrap ≠ 4294967295 →
        (set_wrap wrap (reset_render_states r)).calls.length = r.calls.length + 4)
      ∧ (D.D3DBLENDOP_ADD ≠ -1 → D.D3DBLEND_ZERO ≠ -1 → D.D3DBLEND_ONE ≠ -1 →
        D.D3DBLEND_SRCALPHA ≠ -1 → D.D3DBLEND_INVSRCALPHA ≠ -1 → D.D3DBLEND_DESTCOLOR ≠ -1 →
        ∀ blendmode : Int,
          (set_blendmode D blendmode (reset_render_states r)).calls.length
            = r.calls.length + 4) := by
  refine ⟨?_, ?_, ?_, ?_⟩
  · intro texture h
    unfold set_texture
    rw [if_pos (show texture ≠ (reset_render_states r).m_last_texture from h)]
    rfl
  · intro filter h
    rw [(set_filter_new D filter (reset_render_states r) h).2]
    simp [reset_render_states]
  · intro wrap h
    unfold set_wrap
    rw [if_pos (show wrap ≠ (reset_render_states r).m_last_wrap from h)]
    simp [reset_render_states]
  · intro h1 h2 h3 h4 h5 h6 blendmode
    unfold set_blendmode blend_parameters reset_render_states
    split_ifs <;> simp_all

/-- C25: `reset_render_states` leaves `m_last_modmode` as it is, so the next
call of `set_modmode` with the value cached before the reset issues no device
call: the render states, and with them the calls issued, are unchanged. With
the modulation mode 4 cached by an earlier call, the call of `set_modmode(4)`
after the reset adds nothing to the two calls of the earlier one. -/
theorem reset_render_states_modmode :
    (∀ r : render_states,
        set_modmode r.m_last_modmode (reset_render_states r) = reset_render_states r)
      ∧ (set_modmode 4 initial_render_states).calls
        = [device_call.SetTextureStageState 0 4, device_call.SetTextureStageState 1 4]
      ∧ (set_modmode 4 (reset_render_states (set_modmode 4 initial_render_states))).calls
        = [device_call.SetTextureStageState 0 4, device_call.SetTextureStageState 1 4] := by
  refine ⟨?_, by decide, by decide⟩
  intro r
  unfold set_modmode
  rw [if_neg (by simp [reset_render_states])]

/-! ## `pick_best_mode` -/

theorem pick_best_mode_loop_spec (env : pick_mode_env) (modes : List D3DDISPLAYMODE) :
    ∀ s : mode_selection,
      (pick_best_mode_loop env (modes.map some) s = s
          ∧ ∀ m ∈ modes, m.Format = D3DFORMAT.D3DFMT_X8R8G8B8 →
            fp_lt s.best_score (pick_mode_score env m) = false)
        ∨ (∃ m ∈ modes, m.Format = D3DFORMAT.D3DFMT_X8R8G8B8
          ∧ pick_best_mode_loop env (modes.map some) s = selection_of env m
          ∧ fp_lt s.best_score (pick_mode_score env m) = true
          ∧ ∀ m' ∈ modes, m'.Format = D3DFORMAT.D3DFMT_X8R8G8B8 →
            fp_lt (pick_mode_score env m) (pick_mode_score env m') = false) := by
  induction modes with
  | nil =>
    intro s
    exact Or.inl ⟨rfl, by simp⟩
  | cons m ms ih =>
    intro s
    rw [List.map_cons, pick_best_mode_loop]
    by_cases hf : m.Format ≠ D3DFORMAT.D3DFMT_X8R8G8B8
    · rw [if_pos hf]
      rcases ih s with ⟨h1, h2⟩ | ⟨m2, hm2, hf2, h1, h2, h3⟩
      · left
        refine ⟨h1, ?_⟩
        intro m' hm' hf'
        rcases List.mem_cons.1 hm' with rfl | hm'
        · exact absurd hf' hf
        · exact h2 m' hm' hf'
      · right
        refine ⟨m2, List.mem_cons_of_mem _ hm2, hf2, h1, h2, ?_⟩
        intro m' hm' hf'
        rcases List.mem_cons.1 hm' with rfl | hm'
        · exact absurd hf' hf
        · exact h3 m' hm' hf'
    · rw [if_neg hf]
      simp only []
      have hfm : m.Format = D3DFORMAT.D3DFMT_X8R8G8B8 := by
        by_contra hc
        exact hf hc
      by_cases hgt : fp_lt s.best_score (pick_mode_score env m) = true
      · rw [if_pos hgt]
        right
        rcases ih (selection_of env m) with ⟨h1, h2⟩ | ⟨m2, hm2, hf2, h1, h2, h3⟩
        · refine ⟨m, List.mem_cons_self _ _, hfm, h1, hgt, ?_⟩
          intro m' hm' hf'
          rcases List.mem_cons.1 hm' with rfl | hm'
          · exact fp_lt_irrefl _
          · exact h2 m' hm' hf'
        · have h2' : fp_lt (pick_mode_score env m) (pick_mode_score env m2) = true := h2
          refine ⟨m2, List.mem_cons_of_mem _ hm2, hf2, h1, fp_lt_trans _ _ _ hgt h2', ?_⟩
          intro m' hm' hf'
          rcases List.mem_cons.1 hm' with rfl | hm'
          · cases hc : fp_lt (pick_mode_score env m2) (pick_mode_score env m') with
            | false => rfl
            | true =>
              have := fp_lt_trans _ _ _ h2' hc
              rw [fp_lt_irrefl] at this
              exact absurd this (by decide)
          · exact h3 m' hm' hf'
      · rw [if_neg hgt]
        have hgt' : fp_lt s.best_score (pick_mode_score env m) = false :=
          Bool.eq_false_iff.2 hgt
        rcases ih s with ⟨h1, h2⟩ | ⟨m2, hm2, hf2, h1, h2, h3⟩
        · left
          refine ⟨h1, ?_⟩
          intro m' hm' hf'
          rcases List.mem_cons.1 hm' with rfl | hm'
          · exact hgt'
          · exact h2 m' hm' hf'
        · right
          refine ⟨m2, List.mem_cons_of_mem _ hm2, hf2, h1, h2, ?_⟩
          intro m' hm' hf'
          rcases List.mem_cons.1 hm' with rfl | hm'
          · cases hc : fp_lt (pick_mode_score env m2) (pick_mode_score env m') with
            | false => rfl
            | true =>
              have := fp_lt_trans _ _ _ h2 hc
              rw [hgt'] at this
              exact absurd this (by decide)
          · exact h3 m' hm' hf'

theorem toUInt32_sub_natCast (w : Nat) (m : Int) (hw : w < 4294967296) (h0 : 0 ≤ m)
    (h : m ≤ w) : ((toUInt32 ((w : Int) - m) : Nat) : ℚ) = (w : ℚ) - (m : ℚ) := by
  have e : ((toUInt32 ((w : Int) - m) : Nat) : Int) = (w : Int) - m := by
    unfold toUInt32
    omega
  have e2 : (((toUInt32 ((w : Int) - m) : Nat) : Int) : ℚ) = (((w : Int) - m : Int) : ℚ) := by
    rw [e]
  push_cast at e2
  exact e2

theorem toUInt32_eq_natCast_iff (w : Nat) (c : Int) (hw : w < 4294967296) (h0 : 0 ≤ c)
    (h1 : c < 4294967296) : w = toUInt32 c ↔ (w : Int) = c := by
  unfold toUInt32
  omega

theorem pick_mode_score_large (env : pick_mode_env) (m : D3DDISPLAYMODE)
    (hmw : 0 ≤ env.minwidth) (hmh : 0 ≤ env.minheight)
    (hcw : 0 ≤ env.win_config_width ∧ env.win_config_width < 2147483648)
    (hch : 0 ≤ env.win_config_height ∧ env.win_config_height < 2147483648)
    (hcr : 0 ≤ env.win_config_refresh ∧ env.win_config_refresh < 2147483648)
    (hm : m.Width < 4294967296 ∧ m.Height < 4294967296 ∧ m.RefreshRate < 4294967296)
    (hw : env.minwidth ≤ m.Width) (hh : env.minheight ≤ m.Height) :
    pick_mode_score env m
      = fp_add binary32
        (if (m.Width : Int) = env.win_config_width ∧ (m.Height : Int) = env.win_config_height
          then fp.fin 2
          else fp_convert binary32
            (fp_div env.fabs_float (fp.fin 1)
              (fp_add env.fabs_float
                (fp_add env.fabs_float (fp.fin 1)
                  (fp_abs (fp_round binary32 ((m.Width : ℚ) - (env.minwidth : ℚ)))))
                (fp_abs (fp_round binary32 ((m.Height : ℚ) - (env.minheight : ℚ)))))))
        (if (m.RefreshRate : Int) = env.win_config_refresh then fp.fin 2
          else fp_convert binary32
            (fp_div binary64 (fp.fin 1)
              (fp_add binary64 (fp.fin 1)
                (fp_abs (fp_sub binary64 (fp_round binary64 (m.RefreshRate : ℚ))
                  env.target_refresh))))) := by
  have e1 := toUInt32_sub_natCast m.Width env.minwidth hm.1 hmw hw
  have e2 := toUInt32_sub_natCast m.Height env.minheight hm.2.1 hmh hh
  have s1 : ¬ (m.Width < toUInt32 env.minwidth ∨ m.Height < toUInt32 env.minheight) := by
    unfold toUInt32
    omega
  have c1 := toUInt32_eq_natCast_iff m.Width env.win_config_width hm.1 hcw.1 (by omega)
  have c2 := toUInt32_eq_natCast_iff m.Height env.win_config_height hm.2.1 hch.1 (by omega)
  have c3 := toUInt32_eq_natCast_iff m.RefreshRate env.win_config_refresh hm.2.2 hcr.1 (by omega)
  unfold pick_mode_score
  simp only [e1, e2, if_neg s1, c1, c2, c3]

/-- C22 as stated fails: with a minimum (target) size of 640x480 and a
requested size of 800x600, the mode 800x600 at 60 Hz is scored 2 + 1 = 3 by
`pick_best_mode`, not 2 / (1 + 160 + 120) + 1 = 283/281; of the modes 640x480
and 800x600 the loop selects 800x600, although the score of the specification
is higher for 640x480. -/
theorem pick_best_mode_counterexample :
    pick_mode_score sample_pick_env (mode32 800 600 60) = fp.fin 3
      ∧ pick_mode_score { sample_pick_env with fabs_float := binary64 } (mode32 800 600 60)
        = fp.fin 3
      ∧ spec_mode_score sample_pick_env (mode32 800 600 60) = 283 / 281
      ∧ pick_mode_score sample_pick_env (mode32 640 480 60) = fp.fin 2
      ∧ spec_mode_score sample_pick_env (mode32 640 480 60) = 2
      ∧ pick_best_mode_loop sample_pick_env
          [some (mode32 640 480 60), some (mode32 800 600 60)] no_selection
        = selection_of sample_pick_env (mode32 800 600 60) := by
  decide!

/-- C22, amended: in the enumeration loop of `pick_best_mode` (non-SwitchRes
path) every enumerated 32-bit mode that is at least the minimum size, which is
the target size, is scored `size_score + refresh_score` in `float` arithmetic,
where `size_score` is `1 / (1 + |dw| + |dh|)` against the target size
(differences converted to `float`, the operations rounded to the format of
the `fabs` results, the quotient stored as `float`), replaced by 2 if the
mode has the requested width and height, and
`refresh_score` is `1 / (1 + |dr|)` computed in `double` arithmetic and
converted to `float`, replaced by 2 if the mode has the requested refresh;
when the enumeration succeeds and holds a 32-bit mode whose score is above the
initial best score 0, the mode selected is a 32-bit mode of the enumeration
with a score above 0 that no enumerated 32-bit mode exceeds (scores compared
as `float`s). -/
theorem pick_best_mode_scores (env : pick_mode_env) (modes : List D3DDISPLAYMODE)
    (s : mode_selection) (hs : s.best_score = fp.fin 0)
    (hmw : 0 ≤ env.minwidth) (hmh : 0 ≤ env.minheight)
    (hcw : 0 ≤ env.win_config_width ∧ env.win_config_width < 2147483648)
    (hch : 0 ≤ env.win_config_height ∧ env.win_config_height < 2147483648)
    (hcr : 0 ≤ env.win_config_refresh ∧ env.win_config_refresh < 2147483648)
    (hm : ∀ m ∈ modes,
      m.Width < 4294967296 ∧ m.Height < 4294967296 ∧ m.RefreshRate < 4294967296)
    (h32 : ∃ m ∈ modes, m.Format = D3DFORMAT.D3DFMT_X8R8G8B8
      ∧ fp_lt (fp.fin 0) (pick_mode_score env m) = true) :
    (∀ m ∈ modes, env.minwidth ≤ m.Width → env.minheight ≤ m.Height →
        pick_mode_score env m
          = fp_add binary32
            (if (m.Width : Int) = env.win_config_width
                ∧ (m.Height : Int) = env.win_config_height
              then fp.fin 2
              else fp_convert binary32
                (fp_div env.fabs_float (fp.fin 1)
                  (fp_add env.fabs_float
                    (fp_add env.fabs_float (fp.fin 1)
                      (fp_abs (fp_round binary32 ((m.Width : ℚ) - (env.minwidth : ℚ)))))
                    (fp_abs (fp_round binary32 ((m.Height : ℚ) - (env.minheight : ℚ)))))))
            (if (m.RefreshRate : Int) = env.win_config_refresh then fp.fin 2
              else fp_convert binary32
                (fp_div binary64 (fp.fin 1)
                  (fp_add binary64 (fp.fin 1)
                    (fp_abs (fp_sub binary64 (fp_round binary64 (m.RefreshRate : ℚ))
                      env.target_refresh))))))
      ∧ ∃ m ∈ modes, m.Format = D3DFORMAT.D3DFMT_X8R8G8B8
        ∧ pick_best_mode_loop env (modes.map some) s = selection_of env m
        ∧ fp_lt (fp.fin 0) (pick_mode_score env m) = true
        ∧ ∀ m' ∈ modes, m'.Format = D3DFORMAT.D3DFMT_X8R8G8B8 →
          fp_lt (pick_mode_score env m) (pick_mode_score env m') = false := by
  refine ⟨fun m hmem hw hh =>
    pick_mode_score_large env m hmw hmh hcw hch hcr (hm m hmem) hw hh, ?_⟩
  rcases pick_best_mode_loop_spec env modes s with ⟨_, h2⟩ | ⟨m, hmem, hf, h1, h0, h3⟩
  · obtain ⟨m, hmem, hf, hpos⟩ := h32
    have := h2 m hmem hf
    rw [hs, hpos] at this
    exact absurd this (by decide)
  · rw [hs] at h0
    exact ⟨m, hmem, hf, h1, h0, h3⟩

theorem pick_best_mode_scores_witness :
    (∀ m ∈ [mode32 640 480 60, mode32 800 600 60, mode32 1024 768 75],
        sample_pick_env.minwidth ≤ m.Width → sample_pick_env.minheight ≤ m.Height →
        pick_mode_score sample_pick_env m
          = fp_add binary32
            (if (m.Width : Int) = sample_pick_env.win_config_width
                ∧ (m.Height : Int) = sample_pick_env.win_config_height
              then fp.fin 2
              else fp_convert binary32
                (fp_div sample_pick_env.fabs_float (fp.fin 1)
                  (fp_add sample_pick_env.fabs_float
                    (fp_add sample_pick_env.fabs_float (fp.fin 1)
                      (fp_abs (fp_round binary32
                        ((m.Width : ℚ) - (sample_pick_env.minwidth : ℚ)))))
                    (fp_abs (fp_round binary32
                      ((m.Height : ℚ) - (sample_pick_env.minheight : ℚ)))))))
            (if (m.RefreshRate : Int) = sample_pick_env.win_config_refresh then fp.fin 2
              else fp_convert binary32
                (fp_div binary64 (fp.fin 1)
                  (fp_add binary64 (fp.fin 1)
                    (fp_abs (fp_sub binary64 (fp_round binary64 (m.RefreshRate : ℚ))
                      sample_pick_env.target_refresh))))))
      ∧ (∃ m ∈ [mode32 640 480 60, mode32 800 600 60, mode32 1024 768 75],
        m.Format = D3DFORMAT.D3DFMT_X8R8G8B8
        ∧ pick_best_mode_loop sample_pick_env
            ([mode32 640 480 60, mode32 800 600 60, mode32 1024 768 75].map some) no_selection
          = selection_of sample_pick_env m
        ∧ fp_lt (fp.fin 0) (pick_mode_score sample_pick_env m) = true
        ∧ ∀ m' ∈ [mode32 640 480 60, mode32 800 600 60, mode32 1024 768 75],
          m'.Format = D3DFORMAT.D3DFMT_X8R8G8B8 →
          fp_lt (pick_mode_score sample_pick_env m) (pick_mode_score sample_pick_env m')
            = false)
      ∧ pick_best_mode_loop sample_pick_env
          ([mode32 640 480 60, mode32 800 600 60, mode32 1024 768 75].map some) no_selection
        = selection_of sample_pick_env (mode32 800 600 60) :=
  ⟨(pick_best_mode_scores sample_pick_env
      [mode32 640 480 60, mode32 800 600 60, mode32 1024 768 75] no_selection rfl
      (by decide) (by decide) (by decide) (by decide) (by decide) (by decide)
      ⟨mode32 640 480 60, by decide, rfl, by decide!⟩).1,
    (pick_best_mode_scores sample_pick_env
      [mode32 640 480 60, mode32 800 600 60, mode32 1024 768 75] no_selection rfl
      (by decide) (by decide) (by decide) (by decide) (by decide) (by decide)
      ⟨mode32 640 480 60, by decide, rfl, by decide!⟩).2,
    by decide!⟩

/-- For a mode below the minimum size the difference `mode.Width -
target_width` is computed as unsigned and wraps: 320x240 against a minimum of
640x480 has a size score of 0.01 times about `1 / 2^33`, which the `float`
addition of the refresh score 1 rounds away, so the final score is 1; and
against a minimum of 1600x1200 the modes 1280x1024 and 640x480 at 60 Hz both
have the final score 1, so the loop keeps the first of them. -/
theorem pick_mode_score_below_minimum :
    pick_mode_score sample_pick_env (mode32 320 240 60) = fp.fin 1
      ∧ spec_mode_score sample_pick_env (mode32 320 240 60)
        = 1 / (1 + 320 + 240) * (1 / 100) + 1
      ∧ pick_mode_score large_pick_env (mode32 1280 1024 60) = fp.fin 1
      ∧ pick_mode_score large_pick_env (mode32 640 480 60) = fp.fin 1
      ∧ pick_best_mode_loop large_pick_env
          [some (mode32 1280 1024 60), some (mode32 640 480 60)] no_selection
        = selection_of large_pick_env (mode32 1280 1024 60) := by
  decide!

/-! ## `handle_saveload` -/

/-- C23: when `handle_saveload` runs with a pending file name and the
scheduler can save, the file is opened with `OPEN_FLAG_READ` for a load and
with `OPEN_FLAG_WRITE | OPEN_FLAG_CREATE | OPEN_FLAG_CREATE_PATHS` for a save;
the file is marked for removal on close exactly when the operation is a save,
the file was opened and the result of writing the state is an error; on return
the operation is unscheduled (schedule `SLS_NONE`, pending file name empty,
search path null). -/
theorem handle_saveload_flags_and_cleanup (D : saveload_decls) (env : saveload_env)
    (s : saveload_state) (hp : s.m_saveload_pending_file ≠ "") (hc : env.can_save = true) :
    (s.m_saveload_schedule = saveload_schedule.SLS_LOAD →
        (handle_saveload D env s).opened = some (s.m_saveload_pending_file, D.OPEN_FLAG_READ))
      ∧ (s.m_saveload_schedule = saveload_schedule.SLS_SAVE →
        (handle_saveload D env s).opened
          = some (s.m_saveload_pending_file,
            D.OPEN_FLAG_WRITE ||| D.OPEN_FLAG_CREATE ||| D.OPEN_FLAG_CREATE_PATHS))
      ∧ ((handle_saveload D env s).remove_on_close = true ↔
        s.m_saveload_schedule = saveload_schedule.SLS_SAVE
          ∧ env.open_ok s.m_saveload_pending_file
              (D.OPEN_FLAG_WRITE ||| D.OPEN_FLAG_CREATE ||| D.OPEN_FLAG_CREATE_PATHS) = true
          ∧ env.write_file ≠ save_error.STATERR_NONE)
      ∧ (handle_saveload D env s).state.m_saveload_schedule = saveload_schedule.SLS_NONE
      ∧ (handle_saveload D env s).state.m_saveload_pending_file = ""
      ∧ (handle_saveload D env s).state.m_saveload_searchpath = false := by
  unfold handle_saveload
  simp only [hp, hc, ne_eq, not_false_eq_true, if_true, Bool.not_true, Bool.false_eq_true,
    if_false]
  cases hs : s.m_saveload_schedule <;>
    cases ho : env.open_ok s.m_saveload_pending_file
      (D.OPEN_FLAG_WRITE ||| D.OPEN_FLAG_CREATE ||| D.OPEN_FLAG_CREATE_PATHS) <;>
    cases ho2 : env.open_ok s.m_saveload_pending_file D.OPEN_FLAG_READ <;>
    simp [ho, ho2]

theorem handle_saveload_flags_and_cleanup_witness :
    ((pending_save.m_saveload_schedule = saveload_schedule.SLS_LOAD →
        (handle_saveload mame_saveload_decls (saving_env save_error.STATERR_WRITE_ERROR)
            pending_save).opened
          = some (pending_save.m_saveload_pending_file, mame_saveload_decls.OPEN_FLAG_READ))
      ∧ (pending_save.m_saveload_schedule = saveload_schedule.SLS_SAVE →
        (handle_saveload mame_saveload_decls (saving_env save_error.STATERR_WRITE_ERROR)
            pending_save).opened
          = some (pending_save.m_saveload_pending_file,
            mame_saveload_decls.OPEN_FLAG_WRITE ||| mame_saveload_decls.OPEN_FLAG_CREATE
              ||| mame_saveload_decls.OPEN_FLAG_CREATE_PATHS))
      ∧ ((handle_saveload mame_saveload_decls (saving_env save_error.STATERR_WRITE_ERROR)
            pending_save).remove_on_close = true ↔
        pending_save.m_saveload_schedule = saveload_schedule.SLS_SAVE
          ∧ (saving_env save_error.STATERR_WRITE_ERROR).open_ok
              pending_save.m_saveload_pending_file
              (mame_saveload_decls.OPEN_FLAG_WRITE ||| mame_saveload_decls.OPEN_FLAG_CREATE
                ||| mame_saveload_decls.OPEN_FLAG_CREATE_PATHS) = true
          ∧ (saving_env save_error.STATERR_WRITE_ERROR).write_file ≠ save_error.STATERR_NONE)
      ∧ (handle_saveload mame_saveload_decls (saving_env save_error.STATERR_WRITE_ERROR)
          pending_save).state.m_saveload_schedule = saveload_schedule.SLS_NONE
      ∧ (handle_saveload mame_saveload_decls (saving_env save_error.STATERR_WRITE_ERROR)
          pending_save).state.m_saveload_pending_file = ""
      ∧ (handle_saveload mame_saveload_decls (saving_env save_error.STATERR_WRITE_ERROR)
          pending_save).state.m_saveload_searchpath = false)
      ∧ (handle_saveload mame_saveload_decls (saving_env save_error.STATERR_WRITE_ERROR)
          pending_save).remove_on_close = true
      ∧ (handle_saveload mame_saveload_decls (saving_env save_error.STATERR_NONE)
          pending_save).remove_on_close = false
      ∧ (handle_saveload mame_saveload_decls (saving_env save_error.STATERR_WRITE_ERROR)
          pending_save).opened = some ("state.sta", 14) :=
  ⟨handle_saveload_flags_and_cleanup mame_saveload_decls
      (saving_env save_error.STATERR_WRITE_ERROR) pending_save (by decide) rfl,
    by decide, by decide, by decide⟩

/-! ## `start_all_devices` -/

theorem start_sweep_spec (start : Nat → List Bool → Nat → start_outcome) (todo : List Bool) :
    ∀ (attempts : Nat) (done : List Bool) (failed : Nat) (flags : List Bool) (failed' a' : Nat),
      start_sweep start attempts done todo failed = some (flags, failed', a') →
      ∃ suffix, flags = done ++ suffix ∧ suffix.length = todo.length
        ∧ failed' = failed + suffix.count false
        ∧ suffix.count false ≤ todo.count false := by
  induction todo with
  | nil =>
    intro attempts done failed flags failed' a' h
    simp only [start_sweep, Option.some.injEq, Prod.mk.injEq] at h
    obtain ⟨h1, h2, _⟩ := h
    exact ⟨[], by simp [h1], rfl, by simp [h2], by simp⟩
  | cons b todo ih =>
    intro attempts done failed flags failed' a' h
    cases b with
    | true =>
      rw [start_sweep] at h
      obtain ⟨suffix, h1, h2, h3, h4⟩ := ih _ _ _ _ _ _ h
      refine ⟨true :: suffix, by simp [h1], by simp [h2], by simp [h3], by simpa using h4⟩
    | false =>
      rw [start_sweep] at h
      cases hs : start attempts (done ++ false :: todo) done.length with
      | started =>
        rw [hs] at h
        obtain ⟨suffix, h1, h2, h3, h4⟩ := ih _ _ _ _ _ _ h
        refine ⟨true :: suffix, by simp [h1], by simp [h2], by simp [h3], ?_⟩
        simp only [List.count_cons, beq_self_eq_true, if_true]
        simp
        omega
      | missing_dependencies =>
        rw [hs] at h
        obtain ⟨suffix, h1, h2, h3, h4⟩ := ih _ _ _ _ _ _ h
        refine ⟨false :: suffix, by simp [h1], by simp [h2], ?_, ?_⟩
        · simp only [List.count_cons_self]
          omega
        · simp only [List.count_cons_self]
          omega
      | exception =>
        rw [hs] at h
        exact absurd h (by simp)

theorem count_false_zero (l : List Bool) (h : l.count false = 0) : ∀ b ∈ l, b = true := by
  intro b hb
  cases b with
  | true => rfl
  | false => exact absurd (List.count_pos_iff.2 hb) (by omega)

theorem start_all_devices_loop_spec (start : Nat → List Bool → Nat → start_outcome) :
    ∀ (k fuel attempts : Nat) (flags : List Bool), flags.count false = k → k + 1 ≤ fuel →
      (start_all_devices_loop start fuel attempts flags (k : Int)).1 ≠ start_result.out_of_fuel
        ∧ (∀ f, (start_all_devices_loop start fuel attempts flags (k : Int)).1
            = start_result.returned f → f.length = flags.length ∧ ∀ b ∈ f, b = true)
        ∧ (∀ j, (start_all_devices_loop start fuel attempts flags (k : Int)).1
            = start_result.circular_dependency j →
          0 < j ∧ j ≤ k
            ∧ ∃ pre, k :: (start_all_devices_loop start fuel attempts flags (k : Int)).2
              = pre ++ [j, j])
        ∧ (∀ pre a b post,
          k :: (start_all_devices_loop start fuel attempts flags (k : Int)).2
            = pre ++ a :: b :: post →
          b ≤ a ∧ (b = a → post = []
            ∧ (start_all_devices_loop start fuel attempts flags (k : Int)).1
              = start_result.circular_dependency a)) := by
  intro k
  induction k using Nat.strong_induction_on with
  | _ k ih =>
    intro fuel attempts flags hk hfuel
    obtain ⟨fuel', rfl⟩ : ∃ n, fuel = n + 1 := ⟨fuel - 1, by omega⟩
    rw [start_all_devices_loop]
    by_cases h0 : k = 0
    · subst h0
      simp only [Nat.cast_zero, ne_eq, not_true_eq_false, if_false]
      refine ⟨by simp, ?_, by simp, ?_⟩
      · intro f hf
        simp only [start_result.returned.injEq] at hf
        subst hf
        exact ⟨rfl, count_false_zero _ hk⟩
      · intro pre a b post h
        have hl := congrArg List.length h
        simp at hl
        omega
    · have hk0 : (k : Int) ≠ 0 := by omega
      rw [if_pos hk0]
      cases hs : start_sweep start attempts [] flags 0 with
      | none =>
        refine ⟨by simp, by simp, by simp, ?_⟩
        intro pre a b post h
        have hl := congrArg List.length h
        simp at hl
        omega
      | some r =>
        obtain ⟨fl, failed, a'⟩ := r
        obtain ⟨suffix, h1, h2, h3, h4⟩ := start_sweep_spec start flags _ _ _ _ _ _ hs
        simp only [List.nil_append] at h1
        subst h1
        simp only [Nat.zero_add] at h3
        simp only []
        by_cases he : (failed : Int) = (k : Int)
        · rw [if_pos he]
          have hek : failed = k := by omega
          refine ⟨by simp, by simp, ?_, ?_⟩
          · intro j hj
            simp only [start_result.circular_dependency.injEq] at hj
            refine ⟨by omega, by omega, [], ?_⟩
            simp only [List.nil_append, List.cons.injEq, and_true]
            omega
          · intro pre a b post h
            rcases pre with _ | ⟨p, pre⟩
            · simp only [List.nil_append, List.cons.injEq] at h
              obtain ⟨q1, q2, q3⟩ := h
              refine ⟨by omega, fun _ => ⟨q3.symm, ?_⟩⟩
              simp only [start_result.circular_dependency.injEq]
              omega
            · have hl := congrArg List.length h
              simp at hl
              omega
        · rw [if_neg he]
          have hlt : failed < k := by omega
          obtain ⟨r1, r2, r3, r4⟩ := ih failed hlt fuel' a' fl h3.symm (by omega)
          refine ⟨r1, ?_, ?_, ?_⟩
          · intro f hf
            obtain ⟨q1, q2⟩ := r2 f hf
            exact ⟨by rw [q1, h2], q2⟩
          · intro j hj
            obtain ⟨q1, q2, pre, q3⟩ := r3 j hj
            exact ⟨q1, by omega, k :: pre, by rw [List.cons_append, ← q3]⟩
          · intro pre a b post h
            rcases pre with _ | ⟨p, pre⟩
            · simp only [List.nil_append, List.cons.injEq] at h
              obtain ⟨q1, q2, q3⟩ := h
              exact ⟨by omega, fun hba => absurd hba (by omega)⟩
            · simp only [List.cons_append, List.cons.injEq] at h
              exact r4 pre a b post h.2

/-- C24: for every list of devices and every behaviour of their `start()`
calls, `start_all_devices` terminates (a number of loop iterations one above
the number of devices, plus the final loop test, is enough fuel); when it
returns, every device is started; the fatal error "Circular dependency in
device startup!" is thrown exactly at a sweep that makes no progress: when it
is thrown, the number of failed starts of the last sweep is not zero and
equals that of the sweep before, and whenever a completed sweep has the same
number of failed starts as the sweep before it, it is the last sweep and the
error is thrown; the number of failed starts never grows from one sweep to
the next. -/
theorem start_all_devices_terminates (start : Nat → List Bool → Nat → start_outcome)
    (flags : List Bool) (fuel : Nat) (hfuel : flags.length + 2 ≤ fuel) :
    (start_all_devices start fuel flags).1 ≠ start_result.out_of_fuel
      ∧ (∀ f, (start_all_devices start fuel flags).1 = start_result.returned f →
        f.length = flags.length ∧ ∀ b ∈ f, b = true)
      ∧ (∀ j, (start_all_devices start fuel flags).1 = start_result.circular_dependency j →
        0 < j ∧ j ≤ flags.length
          ∧ ∃ pre, (start_all_devices start fuel flags).2 = pre ++ [j, j])
      ∧ (∀ pre a b post, (start_all_devices start fuel flags).2 = pre ++ a :: b :: post →
        b ≤ a ∧ (b = a → post = []
          ∧ (start_all_devices start fuel flags).1 = start_result.circular_dependency a)) := by
  obtain ⟨fuel', rfl⟩ : ∃ n, fuel = n + 1 := ⟨fuel - 1, by omega⟩
  unfold start_all_devices
  rw [start_all_devices_loop, if_pos (by decide)]
  cases hs : start_sweep start 0 [] flags 0 with
  | none =>
    refine ⟨by simp, by simp, by simp, ?_⟩
    intro pre a b post h
    have hl := congrArg List.length h
    simp at hl
    omega
  | some r =>
    obtain ⟨fl, failed, a'⟩ := r
    obtain ⟨suffix, h1, h2, h3, h4⟩ := start_sweep_spec start flags _ _ _ _ _ _ hs
    simp only [List.nil_append] at h1
    subst h1
    simp only [Nat.zero_add] at h3
    simp only []
    have hne : ¬ ((failed : Int) = -1) := by omega
    rw [if_neg hne]
    have hle : fl.count false ≤ fl.length := List.count_le_length _ _
    obtain ⟨r1, r2, r3, r4⟩ := start_all_devices_loop_spec start failed fuel' a' fl h3.symm
      (by omega)
    refine ⟨r1, ?_, ?_, r4⟩
    · intro f hf
      obtain ⟨q1, q2⟩ := r2 f hf
      exact ⟨by rw [q1, h2], q2⟩
    · intro j hj
      obtain ⟨q1, q2, q3⟩ := r3 j hj
      exact ⟨q1, by omega, q3⟩

theorem start_all_devices_terminates_witness :
    ((start_all_devices circular_start 4 [false, false]).1 ≠ start_result.out_of_fuel
      ∧ (∀ f, (start_all_devices circular_start 4 [false, false]).1
          = start_result.returned f →
        f.length = [false, false].length ∧ ∀ b ∈ f, b = true)
      ∧ (∀ j, (start_all_devices circular_start 4 [false, false]).1
          = start_result.circular_dependency j →
        0 < j ∧ j ≤ [false, false].length
          ∧ ∃ pre, (start_all_devices circular_start 4 [false, false]).2 = pre ++ [j, j])
      ∧ (∀ pre a b post,
        (start_all_devices circular_start 4 [false, false]).2 = pre ++ a :: b :: post →
        b ≤ a ∧ (b = a → post = []
          ∧ (start_all_devices circular_start 4 [false, false]).1
            = start_result.circular_dependency a)))
      ∧ start_all_devices chain_start 5 [false, false, false]
        = (start_result.returned [true, true, true], [2, 0])
      ∧ start_all_devices circular_start 4 [false, false]
        = (start_result.circular_dependency 2, [2, 2]) :=
  ⟨start_all_devices_terminates circular_start [false, false] 4 (by decide),
    by decide, by decide⟩

/-! ## The aspect step of `compute_size_subroutine` -/

theorem le_smear16 (x : Nat) : x ≤ smear16 x := by
  apply Nat.le_of_testBit
  intro i hi
  rw [smear16_testBit_iff]
  exact ⟨0, by norm_num, by simpa using hi⟩

theorem smear16_lt (x : Nat) (h : x < 2147483648) : smear16 x < 2147483648 := by
  unfold smear16
  exact or_shift_lt _ 8 (or_shift_lt _ 4 (or_shift_lt _ 2 (or_shift_lt _ 1 h)))

theorem pow2_round_bounds (v : Int) (h0 : 0 < v) (h1 : v < 2147483648) :
    v ≤ pow2_round v ∧ pow2_round v ≤ 2147483648 := by
  obtain ⟨n, rfl⟩ : ∃ n : Nat, v = (n : Int) := ⟨v.toNat, by omega⟩
  have hn : n < 2147483648 := by omega
  rw [pow2_round_natCast n hn]
  unfold pow2_round_nat
  have a := le_smear16 n
  have b := smear16_lt n hn
  split_ifs <;> omega

theorem toUInt32_cdiv_pos (a b : Int) (ha : 0 < a) (hb : 0 ≤ b) (hb2 : b < 4294967296) :
    ((toUInt32 (cdiv b a) : Nat) : Int) = b / a := by
  unfold cdiv
  rw [Int.tdiv_eq_ediv hb (le_of_lt ha)]
  have h1 : 0 ≤ b / a := Int.ediv_nonneg hb (le_of_lt ha)
  have h2 : b / a ≤ b := Int.ediv_le_self a hb
  unfold toUInt32
  omega

theorem aspect_double_spec (A : Nat) (b : Int) (hb : 0 < b) (hb2 : b < 4294967296) :
    ∀ (fuel : Nat) (a : Int), 0 < a → (b - a).toNat ≤ fuel →
      ∃ k : Nat, aspect_double A b fuel a = some (a * 2 ^ k)
        ∧ (0 < k → a < b ∧ (A : Int) < b / a) ∧ (0 < k → a * 2 ^ k < 2 * b)
        ∧ (a * 2 ^ k < b → b / (a * 2 ^ k) ≤ (A : Int)) := by
  intro fuel
  induction fuel with
  | zero =>
    intro a ha hf
    have hab : ¬ a < b := by omega
    refine ⟨0, ?_, by simp, by simp, ?_⟩
    · unfold aspect_double
      rw [if_neg hab]
      simp
    · intro h
      simp at h
      omega
  | succ fuel ih =>
    intro a ha hf
    rw [aspect_double]
    by_cases hab : a < b
    · rw [if_pos hab, if_neg (by omega : ¬ a = 0)]
      have hq := toUInt32_cdiv_pos a b ha (le_of_lt hb) hb2
      by_cases hr : toUInt32 (cdiv b a) > A
      · rw [if_pos hr]
        obtain ⟨k, h1, h2, h3, h4⟩ := ih (a * 2) (by omega) (by omega)
        refine ⟨k + 1, ?_, fun _ => ⟨hab, by omega⟩, ?_, ?_⟩
        · rw [h1, pow_succ]
          congr 1
          ring
        · intro _
          have e : a * 2 ^ (k + 1) = a * 2 * 2 ^ k := by rw [pow_succ]; ring
          rw [e]
          rcases Nat.eq_zero_or_pos k with hk | hk
          · subst hk
            simp
            omega
          · exact h3 hk
        · have e : a * 2 ^ (k + 1) = a * 2 * 2 ^ k := by rw [pow_succ]; ring
          rw [e]
          exact h4
      · rw [if_neg hr]
        refine ⟨0, by simp, by simp, by simp, ?_⟩
        intro _
        simp only [pow_zero, mul_one]
        omega
    · rw [if_neg hab]
      refine ⟨0, by simp, by simp, by simp, ?_⟩
      intro h
      simp at h
      omega

theorem compute_size_rounded_bounds (D : texture_decls) (mgr : d3d_texture_manager)
    (w h : Int) (hw : 0 < w) (hh : 0 < h) (hw2 : w < 2147483648) (hh2 : h < 2147483648) :
    w ≤ (compute_size_rounded D mgr w h).1 ∧ h ≤ (compute_size_rounded D mgr w h).2
      ∧ (compute_size_rounded D mgr w h).1 ≤ 2147483648
      ∧ (compute_size_rounded D mgr w h).2 ≤ 2147483648 := by
  have pw := pow2_round_bounds w hw hw2
  have ph := pow2_round_bounds h hh hh2
  unfold compute_size_rounded
  simp only []
  split_ifs <;> omega

theorem compute_size_subroutine_eq (D : texture_decls) (mgr : d3d_texture_manager)
    (w h : Int) :
    compute_size_subroutine D mgr w h
      = match aspect_double mgr.m_texture_max_aspect (compute_size_rounded D mgr w h).2
          (compute_size_rounded D mgr w h).2.toNat (compute_size_rounded D mgr w h).1 with
        | none => none
        | some w' =>
          match aspect_double mgr.m_texture_max_aspect w' w'.toNat
              (compute_size_rounded D mgr w h).2 with
          | none => none
          | some h' => some (w', h') := by
  rfl

/-- C26: for every pair of positive input dimensions (of type `int`) and every
maximum aspect `A >= 1`, with the doublings computed without overflow,
`compute_size_subroutine` returns; the dimensions returned are at least the
input dimensions; the integer quotient of the larger by the smaller is at most
`A`; and the aspect step doubles one side only, the shorter one of the
dimensions that enter it. -/
theorem compute_size_subroutine_aspect (D : texture_decls) (mgr : d3d_texture_manager)
    (w h : Int) (hw : 0 < w) (hh : 0 < h) (hw2 : w < 2147483648) (hh2 : h < 2147483648)
    (hA : 1 ≤ mgr.m_texture_max_aspect) :
    ∃ (w' h' : Int) (k : Nat),
      compute_size_subroutine D mgr w h = some (w', h')
        ∧ w ≤ w' ∧ h ≤ h'
        ∧ cdiv (max w' h') (min w' h') ≤ (mgr.m_texture_max_aspect : Int)
        ∧ ((w' = (compute_size_rounded D mgr w h).1 * 2 ^ k
              ∧ h' = (compute_size_rounded D mgr w h).2
              ∧ (0 < k → (compute_size_rounded D mgr w h).1
                < (compute_size_rounded D mgr w h).2))
          ∨ (w' = (compute_size_rounded D mgr w h).1
              ∧ h' = (compute_size_rounded D mgr w h).2 * 2 ^ k
              ∧ (0 < k → (compute_size_rounded D mgr w h).2
                < (compute_size_rounded D mgr w h).1))) := by
  obtain ⟨b1, b2, b3, b4⟩ := compute_size_rounded_bounds D mgr w h hw hh hw2 hh2
  rw [compute_size_subroutine_eq]
  generalize (compute_size_rounded D mgr w h).1 = w1 at b1 b3 ⊢
  generalize (compute_size_rounded D mgr w h).2 = h1 at b2 b4 ⊢
  have hw1 : 0 < w1 := by omega
  have hh1 : 0 < h1 := by omega
  have hAi : (1 : Int) ≤ (mgr.m_texture_max_aspect : Int) := by exact_mod_cast hA
  obtain ⟨k1, e1, p1, p2, p3⟩ := aspect_double_spec mgr.m_texture_max_aspect h1 hh1 (by omega)
    h1.toNat w1 hw1 (by omega)
  rw [e1]
  simp only []
  have hpow1 : (1 : Int) ≤ 2 ^ k1 := by exact_mod_cast Nat.one_le_two_pow
  have hwa : w1 ≤ w1 * 2 ^ k1 := by nlinarith
  have hwa2 : w1 * 2 ^ k1 < 4294967296 := by
    rcases Nat.eq_zero_or_pos k1 with hk | hk
    · subst hk
      simp
      omega
    · have := p2 hk
      omega
  obtain ⟨k2, e2, q1, q2, q3⟩ := aspect_double_spec mgr.m_texture_max_aspect (w1 * 2 ^ k1)
    (by omega) hwa2 (w1 * 2 ^ k1).toNat h1 hh1 (by omega)
  rw [e2]
  simp only []
  have hpow2 : (1 : Int) ≤ 2 ^ k2 := by exact_mod_cast Nat.one_le_two_pow
  have hha : h1 ≤ h1 * 2 ^ k2 := by nlinarith
  have hquot : ∀ x y : Int, 0 < y → y ≤ x → x < 2 * y → x / y = 1 := by
    intro x y hy h1 h2
    have l1 : 1 ≤ x / y := Int.le_ediv_of_mul_le hy (by omega)
    have l2 : x / y < 2 := Int.ediv_lt_of_lt_mul hy (by omega)
    omega
  have hcdiv : ∀ x y : Int, 0 < x → 0 < y → cdiv x y = x / y := by
    intro x y hx hy
    unfold cdiv
    exact Int.tdiv_eq_ediv hx.le hy.le
  rcases Nat.eq_zero_or_pos k1 with hk1 | hk1
  · subst hk1
    simp only [pow_zero, mul_one] at *
    refine ⟨w1, h1 * 2 ^ k2, k2, rfl, b1, by omega, ?_, Or.inr ⟨rfl, rfl, fun hk => (q1 hk).1⟩⟩
    by_cases hc : h1 * 2 ^ k2 < w1
    · rw [max_eq_left (le_of_lt hc), min_eq_right (le_of_lt hc), hcdiv _ _ hw1 (by omega)]
      exact q3 hc
    · have hc' : w1 ≤ h1 * 2 ^ k2 := not_lt.1 hc
      rw [max_eq_right hc', min_eq_left hc', hcdiv _ _ (by omega) hw1]
      rcases Nat.eq_zero_or_pos k2 with hk2 | hk2
      · subst hk2
        simp only [pow_zero, mul_one] at *
        rcases lt_or_eq_of_le hc' with hlt | heq
        · exact p3 hlt
        · rw [hquot h1 w1 hw1 (by omega) (by omega)]
          exact hAi
      · rw [hquot _ w1 hw1 hc' (q2 hk2)]
        exact hAi
  · have hk2 : k2 = 0 := by
      by_contra hne
      have hpos : 0 < k2 := Nat.pos_of_ne_zero hne
      obtain ⟨c1, c2⟩ := q1 hpos
      rw [hquot _ h1 hh1 (le_of_lt c1) (p2 hk1)] at c2
      omega
    subst hk2
    simp only [pow_zero, mul_one] at *
    refine ⟨w1 * 2 ^ k1, h1, k1, rfl, by omega, b2, ?_, Or.inl ⟨rfl, rfl, fun hk => (p1 hk).1⟩⟩
    by_cases hc : w1 * 2 ^ k1 < h1
    · rw [max_eq_right (le_of_lt hc), min_eq_left (le_of_lt hc), hcdiv _ _ hh1 (by omega)]
      exact p3 hc
    · have hc' : h1 ≤ w1 * 2 ^ k1 := not_lt.1 hc
      rw [max_eq_left hc', min_eq_right hc', hcdiv _ _ (by omega) hh1,
        hquot _ h1 hh1 hc' (p2 hk1)]
      exact hAi

theorem compute_size_subroutine_aspect_witness :
    (∃ (w' h' : Int) (k : Nat),
      compute_size_subroutine sample_decls pow2_mgr 16 1000 = some (w', h')
        ∧ 16 ≤ w' ∧ 1000 ≤ h'
        ∧ cdiv (max w' h') (min w' h') ≤ (pow2_mgr.m_texture_max_aspect : Int)
        ∧ ((w' = (compute_size_rounded sample_decls pow2_mgr 16 1000).1 * 2 ^ k
              ∧ h' = (compute_size_rounded sample_decls pow2_mgr 16 1000).2
              ∧ (0 < k → (compute_size_rounded sample_decls pow2_mgr 16 1000).1
                < (compute_size_rounded sample_decls pow2_mgr 16 1000).2))
          ∨ (w' = (compute_size_rounded sample_decls pow2_mgr 16 1000).1
              ∧ h' = (compute_size_rounded sample_decls pow2_mgr 16 1000).2 * 2 ^ k
              ∧ (0 < k → (compute_size_rounded sample_decls pow2_mgr 16 1000).2
                < (compute_size_rounded sample_decls pow2_mgr 16 1000).1))))
      ∧ compute_size_rounded sample_decls pow2_mgr 16 1000 = (16, 1024)
      ∧ compute_size_subroutine sample_decls pow2_mgr 16 1000 = some (128, 1024) :=
  ⟨compute_size_subroutine_aspect sample_decls pow2_mgr 16 1000 (by decide) (by decide)
      (by decide) (by decide) (by decide),
    by decide!, by decide!⟩

/-! ## What `set_data` locks -/

/-- C29: the constructor can hand to `set_data` a texture of type SURFACE
whose `m_d3dsurface` is null. For an 800 x 600 ARGB32 screen texture with
prescale 2 on a device with StretchRect, a 640 x 480 back buffer and every
allocation succeeding, the type chosen is SURFACE, the prescale loops bring
both prescales down to 1 (raw dimensions 1024 x 1024), the first attempt
allocates a plain texture, and `set_data` is called once with `m_d3dsurface`
null. The same happens for a 320 x 240 texture when the allocation of the
offscreen surface fails and the second attempt succeeds. -/
theorem set_data_locks_missing_surface :
    (texture_info_new sample_decls pow2_mgr prescale2_ctx ok_alloc screen_texsource 2
        0x2040).map (fun r => (r.1.m_type, r.1.m_rawdims, r.1.m_xprescale, r.1.m_yprescale))
      = some (texture_type.TEXTURE_TYPE_SURFACE, (1024, 1024), 1, 1)
      ∧ (texture_info_new sample_decls pow2_mgr prescale2_ctx ok_alloc screen_texsource 2
          0x2040).map
          (fun r => (r.1.m_d3dtex, r.1.m_d3dsurface, r.1.set_data_calls,
            set_data_lock_target r.1))
        = some (true, false, 1, false)
      ∧ (texture_info_new sample_decls pow2_mgr prescale2_ctx first_fails_alloc
          (sample_prim 4096 1).texture 2 0x2040).map
          (fun r => (r.1.m_type, r.1.m_rawdims, r.1.m_xprescale, r.1.m_yprescale))
        = some (texture_type.TEXTURE_TYPE_SURFACE, (512, 256), 1, 1)
      ∧ (texture_info_new sample_decls pow2_mgr prescale2_ctx first_fails_alloc
          (sample_prim 4096 1).texture 2 0x2040).map
          (fun r => (r.1.m_d3dtex, r.1.m_d3dsurface, r.1.set_data_calls,
            set_data_lock_target r.1))
        = some (true, false, 1, false) := by
  decide!

/-! ### Monitor presets -/

set_option maxRecDepth 100000 in
/-- Every range string of every non-VESA preset converts into 16 fields and is
accepted. -/
theorem monitor_presets_accepted :
    ∀ type ∈ monitor_preset_names, ∃ p ∈ monitor_preset_lines type,
      p.2 = (p.1.length : Int)
        ∧ ∀ line ∈ p.1, (sscanf_monitor_range line).1 = 16
          ∧ monitor_evaluate_range (monitor_parsed_range (sscanf_monitor_range line).2) = 0
          ∧ (monitor_fill_range sscanf_monitor_range zero_range line).1 = 0 := by
  decide!

/-- The value returned by `monitor_fill_range` does not depend on the
destination range. -/
theorem monitor_fill_range_ret (scan : String → Int × monitor_range) (r1 r2 : monitor_range)
    (line : String) :
    (monitor_fill_range scan r1 line).1 = (monitor_fill_range scan r2 line).1 := by
  unfold monitor_fill_range
  rcases scan line with ⟨e, new_range⟩
  simp only []
  split_ifs <;> rfl

/-- The values returned by the calls of a preset. -/
theorem monitor_fill_ranges_ret (scan : String → Int × monitor_range) (lines : List String) :
    ∀ (i : Nat) (range : List monitor_range),
      (monitor_fill_ranges scan lines i range).2
        = lines.map (fun line => (monitor_fill_range scan zero_range line).1) := by
  induction lines with
  | nil =>
    intro i range
    rfl
  | cons line lines ih =>
    intro i range
    rw [monitor_fill_ranges]
    simp only [List.map_cons, ih]
    rw [monitor_fill_range_ret scan _ zero_range line]

/-- A take of one element more after a store at the last index. -/
theorem take_succ_set {α : Type} (l : List α) (i : Nat) (a : α) (h : i < l.length) :
    (l.set i a).take (i + 1) = l.take i ++ [a] := by
  rw [List.set_eq_take_append_cons_drop, if_pos h]
  have hl : (List.take i l).length = i := by
    simp
    omega
  rw [List.take_append_eq_append_take]
  simp [hl]

/-- Consecutive `monitor_fill_range` calls on strings that are all converted
and accepted write the parsed ranges to `range[i]`, `range[i + 1]`, ... and
leave the other entries as they are. -/
theorem monitor_fill_ranges_written (scan : String → Int × monitor_range)
    (lines : List String) :
    ∀ (i : Nat) (range : List monitor_range),
      (∀ line ∈ lines, line ≠ "auto" ∧ (scan line).1 = 16
        ∧ monitor_evaluate_range (monitor_parsed_range (scan line).2) = 0) →
      i + lines.length ≤ range.length →
      (monitor_fill_ranges scan lines i range).1
        = range.take i ++ lines.map (fun line => monitor_parsed_range (scan line).2)
          ++ range.drop (i + lines.length) := by
  induction lines with
  | nil =>
    intro i range _ _
    simp [monitor_fill_ranges]
  | cons line lines ih =>
    intro i range hall hlen
    obtain ⟨hauto, h16, hacc⟩ := hall line (List.mem_cons_self _ _)
    simp only [List.length_cons] at hlen
    rw [monitor_fill_ranges]
    simp only []
    rw [monitor_fill_range_eq scan _ line hauto, if_neg (not_not.2 h16),
      if_neg (not_not.2 hacc)]
    simp only []
    rw [ih (i + 1) _ (fun l hl => hall l (List.mem_cons_of_mem _ hl))
      (by rw [List.length_set]; omega)]
    rw [take_succ_set _ _ _ (by omega), List.drop_set_of_lt _ _ (by omega)]
    simp only [List.map_cons, List.length_cons, List.append_assoc, List.singleton_append]
    congr 3
    omega

/-- C28: for every preset name of `monitor_set_preset` other than the VESA
ones, every range string of the preset is converted into 16 fields and is
accepted by `monitor_evaluate_range`, every `monitor_fill_range` call returns
0 and writes its range, and the count returned is the number of those calls:
in an array with room for them, the entries `range[0]` up to the count
returned are the parsed ranges of the strings, in order, and the entries after
them are left as they were. -/
theorem monitor_set_preset_count
    (vesa : List monitor_range → String → Int × List monitor_range) (type : String)
    (range : List monitor_range) (h : type ∈ monitor_preset_names) :
    ∃ lines ret, monitor_preset_lines type = some (lines, ret)
      ∧ (∀ line ∈ lines, (sscanf_monitor_range line).1 = 16
        ∧ monitor_evaluate_range (monitor_parsed_range (sscanf_monitor_range line).2) = 0)
      ∧ (monitor_set_preset sscanf_monitor_range vesa type range).1 = (lines.length : Int)
      ∧ (monitor_set_preset sscanf_monitor_range vesa type range).2.2
        = List.replicate lines.length 0
      ∧ (lines.length ≤ range.length →
        (monitor_set_preset sscanf_monitor_range vesa type range).2.1
          = lines.map (fun line => monitor_parsed_range (sscanf_monitor_range line).2)
            ++ range.drop lines.length) := by
  obtain ⟨p, hp, h1, h2⟩ := monitor_presets_accepted type h
  obtain ⟨lines, ret⟩ := p
  have hp' : monitor_preset_lines type = some (lines, ret) := hp
  have hauto : (sscanf_monitor_range "auto").1 ≠ 16 := by decide!
  refine ⟨lines, ret, hp', fun line hl => ⟨(h2 line hl).1, (h2 line hl).2.1⟩, ?_, ?_, ?_⟩
  · unfold monitor_set_preset
    rw [hp']
    exact h1
  · unfold monitor_set_preset
    rw [hp']
    simp only []
    rw [monitor_fill_ranges_ret]
    rw [List.eq_replicate_iff]
    refine ⟨by simp, ?_⟩
    intro b hb
    obtain ⟨line, hl, rfl⟩ := List.mem_map.1 hb
    exact (h2 line hl).2.2
  · intro hlen
    unfold monitor_set_preset
    rw [hp']
    simp only []
    rw [monitor_fill_ranges_written sscanf_monitor_range lines 0 range
      (fun line hl => ⟨fun e => hauto (e ▸ (h2 line hl).1), (h2 line hl).1, (h2 line hl).2.1⟩)
      (by omega)]
    simp

/-- Witness of `monitor_set_preset_count`: preset `d9800` has six ranges; in
an array of ten zero ranges the first six entries are written and the last
four are left. -/
theorem monitor_set_preset_count_witness :
    (∃ lines ret, monitor_preset_lines "d9800" = some (lines, ret)
      ∧ (∀ line ∈ lines, (sscanf_monitor_range line).1 = 16
        ∧ monitor_evaluate_range (monitor_parsed_range (sscanf_monitor_range line).2) = 0)
      ∧ (monitor_set_preset sscanf_monitor_range (fun range _ => (0, range)) "d9800"
          (List.replicate 10 zero_range)).1 = (lines.length : Int)
      ∧ (monitor_set_preset sscanf_monitor_range (fun range _ => (0, range)) "d9800"
          (List.replicate 10 zero_range)).2.2 = List.replicate lines.length 0
      ∧ (lines.length ≤ (List.replicate 10 zero_range).length →
        (monitor_set_preset sscanf_monitor_range (fun range _ => (0, range)) "d9800"
            (List.replicate 10 zero_range)).2.1
          = lines.map (fun line => monitor_parsed_range (sscanf_monitor_range line).2)
            ++ (List.replicate 10 zero_range).drop lines.length))
      ∧ (monitor_set_preset sscanf_monitor_range (fun range _ => (0, range)) "d9800"
          (List.replicate 10 zero_range)).1 = 6
      ∧ ((monitor_set_preset sscanf_monitor_range (fun range _ => (0, range)) "d9800"
          (List.replicate 10 zero_range)).2.1.map
            (fun r => (r.progressive_lines_min, r.progressive_lines_max)))
        = [(224, 288), (288, 320), (320, 384), (384, 480), (480, 576), (576, 600), (0, 0),
            (0, 0), (0, 0), (0, 0)] :=
  ⟨monitor_set_preset_count (fun range _ => (0, range)) "d9800" (List.replicate 10 zero_range)
      (by decide),
    by decide!, by decide!⟩

/-! ### The pixel copy of `set_data` -/

/-- The loop of the copyline functions converts `n` consecutive source pixels
and leaves the source pointer after them. -/
theorem copyline_loop_spec (conv : Nat → Nat) (src : Int → Nat) :
    ∀ (n : Nat) (p : Int),
      copyline_loop conv src n p
        = ((List.range n).map (fun i : Nat => conv (src (p + (i : Int)))), p + (n : Int)) := by
  intro n
  induction n with
  | zero =>
    intro p
    simp [copyline_loop]
  | succ n ih =>
    intro p
    rw [copyline_loop]
    simp only [ih]
    rw [List.range_succ_eq_map]
    simp only [List.map_cons, List.map_map, Nat.cast_zero, add_zero, Prod.mk.injEq,
      List.cons.injEq, true_and]
    constructor
    · apply List.map_congr_left
      intro i _
      simp only [Function.comp, Nat.cast_succ]
      congr 2
      ring
    · push_cast
      ring

/-- The loop over Y of `set_data` started at `dsty = 0 - m_yborderpix`. -/
theorem set_data_loop_spec {α : Type} (line : Int → α) (height m_yborderpix : Int)
    (hh : 1 ≤ height) :
    ∀ (n : Nat) (dsty : Int),
      set_data_loop line height m_yborderpix n dsty
        = (List.range n).map (fun k : Nat =>
            (dsty + (k : Int) + m_yborderpix,
              line (spec_clamp (dsty + (k : Int)) 0 (height - 1)))) := by
  intro n
  induction n with
  | zero =>
    intro dsty
    simp [set_data_loop]
  | succ n ih =>
    intro dsty
    rw [set_data_loop]
    simp only [ih]
    rw [List.range_succ_eq_map]
    simp only [List.map_cons, List.map_map, Nat.cast_zero, add_zero, List.cons.injEq]
    constructor
    · congr 2
      unfold spec_clamp
      split_ifs with h1 h2
      · rw [max_eq_left]
        exact le_trans (min_le_left _ _) (le_of_lt h1)
      · rw [min_eq_right (by omega), max_eq_right (by omega)]
      · rw [min_eq_left (by omega), max_eq_right (by omega)]
    · apply List.map_congr_left
      intro k _
      simp only [Function.comp, Nat.cast_succ]
      have e : dsty + 1 + (k : Int) = dsty + ((k : Int) + 1) := by ring
      rw [e]

/-- With one border pixel a copyline function built from the loop writes the
border line of the specification. -/
theorem copyline_border (conv : Nat → Nat) (src : Int → Nat) (p width : Int) (hw : 1 ≤ width) :
    [conv (src p)] ++ (copyline_loop conv src width.toNat p).1
        ++ [conv (src ((copyline_loop conv src width.toNat p).2 - 1))]
      = spec_border_line conv src p width := by
  rw [copyline_loop_spec]
  unfold spec_border_line
  have e : p + ((width.toNat : Nat) : Int) - 1 = p + (width - 1) := by
    rw [Int.toNat_of_nonneg (by omega)]
    ring
  simp only [e]

/-- C27: border rows and columns replicate the nearest edge pixel. For a
source of height at least 1, `set_data` (lock succeeded) fills the destination
rows `r = 0 .. height + 2 * yborder - 1`, row `r` from source row
`clamp(r - yborder, 0, height - 1)`; for a width of at least 1 and
`xborderpix = 1`, `copyline_palette16`, `copyline_palettea16`,
`copyline_rgb32` and `copyline_argb32` write exactly `width + 2` pixels: the
conversion of source pixel 0, the conversions of the source pixels
`0 .. width - 1`, and the conversion of source pixel `width - 1`. -/
theorem set_data_border_replicates (D : texture_decls) (F : texformat_decls) (R : rgb_t_ops)
    (yuy16 : Int → Int → List Nat) (lock : hresult) (flags : Nat) (texsource : texsource_pixels)
    (m_xborderpix m_yborderpix : Int) (src : Int → Nat) (p width : Int) (palette : Nat → Nat)
    (rgbmap : Option (Nat → Nat))
    (hlock : FAILED lock = false) (hh : 1 ≤ texsource.height) (hw : 1 ≤ width) :
    set_data_copy D F R yuy16 lock flags texsource m_xborderpix m_yborderpix
        = (List.range (texsource.height + 2 * m_yborderpix).toNat).map (fun r : Nat =>
            ((r : Int), set_data_line D F R yuy16 flags texsource m_xborderpix
              (spec_clamp ((r : Int) - m_yborderpix) 0 (texsource.height - 1))))
      ∧ copyline_palette16 src p width palette 1
          = spec_border_line (palette16_pixel palette) src p width
      ∧ copyline_palettea16 src p width palette 1
          = spec_border_line (palettea16_pixel palette) src p width
      ∧ copyline_rgb32 R src p width rgbmap 1
          = spec_border_line (rgb32_pixel R rgbmap) src p width
      ∧ copyline_argb32 R src p width rgbmap 1
          = spec_border_line (argb32_pixel R rgbmap) src p width
      ∧ (∀ conv : Nat → Nat, ((spec_border_line conv src p width).length : Int) = width + 2)
      ∧ (∀ conv : Nat → Nat, (spec_border_line conv src p width)[0]? = some (conv (src p)))
      ∧ (∀ (conv : Nat → Nat) (i : Nat), (i : Int) < width →
          (spec_border_line conv src p width)[i + 1]? = some (conv (src (p + (i : Int)))))
      ∧ (∀ conv : Nat → Nat, (spec_border_line conv src p width)[width.toNat + 1]?
          = some (conv (src (p + (width - 1))))) := by
  have h1 : (1 : Int) ≠ 0 := by decide
  refine ⟨?_, ?_, ?_, ?_, ?_, ?_, ?_, ?_, ?_⟩
  · unfold set_data_copy
    rw [hlock]
    simp only [Bool.false_eq_true, if_false]
    rw [set_data_loop_spec _ _ _ hh]
    have e : texsource.height + m_yborderpix - (0 - m_yborderpix)
        = texsource.height + 2 * m_yborderpix := by ring
    rw [e]
    apply List.map_congr_left
    intro k _
    have e1 : 0 - m_yborderpix + (k : Int) + m_yborderpix = (k : Int) := by ring
    have e2 : 0 - m_yborderpix + (k : Int) = (k : Int) - m_yborderpix := by ring
    rw [e1, e2]
  · unfold copyline_palette16
    simp only [if_pos h1]
    exact copyline_border (palette16_pixel palette) src p width hw
  · unfold copyline_palettea16
    simp only [if_pos h1]
    exact copyline_border (palettea16_pixel palette) src p width hw
  · unfold copyline_rgb32
    cases rgbmap with
    | none =>
      simp only [if_pos h1]
      exact copyline_border (rgb32_pixel R none) src p width hw
    | some pal =>
      simp only [if_pos h1]
      exact copyline_border (rgb32_pixel R (some pal)) src p width hw
  · unfold copyline_argb32
    cases rgbmap with
    | none =>
      simp only [if_pos h1]
      exact copyline_border (argb32_pixel R none) src p width hw
    | some pal =>
      simp only [if_pos h1]
      exact copyline_border (argb32_pixel R (some pal)) src p width hw
  · intro conv
    unfold spec_border_line
    simp only [List.length_append, List.length_map, List.length_range, List.length_singleton]
    push_cast
    rw [Int.toNat_of_nonneg (by omega)]
    ring
  · intro conv
    unfold spec_border_line
    simp
  · intro conv i hi
    unfold spec_border_line
    have hi' : i < width.toNat := by omega
    simp [List.getElem?_append, hi']
  · intro conv
    unfold spec_border_line
    simp [List.getElem?_append]

/-- Witness of `set_data_border_replicates`: a 3 x 2 `PALETTE16` source with
one border pixel on every side gives four rows of five pixels. -/
theorem set_data_border_replicates_witness :
    (FAILED hresult.D3D_OK = false ∧ 1 ≤ sample_pixels.height ∧ (1 : Int) ≤ 3)
      ∧ set_data_copy sample_decls mame_texformat_decls mame_rgb_t (fun _ _ => [])
          hresult.D3D_OK 0x10 sample_pixels 1 1
        = (List.range (sample_pixels.height + 2 * 1).toNat).map (fun r : Nat =>
            ((r : Int), set_data_line sample_decls mame_texformat_decls mame_rgb_t
              (fun _ _ => []) 0x10 sample_pixels 1
              (spec_clamp ((r : Int) - 1) 0 (sample_pixels.height - 1))))
      ∧ set_data_copy sample_decls mame_texformat_decls mame_rgb_t (fun _ _ => [])
          hresult.D3D_OK 0x10 sample_pixels 1 1
        = [(0, some [4278190180, 4278190180, 4278190181, 4278190182, 4278190182]),
           (1, some [4278190180, 4278190180, 4278190181, 4278190182, 4278190182]),
           (2, some [4278190190, 4278190190, 4278190191, 4278190192, 4278190192]),
           (3, some [4278190190, 4278190190, 4278190191, 4278190192, 4278190192])]
      ∧ copyline_argb32 mame_rgb_t sample_pixels.pixels 4 3 none 1 = [10, 10, 11, 12, 12] :=
  ⟨⟨rfl, by decide, by decide⟩,
    (set_data_border_replicates sample_decls mame_texformat_decls mame_rgb_t (fun _ _ => [])
      hresult.D3D_OK 0x10 sample_pixels 1 1 sample_pixels.pixels 4 3 (fun pix => pix + 100) none
      rfl (by decide) (by decide)).1,
    by decide!, by decide!⟩

/-! ### The vertex buffer and the queued polys -/

/-- After `draw_quad` the vertex counts of the queued polys still sum to at
most `m_numverts`. -/
theorem draw_quad_sum (V : Int) (lock : hresult) (s : mesh_state)
    (h : s.m_poly.sum ≤ s.m_numverts) :
    (draw_quad V lock s).m_poly.sum ≤ (draw_quad V lock s).m_numverts := by
  unfold draw_quad mesh_alloc primitive_flush_pending
  simp only []
  split_ifs <;> simp_all

/-- After `draw_line` the vertex counts of the queued polys still sum to at
most `m_numverts`. -/
theorem draw_line_sum (V : Int) (lock : hresult) (s : mesh_state)
    (h : s.m_poly.sum ≤ s.m_numverts) :
    (draw_line V lock s).m_poly.sum ≤ (draw_line V lock s).m_numverts := by
  unfold draw_line mesh_alloc primitive_flush_pending
  simp only []
  split_ifs <;> simp_all

/-- C30: the vertex counts of the queued polys can exceed `m_numverts` after
`batch_vectors`, which queues its poly also when `mesh_alloc` returned a null
pointer. With `6 * vector_count >= VERTEX_BUFFER_SIZE` and a successful `Lock`
the poly has `6 * vector_count` vertices while `m_numverts` is 0; with a failed
`Lock` in `batch_vectors` followed by a `draw_quad` whose `Lock` succeeds the
polys have 6 and 4 vertices while `m_numverts` is 4. In both cases the
assertion of `primitive_flush_pending` fails. -/
theorem batch_vectors_breaks_assertion (V vector_count : Int) (hV : 4 < V)
    (hn : V ≤ vector_count * 6) :
    batch_vectors V hresult.D3D_OK vector_count flushed_mesh
        = { m_lockedbuf := true, m_numverts := 0, m_poly := [vector_count * 6], asserts := [] }
      ∧ (primitive_flush_pending
          (batch_vectors V hresult.D3D_OK vector_count flushed_mesh)).asserts = [false]
      ∧ draw_quad V hresult.D3D_OK (batch_vectors V hresult.failed 1 flushed_mesh)
        = { m_lockedbuf := true, m_numverts := 4, m_poly := [6, 4], asserts := [] }
      ∧ (primitive_flush_pending
          (draw_quad V hresult.D3D_OK (batch_vectors V hresult.failed 1 flushed_mesh))).asserts
        = [false, false] := by
  have hA : batch_vectors V hresult.D3D_OK vector_count flushed_mesh
      = { m_lockedbuf := true, m_numverts := 0, m_poly := [vector_count * 6], asserts := [] } := by
    unfold batch_vectors mesh_alloc flushed_mesh FAILED
    simp only []
    have h1 : ¬ (vector_count * 6 < V) := by omega
    simp [h1]
  have hB : draw_quad V hresult.D3D_OK (batch_vectors V hresult.failed 1 flushed_mesh)
      = { m_lockedbuf := true, m_numverts := 4, m_poly := [6, 4], asserts := [] } := by
    unfold draw_quad batch_vectors mesh_alloc flushed_mesh FAILED
    simp [hV]
  refine ⟨hA, ?_, hB, ?_⟩
  · rw [hA]
    unfold primitive_flush_pending
    have h1 : ¬ (vector_count * 6 ≤ 0) := by omega
    simp [flush_polys, h1]
  · rw [hB]
    decide

/-- Witness of `batch_vectors_breaks_assertion`: a vertex buffer of 40960
vertices and 6827 vectors. -/
theorem batch_vectors_breaks_assertion_witness :
    ((4 : Int) < 40960 ∧ (40960 : Int) ≤ 6827 * 6)
      ∧ (primitive_flush_pending
          (batch_vectors 40960 hresult.D3D_OK 6827 flushed_mesh)).asserts = [false]
      ∧ (primitive_flush_pending
          (draw_quad 40960 hresult.D3D_OK
            (batch_vectors 40960 hresult.failed 1 flushed_mesh))).asserts = [false, false] :=
  ⟨⟨by decide, by decide⟩,
    (batch_vectors_breaks_assertion 40960 6827 (by decide) (by decide)).2.1,
    (batch_vectors_breaks_assertion 40960 6827 (by decide) (by decide)).2.2.2⟩

end SwitchRes
